import Mathlib

/-!
# FileX file operations (`filex_file_operation.c`)

A shallow embedding of `file_create`, `file_write`, `file_read` and
`file_delete` of the FileX exFAT block-media example, and of the private
helper `create_fixed_buffer`.

The four operations talk to collaborators that are not part of the file: the
FileX store (`fx_*`), the ThreadX event flags (`tx_event_flags_get`), the
media gate (`media_verify`) and the output sink.  The collaborators are a
record of state-passing functions over an arbitrary world type `σ`; every
call and every output is appended, together with the status it returned, to
a trace.  C statements are sequenced in a small monad whose control flow is
either "fall through", "the function executed `return`", or "a loop never
ends".
-/

namespace Filex

/-! ## Constants -/

/-- C `UINT` / `ULONG` values: status codes, lengths and counters. -/
abbrev UINT := Nat

/-- Status `FX_SUCCESS` of the FileX API (`fx_api.h`). -/
def FX_SUCCESS : UINT := 0x00

/-- Status `FX_NOT_FOUND` of the FileX API (`fx_api.h`). -/
def FX_NOT_FOUND : UINT := 0x04

/-- Status `FX_END_OF_FILE` of the FileX API (`fx_api.h`). -/
def FX_END_OF_FILE : UINT := 0x09

/-- Status `FX_ALREADY_CREATED` of the FileX API (`fx_api.h`). -/
def FX_ALREADY_CREATED : UINT := 0x0B

/-- Status `TX_SUCCESS` of the ThreadX API (`tx_api.h`). -/
def TX_SUCCESS : UINT := 0x00

/-- Open type `FX_OPEN_FOR_READ` of the FileX API (`fx_api.h`). -/
def FX_OPEN_FOR_READ : UINT := 0

/-- Open type `FX_OPEN_FOR_WRITE` of the FileX API (`fx_api.h`). -/
def FX_OPEN_FOR_WRITE : UINT := 1

/-- The macro `ONE_BYTE` of `filex.h`. -/
def ONE_BYTE : Nat := 1

/-- Modelled from the spec: the macro `RESET_VALUE` of the absent
`common_utils.h`, the zero every local is initialised with. -/
def RESET_VALUE : Nat := 0

/-- Modelled from the spec: the macro `NULL_CHAR` of the absent
`common_utils.h`, the terminator byte. -/
def NULL_CHAR : Nat := 0

/-- Modelled from the spec: the macro `TRUNCATE_VALUE` of the absent
`filex_file_operation.h`; Truncate "resets the file's logical length to
zero". -/
def TRUNCATE_VALUE : Nat := 0

/-- Modelled from the spec: the macro `SEEK_VALUE` of the absent
`filex_file_operation.h`; the read path does `Seek(0)`. -/
def SEEK_VALUE : Nat := 0

/-- The configuration macros of the absent `filex_file_operation.h`, taken as
parameters.  `WRITE_LINE_TEXT` is the byte sequence of the C string literal.
The source divides by `WRITE_LINE_SIZE` and takes a remainder by
`WRITE_ONE_PERCENT`; both are non-zero in any build of it. -/
structure Config where
  FILE_NAME_ONE : String
  WRITE_LINE_TEXT : List Nat
  WRITE_LINE_SIZE : Nat
  WRITE_BUFFER_SIZE : Nat
  WRITE_TIMES : Nat
  WRITE_ONE_PERCENT : Nat
  READ_BUFFER_SIZE : Nat

/-! ## Data -/

/-- The C struct `time_new_t` (its declaration is in the absent
`filex_file_operation.h`): the six fields the source reads and writes. -/
structure time_new_t where
  year : Nat
  month : Nat
  date : Nat
  hour : Nat
  min : Nat
  sec : Nat
deriving DecidableEq, Repr

/-- The C struct `entry_info_t` (its declaration is in the absent
`filex_file_operation.h`): the fields the source reads and writes. -/
structure entry_info_t where
  name : String
  attr : Nat
  size : Nat
  time : time_new_t
deriving DecidableEq, Repr

/-- A zeroed `time_new_t`, the C initialiser `{RESET_VALUE}`. -/
def time_new_t.reset : time_new_t :=
  { year := RESET_VALUE, month := 0, date := 0, hour := 0, min := 0, sec := 0 }

/-- Every collaborator call and every output, in program order.  A call
carries the arguments the code passed and the status the collaborator
returned; `fx_file_read` also carries what it left in the caller's buffer
and the byte count it reported. -/
inductive Event where
  | media_verify (status : UINT)
  | fx_file_create (name : String) (status : UINT)
  | fx_file_open (name : String) (open_type : UINT) (status : UINT)
  | fx_file_extended_truncate (size : Nat) (status : UINT)
  | fx_file_write (buffer : List Nat) (size : Nat) (status : UINT)
  | fx_file_extended_seek (offset : Nat) (status : UINT)
  | fx_file_read (buffer : List Nat) (request_size : Nat) (status : UINT) (buffer_out : List Nat)
      (actual_size : Nat)
  | fx_file_close (status : UINT)
  | fx_file_delete (name : String) (status : UINT)
  | fx_system_time_get (status : UINT)
  | fx_system_date_get (status : UINT)
  | fx_file_date_time_set (name : String) (time : time_new_t) (status : UINT)
  | fx_media_flush (status : UINT)
  | fx_directory_information_get (name : String) (status : UINT)
  | tx_event_flags_get (status : UINT)
  | PRINT_INFO_STR (str : String)
  | PRINT_ERR_STR (str : String)
  | PRINT_ENTRY_INFO (entry : entry_info_t)
  | send_data_to_rtt (len : Nat) (data : List Nat)
deriving DecidableEq, Repr

/-- The collaborators, as state-passing functions over a world `σ`.  Out
parameters are returned next to the status: `fx_file_read` returns the new
contents of the caller's buffer and the byte count it reports, the clock
and the directory query return the struct they filled in. -/
structure World (σ : Type) where
  media_verify : σ → UINT × σ
  fx_file_create : String → σ → UINT × σ
  fx_file_open : String → UINT → σ → UINT × σ
  fx_file_extended_truncate : Nat → σ → UINT × σ
  fx_file_write : List Nat → Nat → σ → UINT × σ
  fx_file_extended_seek : Nat → σ → UINT × σ
  fx_file_read : List Nat → Nat → σ → (UINT × List Nat × Nat) × σ
  fx_file_close : σ → UINT × σ
  fx_file_delete : String → σ → UINT × σ
  fx_system_time_get : time_new_t → σ → (UINT × time_new_t) × σ
  fx_system_date_get : time_new_t → σ → (UINT × time_new_t) × σ
  fx_file_date_time_set : String → time_new_t → σ → UINT × σ
  fx_media_flush : σ → UINT × σ
  fx_directory_information_get : entry_info_t → σ → (UINT × entry_info_t) × σ
  tx_event_flags_get : σ → UINT × σ

/-! ## Control flow -/

/-- Where control is after a statement: at the next statement, out of the
function through `return status`, or stuck in a loop that never ends. -/
inductive Flow (α : Type) where
  | next (a : α)
  | ret (status : UINT)
  | hang

/-- The state a run threads through: the collaborators' world, the static
buffer `g_write_data`, and the trace so far. -/
structure Run (σ : Type) where
  world : σ
  g_write_data : List Nat
  trace : List Event

/-- A C statement (sequence). -/
def Op (σ α : Type) : Type := Run σ → Flow α × Run σ

/-- The empty statement with a value. -/
def Op.pure {σ α : Type} (a : α) : Op σ α := fun r => (Flow.next a, r)

/-- Sequencing: the second statement runs only if the first fell through. -/
def Op.bind {σ α β : Type} (m : Op σ α) (f : α → Op σ β) : Op σ β := fun r =>
  match m r with
  | (Flow.next a, r1) => f a r1
  | (Flow.ret v, r1) => (Flow.ret v, r1)
  | (Flow.hang, r1) => (Flow.hang, r1)

instance {σ : Type} : Monad (Op σ) where
  pure := Op.pure
  bind := Op.bind

/-- The statement `return status;`. -/
def Op.ret {σ α : Type} (status : UINT) : Op σ α := fun r => (Flow.ret status, r)

/-- A loop that never terminates. -/
def Op.hang {σ α : Type} : Op σ α := fun r => (Flow.hang, r)

/-- The statement `if (c) { body }`. -/
def Op.when {σ : Type} (c : Prop) [Decidable c] (body : Op σ Unit) : Op σ Unit :=
  if c then body else Op.pure ()

/-- Append one event to the trace. -/
def emit {σ : Type} (e : Event) : Op σ Unit := fun r =>
  (Flow.next (), { r with trace := r.trace ++ [e] })

/-- Call a collaborator and log the call with its result. -/
def call {σ α : Type} (f : σ → α × σ) (ev : α → Event) : Op σ α := fun r =>
  (Flow.next (f r.world).1,
    { r with world := (f r.world).2, trace := r.trace ++ [ev (f r.world).1] })

/-- Read the static buffer `g_write_data`. -/
def get_write_data {σ : Type} : Op σ (List Nat) := fun r => (Flow.next r.g_write_data, r)

/-- The result of calling a C function: its return value and the state it
leaves, or nothing when it never returns. -/
def exec {σ : Type} (op : Op σ UINT) (r : Run σ) : Option (UINT × Run σ) :=
  match op r with
  | (Flow.next v, r1) => some (v, r1)
  | (Flow.ret v, r1) => some (v, r1)
  | (Flow.hang, _) => none

/-- What a caller and a test double observe of a call: the value returned and
the events the call added to the trace. -/
def outcome {σ : Type} (op : Op σ UINT) (r : Run σ) : Option (UINT × List Event) :=
  (exec op r).map (fun p => (p.1, p.2.trace.drop r.trace.length))

/-- Is the event a call of `fx_file_close`? -/
def Event.is_close : Event → Bool
  | Event.fx_file_close _ => true
  | _ => false

/-- The number of `fx_file_close` calls in a trace. -/
def close_calls (evs : List Event) : Nat := evs.countP Event.is_close

/-- The status of a failed step: a truncate, write, seek, clock read or
date-time-set that returned anything but `FX_SUCCESS`, a read that returned
anything but `FX_SUCCESS` and `FX_END_OF_FILE`, a wait that returned anything
but `TX_SUCCESS`.  The tests are those of the source. -/
def failed_step : Event → Option UINT
  | Event.fx_file_extended_truncate _ s => if FX_SUCCESS ≠ s then some s else none
  | Event.fx_file_write _ _ s => if FX_SUCCESS ≠ s then some s else none
  | Event.fx_file_extended_seek _ s => if FX_SUCCESS ≠ s then some s else none
  | Event.fx_file_read _ _ s _ _ =>
    if FX_END_OF_FILE ≠ s ∧ FX_SUCCESS ≠ s then some s else none
  | Event.tx_event_flags_get s => if TX_SUCCESS ≠ s then some s else none
  | Event.fx_system_time_get s => if FX_SUCCESS ≠ s then some s else none
  | Event.fx_system_date_get s => if FX_SUCCESS ≠ s then some s else none
  | Event.fx_file_date_time_set _ _ s => if FX_SUCCESS ≠ s then some s else none
  | _ => none

/-- Is the event one of the steps that follow the release of the handle: the
volume flush, the directory query, the entry report or the content
emission? -/
def Event.is_late : Event → Bool
  | Event.fx_media_flush _ => true
  | Event.fx_directory_information_get _ _ => true
  | Event.PRINT_ENTRY_INFO _ => true
  | Event.send_data_to_rtt _ _ => true
  | _ => false

/-- Is the event one of the finalising calls: clock read, date-time-set,
volume flush or directory query? -/
def Event.is_finalize : Event → Bool
  | Event.fx_system_time_get _ => true
  | Event.fx_system_date_get _ => true
  | Event.fx_file_date_time_set _ _ _ => true
  | Event.fx_media_flush _ => true
  | Event.fx_directory_information_get _ _ => true
  | _ => false

/-- The statuses of the completion waits of a trace, in order. -/
def wait_results : List Event → List UINT
  | [] => []
  | Event.tx_event_flags_get s :: evs => s :: wait_results evs
  | _ :: evs => wait_results evs

/-- The statuses of the `fx_file_write` calls of a trace, in order. -/
def write_results : List Event → List UINT
  | [] => []
  | Event.fx_file_write _ _ s :: evs => s :: write_results evs
  | _ :: evs => write_results evs

/-! ## Output macros -/

/-- Modelled from the spec: the macro `PRINT_INFO_STR` of the absent
`common_utils.h`, one informational message to the output sink. -/
def PRINT_INFO_STR {σ : Type} (str : String) : Op σ Unit := emit (Event.PRINT_INFO_STR str)

/-- Modelled from the spec: the macro `PRINT_ENTRY_INFO` of the absent
`common_utils.h`, one formatted entry dump to the output sink. -/
def PRINT_ENTRY_INFO {σ : Type} (entry : entry_info_t) : Op σ Unit :=
  emit (Event.PRINT_ENTRY_INFO entry)

/-- Modelled from the spec: the function `send_data_to_rtt` of the absent
`rtt.c`, called as `send_data_to_rtt(RTT_OUTPUT_APP_INFO_STR, len, data)`: a
content dump of `len` bytes of `data` to the output sink. -/
def send_data_to_rtt {σ : Type} (len : Nat) (data : List Nat) : Op σ Unit :=
  emit (Event.send_data_to_rtt len data)

/-- Modelled from the spec: the macro `RETURN_ERR_STR(err, str)` of the
absent `common_utils.h`.  A non-success status is reported with an "explicit
error message naming the failing step" and returned to the caller; on
success control falls through. -/
def RETURN_ERR_STR {σ : Type} (err : UINT) (str : String) : Op σ Unit :=
  if FX_SUCCESS ≠ err then do
    emit (Event.PRINT_ERR_STR str)
    Op.ret err
  else pure ()

/-! ## `create_fixed_buffer` -/

/-- C `memset(p, c, n)` on a buffer of exactly `n` bytes. -/
def memset (c n : Nat) : List Nat := List.replicate n c

/-- The `n` bytes C `strncpy(dst, src, n)` stores: the string up to its
terminator, cut at `n` bytes, then NUL padding up to `n` bytes. -/
def strncpy (src : List Nat) (n : Nat) : List Nat :=
  (src.takeWhile (fun b => b ≠ 0)).take n
    ++ List.replicate (n - (src.takeWhile (fun b => b ≠ 0)).length) 0

/-- Store `bytes` into `buf` from offset `p` on. -/
def store_at (buf : List Nat) (p : Nat) (bytes : List Nat) : List Nat :=
  buf.take p ++ bytes ++ buf.drop (p + bytes.length)

/-- The `for (uint16_t i = 0; i < WRITE_BUFFER_SIZE / WRITE_LINE_SIZE; i++)`
loop of `create_fixed_buffer`, from the loop test on.  The counter is 16 bits
wide; `p_data` is the offset of the write pointer into `g_write_data`.  The
result is `none` when the fuel runs out. -/
def create_fixed_buffer_loop (cfg : Config) : Nat → Nat → Nat → List Nat → Option (List Nat)
  | 0, _, _, _ => none
  | fuel + 1, i, p_data, buf =>
    if i < cfg.WRITE_BUFFER_SIZE / cfg.WRITE_LINE_SIZE then
      create_fixed_buffer_loop cfg fuel ((i + 1) % 2 ^ 16) (p_data + cfg.WRITE_LINE_SIZE)
        (store_at buf p_data (strncpy cfg.WRITE_LINE_TEXT cfg.WRITE_LINE_SIZE))
    else some buf

/-- The function `create_fixed_buffer`.  A 16-bit counter takes `2 ^ 16`
values, so a loop that has not left after `2 ^ 16 + 1` tests never does. -/
def create_fixed_buffer {σ : Type} (cfg : Config) : Op σ Unit := fun r =>
  match create_fixed_buffer_loop cfg (2 ^ 16 + 1) 0 0 (memset NULL_CHAR cfg.WRITE_BUFFER_SIZE) with
  | some buf => (Flow.next (), { r with g_write_data := buf })
  | none => (Flow.hang, r)

/-! ## `file_create` -/

/-- The function `file_create`. -/
def file_create {σ : Type} (cfg : Config) (W : World σ) : Op σ UINT := do
  let entry : entry_info_t :=
    { name := "", attr := 0, size := 0, time := time_new_t.reset }
  let status ← call W.media_verify Event.media_verify
  Op.when (FX_SUCCESS ≠ status) do
    Op.ret FX_SUCCESS
  let status ← call (W.fx_file_create cfg.FILE_NAME_ONE) (Event.fx_file_create cfg.FILE_NAME_ONE)
  Op.when (FX_ALREADY_CREATED = status) do
    PRINT_INFO_STR "File already exists\r\n"
    Op.ret FX_SUCCESS
  Op.when (FX_SUCCESS ≠ status) do
    RETURN_ERR_STR status "fx_file_create failed\r\n"
  let status ← call W.fx_media_flush Event.fx_media_flush
  RETURN_ERR_STR status "fx_media_flush failed\r\n"
  let entry := { entry with name := cfg.FILE_NAME_ONE }
  let res ← call (W.fx_directory_information_get entry)
    (fun res => Event.fx_directory_information_get entry.name res.1)
  let status := res.1
  let entry := res.2
  RETURN_ERR_STR status "fx_directory_information_get failed\r\n"
  PRINT_ENTRY_INFO entry
  PRINT_INFO_STR "\r\nFile created successful\r\n"
  Op.ret FX_SUCCESS

/-! ## `file_write` -/

/-- The transfer loop `for (ULONG i = 0; i < WRITE_TIMES; i++)` of
`file_write`, from the loop test on; the counter is 32 bits wide. -/
def write_loop {σ : Type} (cfg : Config) (W : World σ) : Nat → Nat → Op σ Unit
  | 0, _ => Op.hang
  | fuel + 1, i =>
    if i < cfg.WRITE_TIMES then do
      let g_write_data ← get_write_data
      let status ← call (W.fx_file_write g_write_data cfg.WRITE_BUFFER_SIZE)
        (Event.fx_file_write g_write_data cfg.WRITE_BUFFER_SIZE)
      Op.when (FX_SUCCESS ≠ status) do
        let status_temp ← call W.fx_file_close Event.fx_file_close
        RETURN_ERR_STR status_temp "fx_file_close failed\r\n"
        RETURN_ERR_STR status "fx_file_write failed\r\n"
      let status ← call W.tx_event_flags_get Event.tx_event_flags_get
      Op.when (TX_SUCCESS ≠ status) do
        let status_temp ← call W.fx_file_close Event.fx_file_close
        RETURN_ERR_STR status_temp "fx_file_close failed\r\n"
        RETURN_ERR_STR status
          "tx_event_flags_get for RM_BLOCK_MEDIA_EVENT_WAIT_END event failed\r\n"
      Op.when (RESET_VALUE = i % cfg.WRITE_ONE_PERCENT) do
        PRINT_INFO_STR "."
      write_loop cfg W fuel ((i + 1) % 2 ^ 32)
    else pure ()

/-- The function `file_write`.  A 32-bit counter takes `2 ^ 32` values, so a
transfer loop that has not left after `2 ^ 32 + 1` tests never does. -/
def file_write {σ : Type} (cfg : Config) (W : World σ) : Op σ UINT := do
  let time : time_new_t := time_new_t.reset
  let entry : entry_info_t :=
    { name := "", attr := 0, size := 0, time := time_new_t.reset }
  let status ← call W.media_verify Event.media_verify
  Op.when (FX_SUCCESS ≠ status) do
    Op.ret FX_SUCCESS
  let status ← call (W.fx_file_open cfg.FILE_NAME_ONE FX_OPEN_FOR_WRITE)
    (Event.fx_file_open cfg.FILE_NAME_ONE FX_OPEN_FOR_WRITE)
  Op.when (FX_NOT_FOUND = status) do
    PRINT_INFO_STR "File does not exist\r\n"
    Op.ret FX_SUCCESS
  Op.when (FX_SUCCESS ≠ status) do
    RETURN_ERR_STR status "fx_file_open failed\r\n"
  let status ← call (W.fx_file_extended_truncate TRUNCATE_VALUE)
    (Event.fx_file_extended_truncate TRUNCATE_VALUE)
  Op.when (FX_SUCCESS ≠ status) do
    let status_temp ← call W.fx_file_close Event.fx_file_close
    RETURN_ERR_STR status_temp "fx_file_close failed\r\n"
    RETURN_ERR_STR status "fx_file_extended_truncate failed\r\n"
  create_fixed_buffer cfg
  write_loop cfg W (2 ^ 32 + 1) 0
  PRINT_INFO_STR "\r\n\r\n"
  let res ← call (W.fx_system_time_get time) (fun res => Event.fx_system_time_get res.1)
  let status := res.1
  let time := res.2
  Op.when (FX_SUCCESS ≠ status) do
    let status_temp ← call W.fx_file_close Event.fx_file_close
    RETURN_ERR_STR status_temp "fx_file_close failed\r\n"
    RETURN_ERR_STR status "fx_system_time_get failed\r\n"
  let res ← call (W.fx_system_date_get time) (fun res => Event.fx_system_date_get res.1)
  let status := res.1
  let time := res.2
  Op.when (FX_SUCCESS ≠ status) do
    let status_temp ← call W.fx_file_close Event.fx_file_close
    RETURN_ERR_STR status_temp "fx_file_close failed\r\n"
    RETURN_ERR_STR status "fx_system_date_get failed\r\n"
  let status ← call (W.fx_file_date_time_set cfg.FILE_NAME_ONE time)
    (Event.fx_file_date_time_set cfg.FILE_NAME_ONE time)
  Op.when (FX_SUCCESS ≠ status) do
    let status_temp ← call W.fx_file_close Event.fx_file_close
    RETURN_ERR_STR status_temp "fx_file_close failed\r\n"
    RETURN_ERR_STR status "fx_file_date_time_set failed\r\n"
  let status ← call W.fx_file_close Event.fx_file_close
  RETURN_ERR_STR status "fx_file_close failed\r\n"
  let status ← call W.fx_media_flush Event.fx_media_flush
  RETURN_ERR_STR status "fx_media_flush failed\r\n"
  let entry := { entry with name := cfg.FILE_NAME_ONE }
  let res ← call (W.fx_directory_information_get entry)
    (fun res => Event.fx_directory_information_get entry.name res.1)
  let status := res.1
  let entry := res.2
  RETURN_ERR_STR status "fx_directory_information_get failed\r\n"
  PRINT_ENTRY_INFO entry
  PRINT_INFO_STR "\r\nWrite to a file successful\r\n"
  Op.ret FX_SUCCESS

/-! ## `file_read` -/

/-- The function `file_read`.  The local `g_read_data` has
`READ_BUFFER_SIZE + ONE_BYTE` bytes, all zero before the read. -/
def file_read {σ : Type} (cfg : Config) (W : World σ) : Op σ UINT := do
  let entry : entry_info_t :=
    { name := "", attr := 0, size := 0, time := time_new_t.reset }
  let g_read_data : List Nat :=
    RESET_VALUE :: List.replicate (cfg.READ_BUFFER_SIZE + ONE_BYTE - 1) 0
  let status ← call W.media_verify Event.media_verify
  Op.when (FX_SUCCESS ≠ status) do
    Op.ret FX_SUCCESS
  let status ← call (W.fx_file_open cfg.FILE_NAME_ONE FX_OPEN_FOR_READ)
    (Event.fx_file_open cfg.FILE_NAME_ONE FX_OPEN_FOR_READ)
  Op.when (FX_NOT_FOUND = status) do
    PRINT_INFO_STR "File does not exist\r\n"
    Op.ret FX_SUCCESS
  Op.when (FX_SUCCESS ≠ status) do
    RETURN_ERR_STR status "fx_file_open failed\r\n"
  let status ← call (W.fx_file_extended_seek SEEK_VALUE) (Event.fx_file_extended_seek SEEK_VALUE)
  Op.when (FX_SUCCESS ≠ status) do
    let status_temp ← call W.fx_file_close Event.fx_file_close
    RETURN_ERR_STR status_temp "fx_file_close failed\r\n"
    RETURN_ERR_STR status "fx_file_extended_seek failed\r\n"
  let res ← call (W.fx_file_read g_read_data cfg.READ_BUFFER_SIZE)
    (fun res => Event.fx_file_read g_read_data cfg.READ_BUFFER_SIZE res.1 res.2.1 res.2.2)
  let status := res.1
  let g_read_data := res.2.1
  let len := res.2.2
  Op.when (FX_END_OF_FILE ≠ status ∧ FX_SUCCESS ≠ status) do
    let status_temp ← call W.fx_file_close Event.fx_file_close
    RETURN_ERR_STR status_temp "fx_file_close failed\r\n"
    RETURN_ERR_STR status "fx_file_read failed\r\n"
  let status ← call W.tx_event_flags_get Event.tx_event_flags_get
  Op.when (TX_SUCCESS ≠ status) do
    let status_temp ← call W.fx_file_close Event.fx_file_close
    RETURN_ERR_STR status_temp "fx_file_close failed\r\n"
    RETURN_ERR_STR status "tx_event_flags_get media completed flag failed\r\n"
  let status ← call W.fx_file_close Event.fx_file_close
  RETURN_ERR_STR status "fx_file_close failed\r\n"
  let entry := { entry with name := cfg.FILE_NAME_ONE }
  let res ← call (W.fx_directory_information_get entry)
    (fun res => Event.fx_directory_information_get entry.name res.1)
  let status := res.1
  let entry := res.2
  RETURN_ERR_STR status "fx_directory_information_get failed\r\n"
  PRINT_ENTRY_INFO entry
  (if cfg.READ_BUFFER_SIZE > len then do
    PRINT_INFO_STR "\r\nContent of the file\r\n\r\n"
    send_data_to_rtt ((len + ONE_BYTE) % 2 ^ 32) g_read_data
  else do
    PRINT_INFO_STR "\r\nContent of the first 1 kB of the file\r\n\r\n"
    send_data_to_rtt ((cfg.READ_BUFFER_SIZE + ONE_BYTE) % 2 ^ 32) g_read_data)
  PRINT_INFO_STR "\r\nEnd\r\n"
  Op.ret FX_SUCCESS

/-! ## `file_delete` -/

/-- The function `file_delete`. -/
def file_delete {σ : Type} (cfg : Config) (W : World σ) : Op σ UINT := do
  let status ← call W.media_verify Event.media_verify
  Op.when (FX_SUCCESS ≠ status) do
    Op.ret FX_SUCCESS
  let status ← call (W.fx_file_delete cfg.FILE_NAME_ONE) (Event.fx_file_delete cfg.FILE_NAME_ONE)
  Op.when (FX_NOT_FOUND = status) do
    PRINT_INFO_STR "File does not exist\r\n"
    Op.ret FX_SUCCESS
  Op.when (FX_SUCCESS ≠ status) do
    RETURN_ERR_STR status "fx_file_delete failed\r\n"
  let status ← call W.fx_media_flush Event.fx_media_flush
  RETURN_ERR_STR status "fx_media_flush failed\r\n"
  PRINT_INFO_STR "File has been deleted\r\n"
  Op.ret FX_SUCCESS

/-! ## A scripted test double -/

/-- A script: the status each collaborator returns at its `n`-th call
(counted from 0 per collaborator), the out-values of the clock and of the
directory query, and the bytes the `n`-th `fx_file_read` stores at the start
of the caller's buffer (at most the requested size) with the count it
reports. -/
structure Script where
  media_verify : Nat → UINT
  fx_file_create : Nat → UINT
  fx_file_open : Nat → UINT
  fx_file_extended_truncate : Nat → UINT
  fx_file_write : Nat → UINT
  fx_file_extended_seek : Nat → UINT
  fx_file_read : Nat → UINT × List Nat × Nat
  fx_file_close : Nat → UINT
  fx_file_delete : Nat → UINT
  fx_system_time_get : Nat → UINT
  fx_system_date_get : Nat → UINT
  fx_file_date_time_set : Nat → UINT
  fx_media_flush : Nat → UINT
  fx_directory_information_get : Nat → UINT
  tx_event_flags_get : Nat → UINT

/-- The world of the test double: how often each collaborator has been called. -/
structure Calls where
  media_verify : Nat
  fx_file_create : Nat
  fx_file_open : Nat
  fx_file_extended_truncate : Nat
  fx_file_write : Nat
  fx_file_extended_seek : Nat
  fx_file_read : Nat
  fx_file_close : Nat
  fx_file_delete : Nat
  fx_system_time_get : Nat
  fx_system_date_get : Nat
  fx_file_date_time_set : Nat
  fx_media_flush : Nat
  fx_directory_information_get : Nat
  tx_event_flags_get : Nat
deriving DecidableEq, Repr

/-- No call made yet. -/
def Calls.zero : Calls :=
  { media_verify := 0, fx_file_create := 0, fx_file_open := 0, fx_file_extended_truncate := 0,
    fx_file_write := 0, fx_file_extended_seek := 0, fx_file_read := 0, fx_file_close := 0,
    fx_file_delete := 0, fx_system_time_get := 0, fx_system_date_get := 0,
    fx_file_date_time_set := 0, fx_media_flush := 0, fx_directory_information_get := 0,
    tx_event_flags_get := 0 }

/-- The test double that plays a script. -/
def Script.world (S : Script) : World Calls where
  media_verify := fun c => (S.media_verify c.media_verify, { c with media_verify := c.media_verify + 1 })
  fx_file_create := fun _ c =>
    (S.fx_file_create c.fx_file_create, { c with fx_file_create := c.fx_file_create + 1 })
  fx_file_open := fun _ _ c =>
    (S.fx_file_open c.fx_file_open, { c with fx_file_open := c.fx_file_open + 1 })
  fx_file_extended_truncate := fun _ c =>
    (S.fx_file_extended_truncate c.fx_file_extended_truncate,
      { c with fx_file_extended_truncate := c.fx_file_extended_truncate + 1 })
  fx_file_write := fun _ _ c =>
    (S.fx_file_write c.fx_file_write, { c with fx_file_write := c.fx_file_write + 1 })
  fx_file_extended_seek := fun _ c =>
    (S.fx_file_extended_seek c.fx_file_extended_seek,
      { c with fx_file_extended_seek := c.fx_file_extended_seek + 1 })
  fx_file_read := fun buf request c =>
    (((S.fx_file_read c.fx_file_read).1,
        store_at buf 0 ((S.fx_file_read c.fx_file_read).2.1.take request),
        (S.fx_file_read c.fx_file_read).2.2),
      { c with fx_file_read := c.fx_file_read + 1 })
  fx_file_close := fun c =>
    (S.fx_file_close c.fx_file_close, { c with fx_file_close := c.fx_file_close + 1 })
  fx_file_delete := fun _ c =>
    (S.fx_file_delete c.fx_file_delete, { c with fx_file_delete := c.fx_file_delete + 1 })
  fx_system_time_get := fun t c =>
    ((S.fx_system_time_get c.fx_system_time_get, t),
      { c with fx_system_time_get := c.fx_system_time_get + 1 })
  fx_system_date_get := fun t c =>
    ((S.fx_system_date_get c.fx_system_date_get, t),
      { c with fx_system_date_get := c.fx_system_date_get + 1 })
  fx_file_date_time_set := fun _ _ c =>
    (S.fx_file_date_time_set c.fx_file_date_time_set,
      { c with fx_file_date_time_set := c.fx_file_date_time_set + 1 })
  fx_media_flush := fun c =>
    (S.fx_media_flush c.fx_media_flush, { c with fx_media_flush := c.fx_media_flush + 1 })
  fx_directory_information_get := fun e c =>
    ((S.fx_directory_information_get c.fx_directory_information_get, e),
      { c with fx_directory_information_get := c.fx_directory_information_get + 1 })
  tx_event_flags_get := fun c =>
    (S.tx_event_flags_get c.tx_event_flags_get,
      { c with tx_event_flags_get := c.tx_event_flags_get + 1 })

/-- The script in which every call succeeds and the read stores nothing. -/
def Script.ok : Script :=
  { media_verify := fun _ => FX_SUCCESS, fx_file_create := fun _ => FX_SUCCESS,
    fx_file_open := fun _ => FX_SUCCESS, fx_file_extended_truncate := fun _ => FX_SUCCESS,
    fx_file_write := fun _ => FX_SUCCESS, fx_file_extended_seek := fun _ => FX_SUCCESS,
    fx_file_read := fun _ => (FX_SUCCESS, [], 0), fx_file_close := fun _ => FX_SUCCESS,
    fx_file_delete := fun _ => FX_SUCCESS, fx_system_time_get := fun _ => FX_SUCCESS,
    fx_system_date_get := fun _ => FX_SUCCESS, fx_file_date_time_set := fun _ => FX_SUCCESS,
    fx_media_flush := fun _ => FX_SUCCESS, fx_directory_information_get := fun _ => FX_SUCCESS,
    tx_event_flags_get := fun _ => TX_SUCCESS }

/-- A small configuration: two chunks of four bytes, lines of two bytes, a
read cap of four bytes. -/
def Config.small : Config :=
  { FILE_NAME_ONE := "file.txt", WRITE_LINE_TEXT := [65, 66, 67], WRITE_LINE_SIZE := 2,
    WRITE_BUFFER_SIZE := 4, WRITE_TIMES := 2, WRITE_ONE_PERCENT := 1, READ_BUFFER_SIZE := 4 }

/-- The start of a run of the test double: no call made, the static buffer
zeroed, an empty trace. -/
def Run.start (cfg : Config) : Run Calls :=
  { world := Calls.zero, g_write_data := List.replicate cfg.WRITE_BUFFER_SIZE 0, trace := [] }

/-! ## Paths of the operations, and more test doubles -/

/-- Statement `m`, started in state `r`, extends the trace by some events
`evs` and leaves control at `fl`, with `Q fl evs`. -/
def Runs {σ α : Type} (m : Op σ α) (r : Run σ) (Q : Flow α → List Event → Prop) : Prop :=
  ∃ evs, (m r).2.trace = r.trace ++ evs ∧ Q (m r).1 evs

/-- The zeroed local buffer `g_read_data` that `file_read` hands to
`fx_file_read`. -/
def read_buffer (cfg : Config) : List Nat :=
  RESET_VALUE :: List.replicate (cfg.READ_BUFFER_SIZE + ONE_BYTE - 1) 0

/-- The paths through `file_read`: the status returned and the events of the
call, one constructor per `return`. -/
inductive ReadRun (cfg : Config) : UINT → List Event → Prop
  | not_ready (v : UINT) (hv : FX_SUCCESS ≠ v) :
    ReadRun cfg FX_SUCCESS [Event.media_verify v]
  | not_found :
    ReadRun cfg FX_SUCCESS
      [Event.media_verify FX_SUCCESS,
        Event.fx_file_open cfg.FILE_NAME_ONE FX_OPEN_FOR_READ FX_NOT_FOUND,
        Event.PRINT_INFO_STR "File does not exist\r\n"]
  | open_failed (o : UINT) (h1 : ¬FX_NOT_FOUND = o) (h2 : FX_SUCCESS ≠ o) :
    ReadRun cfg o
      [Event.media_verify FX_SUCCESS,
        Event.fx_file_open cfg.FILE_NAME_ONE FX_OPEN_FOR_READ o,
        Event.PRINT_ERR_STR "fx_file_open failed\r\n"]
  | seek_failed_close_failed (s c : UINT) (hs : FX_SUCCESS ≠ s) (hc : FX_SUCCESS ≠ c) :
    ReadRun cfg c
      [Event.media_verify FX_SUCCESS,
        Event.fx_file_open cfg.FILE_NAME_ONE FX_OPEN_FOR_READ FX_SUCCESS,
        Event.fx_file_extended_seek SEEK_VALUE s,
        Event.fx_file_close c,
        Event.PRINT_ERR_STR "fx_file_close failed\r\n"]
  | seek_failed (s : UINT) (hs : FX_SUCCESS ≠ s) :
    ReadRun cfg s
      [Event.media_verify FX_SUCCESS,
        Event.fx_file_open cfg.FILE_NAME_ONE FX_OPEN_FOR_READ FX_SUCCESS,
        Event.fx_file_extended_seek SEEK_VALUE s,
        Event.fx_file_close FX_SUCCESS,
        Event.PRINT_ERR_STR "fx_file_extended_seek failed\r\n"]
  | read_failed_close_failed (rs : UINT) (data : List Nat) (len c : Nat)
      (h1 : FX_END_OF_FILE ≠ rs) (h2 : FX_SUCCESS ≠ rs) (hc : FX_SUCCESS ≠ c) :
    ReadRun cfg c
      [Event.media_verify FX_SUCCESS,
        Event.fx_file_open cfg.FILE_NAME_ONE FX_OPEN_FOR_READ FX_SUCCESS,
        Event.fx_file_extended_seek SEEK_VALUE FX_SUCCESS,
        Event.fx_file_read (read_buffer cfg) cfg.READ_BUFFER_SIZE rs data len,
        Event.fx_file_close c,
        Event.PRINT_ERR_STR "fx_file_close failed\r\n"]
  | read_failed (rs : UINT) (data : List Nat) (len : Nat)
      (h1 : FX_END_OF_FILE ≠ rs) (h2 : FX_SUCCESS ≠ rs) :
    ReadRun cfg rs
      [Event.media_verify FX_SUCCESS,
        Event.fx_file_open cfg.FILE_NAME_ONE FX_OPEN_FOR_READ FX_SUCCESS,
        Event.fx_file_extended_seek SEEK_VALUE FX_SUCCESS,
        Event.fx_file_read (read_buffer cfg) cfg.READ_BUFFER_SIZE rs data len,
        Event.fx_file_close FX_SUCCESS,
        Event.PRINT_ERR_STR "fx_file_read failed\r\n"]
  | close_failed (rs : UINT) (data : List Nat) (len c : Nat)
      (hrs : ¬(FX_END_OF_FILE ≠ rs ∧ FX_SUCCESS ≠ rs)) (hc : FX_SUCCESS ≠ c) :
    ReadRun cfg c
      [Event.media_verify FX_SUCCESS,
        Event.fx_file_open cfg.FILE_NAME_ONE FX_OPEN_FOR_READ FX_SUCCESS,
        Event.fx_file_extended_seek SEEK_VALUE FX_SUCCESS,
        Event.fx_file_read (read_buffer cfg) cfg.READ_BUFFER_SIZE rs data len,
        Event.tx_event_flags_get TX_SUCCESS,
        Event.fx_file_close c,
        Event.PRINT_ERR_STR "fx_file_close failed\r\n"]
  | wait_failed_close_failed (rs : UINT) (data : List Nat) (len t c : Nat)
      (hrs : ¬(FX_END_OF_FILE ≠ rs ∧ FX_SUCCESS ≠ rs)) (ht : TX_SUCCESS ≠ t)
      (hc : FX_SUCCESS ≠ c) :
    ReadRun cfg c
      [Event.media_verify FX_SUCCESS,
        Event.fx_file_open cfg.FILE_NAME_ONE FX_OPEN_FOR_READ FX_SUCCESS,
        Event.fx_file_extended_seek SEEK_VALUE FX_SUCCESS,
        Event.fx_file_read (read_buffer cfg) cfg.READ_BUFFER_SIZE rs data len,
        Event.tx_event_flags_get t,
        Event.fx_file_close c,
        Event.PRINT_ERR_STR "fx_file_close failed\r\n"]
  | wait_failed (rs : UINT) (data : List Nat) (len t : Nat)
      (hrs : ¬(FX_END_OF_FILE ≠ rs ∧ FX_SUCCESS ≠ rs)) (ht : TX_SUCCESS ≠ t) :
    ReadRun cfg t
      [Event.media_verify FX_SUCCESS,
        Event.fx_file_open cfg.FILE_NAME_ONE FX_OPEN_FOR_READ FX_SUCCESS,
        Event.fx_file_extended_seek SEEK_VALUE FX_SUCCESS,
        Event.fx_file_read (read_buffer cfg) cfg.READ_BUFFER_SIZE rs data len,
        Event.tx_event_flags_get t,
        Event.fx_file_close FX_SUCCESS,
        Event.PRINT_ERR_STR "tx_event_flags_get media completed flag failed\r\n"]
  | query_failed (rs : UINT) (data : List Nat) (len d : Nat)
      (hrs : ¬(FX_END_OF_FILE ≠ rs ∧ FX_SUCCESS ≠ rs)) (hd : FX_SUCCESS ≠ d) :
    ReadRun cfg d
      [Event.media_verify FX_SUCCESS,
        Event.fx_file_open cfg.FILE_NAME_ONE FX_OPEN_FOR_READ FX_SUCCESS,
        Event.fx_file_extended_seek SEEK_VALUE FX_SUCCESS,
        Event.fx_file_read (read_buffer cfg) cfg.READ_BUFFER_SIZE rs data len,
        Event.tx_event_flags_get TX_SUCCESS,
        Event.fx_file_close FX_SUCCESS,
        Event.fx_directory_information_get cfg.FILE_NAME_ONE d,
        Event.PRINT_ERR_STR "fx_directory_information_get failed\r\n"]
  | whole (rs : UINT) (data : List Nat) (len : Nat) (entry : entry_info_t)
      (hrs : ¬(FX_END_OF_FILE ≠ rs ∧ FX_SUCCESS ≠ rs)) (hlen : cfg.READ_BUFFER_SIZE > len) :
    ReadRun cfg FX_SUCCESS
      [Event.media_verify FX_SUCCESS,
        Event.fx_file_open cfg.FILE_NAME_ONE FX_OPEN_FOR_READ FX_SUCCESS,
        Event.fx_file_extended_seek SEEK_VALUE FX_SUCCESS,
        Event.fx_file_read (read_buffer cfg) cfg.READ_BUFFER_SIZE rs data len,
        Event.tx_event_flags_get TX_SUCCESS,
        Event.fx_file_close FX_SUCCESS,
        Event.fx_directory_information_get cfg.FILE_NAME_ONE FX_SUCCESS,
        Event.PRINT_ENTRY_INFO entry,
        Event.PRINT_INFO_STR "\r\nContent of the file\r\n\r\n",
        Event.send_data_to_rtt ((len + ONE_BYTE) % 2 ^ 32) data,
        Event.PRINT_INFO_STR "\r\nEnd\r\n"]
  | preview (rs : UINT) (data : List Nat) (len : Nat) (entry : entry_info_t)
      (hrs : ¬(FX_END_OF_FILE ≠ rs ∧ FX_SUCCESS ≠ rs)) (hlen : ¬cfg.READ_BUFFER_SIZE > len) :
    ReadRun cfg FX_SUCCESS
      [Event.media_verify FX_SUCCESS,
        Event.fx_file_open cfg.FILE_NAME_ONE FX_OPEN_FOR_READ FX_SUCCESS,
        Event.fx_file_extended_seek SEEK_VALUE FX_SUCCESS,
        Event.fx_file_read (read_buffer cfg) cfg.READ_BUFFER_SIZE rs data len,
        Event.tx_event_flags_get TX_SUCCESS,
        Event.fx_file_close FX_SUCCESS,
        Event.fx_directory_information_get cfg.FILE_NAME_ONE FX_SUCCESS,
        Event.PRINT_ENTRY_INFO entry,
        Event.PRINT_INFO_STR "\r\nContent of the first 1 kB of the file\r\n\r\n",
        Event.send_data_to_rtt ((cfg.READ_BUFFER_SIZE + ONE_BYTE) % 2 ^ 32) data,
        Event.PRINT_INFO_STR "\r\nEnd\r\n"]

/-- The paths through `file_create`. -/
inductive CreateRun (cfg : Config) : UINT → List Event → Prop
  | not_ready (v : UINT) (hv : FX_SUCCESS ≠ v) :
    CreateRun cfg FX_SUCCESS [Event.media_verify v]
  | already_created :
    CreateRun cfg FX_SUCCESS
      [Event.media_verify FX_SUCCESS,
        Event.fx_file_create cfg.FILE_NAME_ONE FX_ALREADY_CREATED,
        Event.PRINT_INFO_STR "File already exists\r\n"]
  | create_failed (c : UINT) (h1 : ¬FX_ALREADY_CREATED = c) (h2 : FX_SUCCESS ≠ c) :
    CreateRun cfg c
      [Event.media_verify FX_SUCCESS,
        Event.fx_file_create cfg.FILE_NAME_ONE c,
        Event.PRINT_ERR_STR "fx_file_create failed\r\n"]
  | flush_failed (f : UINT) (hf : FX_SUCCESS ≠ f) :
    CreateRun cfg f
      [Event.media_verify FX_SUCCESS,
        Event.fx_file_create cfg.FILE_NAME_ONE FX_SUCCESS,
        Event.fx_media_flush f,
        Event.PRINT_ERR_STR "fx_media_flush failed\r\n"]
  | query_failed (d : UINT) (hd : FX_SUCCESS ≠ d) :
    CreateRun cfg d
      [Event.media_verify FX_SUCCESS,
        Event.fx_file_create cfg.FILE_NAME_ONE FX_SUCCESS,
        Event.fx_media_flush FX_SUCCESS,
        Event.fx_directory_information_get cfg.FILE_NAME_ONE d,
        Event.PRINT_ERR_STR "fx_directory_information_get failed\r\n"]
  | created (entry : entry_info_t) :
    CreateRun cfg FX_SUCCESS
      [Event.media_verify FX_SUCCESS,
        Event.fx_file_create cfg.FILE_NAME_ONE FX_SUCCESS,
        Event.fx_media_flush FX_SUCCESS,
        Event.fx_directory_information_get cfg.FILE_NAME_ONE FX_SUCCESS,
        Event.PRINT_ENTRY_INFO entry,
        Event.PRINT_INFO_STR "\r\nFile created successful\r\n"]

/-- The paths through `file_delete`. -/
inductive DeleteRun (cfg : Config) : UINT → List Event → Prop
  | not_ready (v : UINT) (hv : FX_SUCCESS ≠ v) :
    DeleteRun cfg FX_SUCCESS [Event.media_verify v]
  | not_found :
    DeleteRun cfg FX_SUCCESS
      [Event.media_verify FX_SUCCESS,
        Event.fx_file_delete cfg.FILE_NAME_ONE FX_NOT_FOUND,
        Event.PRINT_INFO_STR "File does not exist\r\n"]
  | delete_failed (d : UINT) (h1 : ¬FX_NOT_FOUND = d) (h2 : FX_SUCCESS ≠ d) :
    DeleteRun cfg d
      [Event.media_verify FX_SUCCESS,
        Event.fx_file_delete cfg.FILE_NAME_ONE d,
        Event.PRINT_ERR_STR "fx_file_delete failed\r\n"]
  | flush_failed (f : UINT) (hf : FX_SUCCESS ≠ f) :
    DeleteRun cfg f
      [Event.media_verify FX_SUCCESS,
        Event.fx_file_delete cfg.FILE_NAME_ONE FX_SUCCESS,
        Event.fx_media_flush f,
        Event.PRINT_ERR_STR "fx_media_flush failed\r\n"]
  | deleted :
    DeleteRun cfg FX_SUCCESS
      [Event.media_verify FX_SUCCESS,
        Event.fx_file_delete cfg.FILE_NAME_ONE FX_SUCCESS,
        Event.fx_media_flush FX_SUCCESS,
        Event.PRINT_INFO_STR "File has been deleted\r\n"]

/-- The contents of `g_write_data` after `create_fixed_buffer`. -/
def fixed_buffer (cfg : Config) : List Nat :=
  (create_fixed_buffer_loop cfg (2 ^ 16 + 1) 0 0 (memset NULL_CHAR cfg.WRITE_BUFFER_SIZE)).getD []

/-- The events of one successful pass through the body of the transfer loop,
at counter value `i`. -/
def chunk (cfg : Config) (buf : List Nat) (i : Nat) : List Event :=
  Event.fx_file_write buf cfg.WRITE_BUFFER_SIZE FX_SUCCESS
    :: Event.tx_event_flags_get TX_SUCCESS
    :: (if RESET_VALUE = i % cfg.WRITE_ONE_PERCENT then [Event.PRINT_INFO_STR "."] else [])

/-- The events of `k` successful passes, from counter value `i` on. -/
def chunks (cfg : Config) (buf : List Nat) : Nat → Nat → List Event
  | _, 0 => []
  | i, k + 1 => chunk cfg buf i ++ chunks cfg buf (i + 1) k

/-- The ways the transfer loop, entered at counter value `i`, ends: it falls
through after the last chunk, or returns from chunk `i + k` after `k`
successful passes. -/
inductive LoopRun (cfg : Config) (buf : List Nat) (i : Nat) : Flow Unit → List Event → Prop
  | done : LoopRun cfg buf i (Flow.next ()) (chunks cfg buf i (cfg.WRITE_TIMES - i))
  | write_failed_close_failed (k : Nat) (s c : UINT) (hk : i + k < cfg.WRITE_TIMES)
      (hs : FX_SUCCESS ≠ s) (hc : FX_SUCCESS ≠ c) :
    LoopRun cfg buf i (Flow.ret c)
      (chunks cfg buf i k ++
        [Event.fx_file_write buf cfg.WRITE_BUFFER_SIZE s,
          Event.fx_file_close c,
          Event.PRINT_ERR_STR "fx_file_close failed\r\n"])
  | write_failed (k : Nat) (s : UINT) (hk : i + k < cfg.WRITE_TIMES) (hs : FX_SUCCESS ≠ s) :
    LoopRun cfg buf i (Flow.ret s)
      (chunks cfg buf i k ++
        [Event.fx_file_write buf cfg.WRITE_BUFFER_SIZE s,
          Event.fx_file_close FX_SUCCESS,
          Event.PRINT_ERR_STR "fx_file_write failed\r\n"])
  | wait_failed_close_failed (k : Nat) (t c : UINT) (hk : i + k < cfg.WRITE_TIMES)
      (ht : TX_SUCCESS ≠ t) (hc : FX_SUCCESS ≠ c) :
    LoopRun cfg buf i (Flow.ret c)
      (chunks cfg buf i k ++
        [Event.fx_file_write buf cfg.WRITE_BUFFER_SIZE FX_SUCCESS,
          Event.tx_event_flags_get t,
          Event.fx_file_close c,
          Event.PRINT_ERR_STR "fx_file_close failed\r\n"])
  | wait_failed (k : Nat) (t : UINT) (hk : i + k < cfg.WRITE_TIMES) (ht : TX_SUCCESS ≠ t) :
    LoopRun cfg buf i (Flow.ret t)
      (chunks cfg buf i k ++
        [Event.fx_file_write buf cfg.WRITE_BUFFER_SIZE FX_SUCCESS,
          Event.tx_event_flags_get t,
          Event.fx_file_close FX_SUCCESS,
          Event.PRINT_ERR_STR
            "tx_event_flags_get for RM_BLOCK_MEDIA_EVENT_WAIT_END event failed\r\n"])

/-- The paths through `file_write`: the status returned and the events of
the call, one constructor per `return`.  A return from inside the transfer
loop happens at chunk `k`, after `k` chunks passed. -/
inductive WriteRun (cfg : Config) : UINT → List Event → Prop
  | not_ready (v : UINT) (hv : FX_SUCCESS ≠ v) :
    WriteRun cfg FX_SUCCESS
      [Event.media_verify v]
  | not_found :
    WriteRun cfg FX_SUCCESS
      [Event.media_verify FX_SUCCESS,
       Event.fx_file_open cfg.FILE_NAME_ONE FX_OPEN_FOR_WRITE FX_NOT_FOUND,
       Event.PRINT_INFO_STR "File does not exist\r\n"]
  | open_failed (o : UINT) (h1 : ¬FX_NOT_FOUND = o) (h2 : FX_SUCCESS ≠ o) :
    WriteRun cfg o
      [Event.media_verify FX_SUCCESS,
       Event.fx_file_open cfg.FILE_NAME_ONE FX_OPEN_FOR_WRITE o,
       Event.PRINT_ERR_STR "fx_file_open failed\r\n"]
  | truncate_failed_close_failed (s c : UINT) (hs : FX_SUCCESS ≠ s) (hc : FX_SUCCESS ≠ c) :
    WriteRun cfg c
      [Event.media_verify FX_SUCCESS,
       Event.fx_file_open cfg.FILE_NAME_ONE FX_OPEN_FOR_WRITE FX_SUCCESS,
       Event.fx_file_extended_truncate TRUNCATE_VALUE s,
       Event.fx_file_close c,
       Event.PRINT_ERR_STR "fx_file_close failed\r\n"]
  | truncate_failed (s : UINT) (hs : FX_SUCCESS ≠ s) :
    WriteRun cfg s
      [Event.media_verify FX_SUCCESS,
       Event.fx_file_open cfg.FILE_NAME_ONE FX_OPEN_FOR_WRITE FX_SUCCESS,
       Event.fx_file_extended_truncate TRUNCATE_VALUE s,
       Event.fx_file_close FX_SUCCESS,
       Event.PRINT_ERR_STR "fx_file_extended_truncate failed\r\n"]
  | write_failed_close_failed (k : Nat) (s c : UINT) (hk : k < cfg.WRITE_TIMES)
      (hs : FX_SUCCESS ≠ s) (hc : FX_SUCCESS ≠ c) :
    WriteRun cfg c
      (Event.media_verify FX_SUCCESS
        :: Event.fx_file_open cfg.FILE_NAME_ONE FX_OPEN_FOR_WRITE FX_SUCCESS
        :: Event.fx_file_extended_truncate TRUNCATE_VALUE FX_SUCCESS
        :: (chunks cfg (fixed_buffer cfg) 0 k ++
          [Event.fx_file_write (fixed_buffer cfg) cfg.WRITE_BUFFER_SIZE s,
           Event.fx_file_close c,
           Event.PRINT_ERR_STR "fx_file_close failed\r\n"]))
  | write_failed (k : Nat) (s : UINT) (hk : k < cfg.WRITE_TIMES) (hs : FX_SUCCESS ≠ s) :
    WriteRun cfg s
      (Event.media_verify FX_SUCCESS
        :: Event.fx_file_open cfg.FILE_NAME_ONE FX_OPEN_FOR_WRITE FX_SUCCESS
        :: Event.fx_file_extended_truncate TRUNCATE_VALUE FX_SUCCESS
        :: (chunks cfg (fixed_buffer cfg) 0 k ++
          [Event.fx_file_write (fixed_buffer cfg) cfg.WRITE_BUFFER_SIZE s,
           Event.fx_file_close FX_SUCCESS,
           Event.PRINT_ERR_STR "fx_file_write failed\r\n"]))
  | wait_failed_close_failed (k : Nat) (t c : UINT) (hk : k < cfg.WRITE_TIMES)
      (ht : TX_SUCCESS ≠ t) (hc : FX_SUCCESS ≠ c) :
    WriteRun cfg c
      (Event.media_verify FX_SUCCESS
        :: Event.fx_file_open cfg.FILE_NAME_ONE FX_OPEN_FOR_WRITE FX_SUCCESS
        :: Event.fx_file_extended_truncate TRUNCATE_VALUE FX_SUCCESS
        :: (chunks cfg (fixed_buffer cfg) 0 k ++
          [Event.fx_file_write (fixed_buffer cfg) cfg.WRITE_BUFFER_SIZE FX_SUCCESS,
           Event.tx_event_flags_get t,
           Event.fx_file_close c,
           Event.PRINT_ERR_STR "fx_file_close failed\r\n"]))
  | wait_failed (k : Nat) (t : UINT) (hk : k < cfg.WRITE_TIMES) (ht : TX_SUCCESS ≠ t) :
    WriteRun cfg t
      (Event.media_verify FX_SUCCESS
        :: Event.fx_file_open cfg.FILE_NAME_ONE FX_OPEN_FOR_WRITE FX_SUCCESS
        :: Event.fx_file_extended_truncate TRUNCATE_VALUE FX_SUCCESS
        :: (chunks cfg (fixed_buffer cfg) 0 k ++
          [Event.fx_file_write (fixed_buffer cfg) cfg.WRITE_BUFFER_SIZE FX_SUCCESS,
           Event.tx_event_flags_get t,
           Event.fx_file_close FX_SUCCESS,
           Event.PRINT_ERR_STR "tx_event_flags_get for RM_BLOCK_MEDIA_EVENT_WAIT_END event failed\r\n"]))
  | time_failed_close_failed (s c : UINT) (hs : FX_SUCCESS ≠ s) (hc : FX_SUCCESS ≠ c) :
    WriteRun cfg c
      (Event.media_verify FX_SUCCESS
        :: Event.fx_file_open cfg.FILE_NAME_ONE FX_OPEN_FOR_WRITE FX_SUCCESS
        :: Event.fx_file_extended_truncate TRUNCATE_VALUE FX_SUCCESS
        :: (chunks cfg (fixed_buffer cfg) 0 cfg.WRITE_TIMES ++
          [Event.PRINT_INFO_STR "\r\n\r\n",
           Event.fx_system_time_get s,
           Event.fx_file_close c,
           Event.PRINT_ERR_STR "fx_file_close failed\r\n"]))
  | time_failed (s : UINT) (hs : FX_SUCCESS ≠ s) :
    WriteRun cfg s
      (Event.media_verify FX_SUCCESS
        :: Event.fx_file_open cfg.FILE_NAME_ONE FX_OPEN_FOR_WRITE FX_SUCCESS
        :: Event.fx_file_extended_truncate TRUNCATE_VALUE FX_SUCCESS
        :: (chunks cfg (fixed_buffer cfg) 0 cfg.WRITE_TIMES ++
          [Event.PRINT_INFO_STR "\r\n\r\n",
           Event.fx_system_time_get s,
           Event.fx_file_close FX_SUCCESS,
           Event.PRINT_ERR_STR "fx_system_time_get failed\r\n"]))
  | date_failed_close_failed (s c : UINT) (hs : FX_SUCCESS ≠ s) (hc : FX_SUCCESS ≠ c) :
    WriteRun cfg c
      (Event.media_verify FX_SUCCESS
        :: Event.fx_file_open cfg.FILE_NAME_ONE FX_OPEN_FOR_WRITE FX_SUCCESS
        :: Event.fx_file_extended_truncate TRUNCATE_VALUE FX_SUCCESS
        :: (chunks cfg (fixed_buffer cfg) 0 cfg.WRITE_TIMES ++
          [Event.PRINT_INFO_STR "\r\n\r\n",
           Event.fx_system_time_get FX_SUCCESS,
           Event.fx_system_date_get s,
           Event.fx_file_close c,
           Event.PRINT_ERR_STR "fx_file_close failed\r\n"]))
  | date_failed (s : UINT) (hs : FX_SUCCESS ≠ s) :
    WriteRun cfg s
      (Event.media_verify FX_SUCCESS
        :: Event.fx_file_open cfg.FILE_NAME_ONE FX_OPEN_FOR_WRITE FX_SUCCESS
        :: Event.fx_file_extended_truncate TRUNCATE_VALUE FX_SUCCESS
        :: (chunks cfg (fixed_buffer cfg) 0 cfg.WRITE_TIMES ++
          [Event.PRINT_INFO_STR "\r\n\r\n",
           Event.fx_system_time_get FX_SUCCESS,
           Event.fx_system_date_get s,
           Event.fx_file_close FX_SUCCESS,
           Event.PRINT_ERR_STR "fx_system_date_get failed\r\n"]))
  | close_failed (time : time_new_t) (c : UINT) (hc : FX_SUCCESS ≠ c) :
    WriteRun cfg c
      (Event.media_verify FX_SUCCESS
        :: Event.fx_file_open cfg.FILE_NAME_ONE FX_OPEN_FOR_WRITE FX_SUCCESS
        :: Event.fx_file_extended_truncate TRUNCATE_VALUE FX_SUCCESS
        :: (chunks cfg (fixed_buffer cfg) 0 cfg.WRITE_TIMES ++
          [Event.PRINT_INFO_STR "\r\n\r\n",
           Event.fx_system_time_get FX_SUCCESS,
           Event.fx_system_date_get FX_SUCCESS,
           Event.fx_file_date_time_set cfg.FILE_NAME_ONE time FX_SUCCESS,
           Event.fx_file_close c,
           Event.PRINT_ERR_STR "fx_file_close failed\r\n"]))
  | stamp_failed_close_failed (time : time_new_t) (s c : UINT) (hs : FX_SUCCESS ≠ s)
      (hc : FX_SUCCESS ≠ c) :
    WriteRun cfg c
      (Event.media_verify FX_SUCCESS
        :: Event.fx_file_open cfg.FILE_NAME_ONE FX_OPEN_FOR_WRITE FX_SUCCESS
        :: Event.fx_file_extended_truncate TRUNCATE_VALUE FX_SUCCESS
        :: (chunks cfg (fixed_buffer cfg) 0 cfg.WRITE_TIMES ++
          [Event.PRINT_INFO_STR "\r\n\r\n",
           Event.fx_system_time_get FX_SUCCESS,
           Event.fx_system_date_get FX_SUCCESS,
           Event.fx_file_date_time_set cfg.FILE_NAME_ONE time s,
           Event.fx_file_close c,
           Event.PRINT_ERR_STR "fx_file_close failed\r\n"]))
  | stamp_failed (time : time_new_t) (s : UINT) (hs : FX_SUCCESS ≠ s) :
    WriteRun cfg s
      (Event.media_verify FX_SUCCESS
        :: Event.fx_file_open cfg.FILE_NAME_ONE FX_OPEN_FOR_WRITE FX_SUCCESS
        :: Event.fx_file_extended_truncate TRUNCATE_VALUE FX_SUCCESS
        :: (chunks cfg (fixed_buffer cfg) 0 cfg.WRITE_TIMES ++
          [Event.PRINT_INFO_STR "\r\n\r\n",
           Event.fx_system_time_get FX_SUCCESS,
           Event.fx_system_date_get FX_SUCCESS,
           Event.fx_file_date_time_set cfg.FILE_NAME_ONE time s,
           Event.fx_file_close FX_SUCCESS,
           Event.PRINT_ERR_STR "fx_file_date_time_set failed\r\n"]))
  | flush_failed (time : time_new_t) (f : UINT) (hf : FX_SUCCESS ≠ f) :
    WriteRun cfg f
      (Event.media_verify FX_SUCCESS
        :: Event.fx_file_open cfg.FILE_NAME_ONE FX_OPEN_FOR_WRITE FX_SUCCESS
        :: Event.fx_file_extended_truncate TRUNCATE_VALUE FX_SUCCESS
        :: (chunks cfg (fixed_buffer cfg) 0 cfg.WRITE_TIMES ++
          [Event.PRINT_INFO_STR "\r\n\r\n",
           Event.fx_system_time_get FX_SUCCESS,
           Event.fx_system_date_get FX_SUCCESS,
           Event.fx_file_date_time_set cfg.FILE_NAME_ONE time FX_SUCCESS,
           Event.fx_file_close FX_SUCCESS,
           Event.fx_media_flush f,
           Event.PRINT_ERR_STR "fx_media_flush failed\r\n"]))
  | query_failed (time : time_new_t) (d : UINT) (hd : FX_SUCCESS ≠ d) :
    WriteRun cfg d
      (Event.media_verify FX_SUCCESS
        :: Event.fx_file_open cfg.FILE_NAME_ONE FX_OPEN_FOR_WRITE FX_SUCCESS
        :: Event.fx_file_extended_truncate TRUNCATE_VALUE FX_SUCCESS
        :: (chunks cfg (fixed_buffer cfg) 0 cfg.WRITE_TIMES ++
          [Event.PRINT_INFO_STR "\r\n\r\n",
           Event.fx_system_time_get FX_SUCCESS,
           Event.fx_system_date_get FX_SUCCESS,
           Event.fx_file_date_time_set cfg.FILE_NAME_ONE time FX_SUCCESS,
           Event.fx_file_close FX_SUCCESS,
           Event.fx_media_flush FX_SUCCESS,
           Event.fx_directory_information_get cfg.FILE_NAME_ONE d,
           Event.PRINT_ERR_STR "fx_directory_information_get failed\r\n"]))
  | written (time : time_new_t) (entry : entry_info_t) :
    WriteRun cfg FX_SUCCESS
      (Event.media_verify FX_SUCCESS
        :: Event.fx_file_open cfg.FILE_NAME_ONE FX_OPEN_FOR_WRITE FX_SUCCESS
        :: Event.fx_file_extended_truncate TRUNCATE_VALUE FX_SUCCESS
        :: (chunks cfg (fixed_buffer cfg) 0 cfg.WRITE_TIMES ++
          [Event.PRINT_INFO_STR "\r\n\r\n",
           Event.fx_system_time_get FX_SUCCESS,
           Event.fx_system_date_get FX_SUCCESS,
           Event.fx_file_date_time_set cfg.FILE_NAME_ONE time FX_SUCCESS,
           Event.fx_file_close FX_SUCCESS,
           Event.fx_media_flush FX_SUCCESS,
           Event.fx_directory_information_get cfg.FILE_NAME_ONE FX_SUCCESS,
           Event.PRINT_ENTRY_INFO entry,
           Event.PRINT_INFO_STR "\r\nWrite to a file successful\r\n"]))

/-- The script in which the medium is not ready. -/
def Script.not_ready : Script :=
  { Script.ok with media_verify := fun _ => 1 }

/-- The script in which the truncate and the seek fail with status 5 and the
close fails with status 6. -/
def Script.unwind_fails : Script :=
  { Script.ok with
    fx_file_extended_truncate := fun _ => 5
    fx_file_extended_seek := fun _ => 5
    fx_file_close := fun _ => 6 }

/-- The script in which the second completion wait times out with status 7
(`TX_NO_EVENTS`). -/
def Script.second_wait_fails : Script :=
  { Script.ok with tx_event_flags_get := fun n => if n = 1 then 7 else TX_SUCCESS }

/-- The script in which `fx_file_read` fills the whole request of four bytes
and reports four bytes. -/
def Script.read_full : Script :=
  { Script.ok with fx_file_read := fun _ => (FX_SUCCESS, [1, 2, 3, 4], 4) }

/-- The script in which `fx_file_read` stores two bytes, reports two bytes and
returns `FX_END_OF_FILE`. -/
def Script.read_short : Script :=
  { Script.ok with fx_file_read := fun _ => (FX_END_OF_FILE, [1, 2], 2) }

/-- The world in which every call succeeds and no call changes the state. -/
def World.idle : World Bool :=
  { media_verify := fun b => (FX_SUCCESS, b),
    fx_file_create := fun _ b => (FX_SUCCESS, b),
    fx_file_open := fun _ _ b => (FX_SUCCESS, b),
    fx_file_extended_truncate := fun _ b => (FX_SUCCESS, b),
    fx_file_write := fun _ _ b => (FX_SUCCESS, b),
    fx_file_extended_seek := fun _ b => (FX_SUCCESS, b),
    fx_file_read := fun buf _ b => ((FX_SUCCESS, buf, 0), b),
    fx_file_close := fun b => (FX_SUCCESS, b),
    fx_file_delete := fun _ b => (FX_SUCCESS, b),
    fx_system_time_get := fun t b => ((FX_SUCCESS, t), b),
    fx_system_date_get := fun t b => ((FX_SUCCESS, t), b),
    fx_file_date_time_set := fun _ _ b => (FX_SUCCESS, b),
    fx_media_flush := fun b => (FX_SUCCESS, b),
    fx_directory_information_get := fun e b => ((FX_SUCCESS, e), b),
    tx_event_flags_get := fun b => (TX_SUCCESS, b) }

/-- A store that remembers whether the file exists: `fx_file_create` creates
it, or reports `FX_ALREADY_CREATED` when it is there; the medium is ready and
every other call succeeds. -/
def World.store : World Bool :=
  { World.idle with
    fx_file_create := fun _ present =>
      (if present then FX_ALREADY_CREATED else FX_SUCCESS, true) }

/-- What a run does about a step `e` that failed with status `s`: the events
end with the step, one `fx_file_close` and one error message; the status
returned is the close status when the close failed and `s` otherwise, so
never `FX_SUCCESS`; and the run holds one close, no flush, no directory
query, no entry report and no content emission. -/
def Unwound (st : UINT) (evs : List Event) (e : Event) (s : UINT) : Prop :=
  ∃ c msg, [e, Event.fx_file_close c, Event.PRINT_ERR_STR msg] <:+ evs ∧
    (FX_SUCCESS ≠ c → st = c) ∧ (FX_SUCCESS = c → st = s) ∧ FX_SUCCESS ≠ st ∧
    close_calls evs = 1 ∧ ∀ x ∈ evs, x.is_late = false

/-! ## More test doubles, progress markers, the filled buffer and the store model -/

/-- The script in which `fx_file_open` reports `FX_NOT_FOUND`. -/
def Script.open_not_found : Script :=
  { Script.ok with fx_file_open := fun _ => FX_NOT_FOUND }

/-- The script in which `fx_file_open` fails with status 8. -/
def Script.open_fails : Script :=
  { Script.ok with fx_file_open := fun _ => 8 }

/-- The script in which `fx_file_delete` reports `FX_NOT_FOUND`. -/
def Script.delete_not_found : Script :=
  { Script.ok with fx_file_delete := fun _ => FX_NOT_FOUND }

/-- The script in which `fx_file_delete` fails with status 8. -/
def Script.delete_fails : Script :=
  { Script.ok with fx_file_delete := fun _ => 8 }

/-- The script in which `fx_file_create` fails with status 8. -/
def Script.create_fails : Script :=
  { Script.ok with fx_file_create := fun _ => 8 }

/-- The script in which `fx_directory_information_get` reports
`FX_NOT_FOUND`. -/
def Script.query_not_found : Script :=
  { Script.ok with fx_directory_information_get := fun _ => FX_NOT_FOUND }

/-- The script in which `fx_file_read` reports nine bytes, more than the
request of four. -/
def Script.read_over : Script :=
  { Script.ok with fx_file_read := fun _ => (FX_SUCCESS, [1, 2, 3, 4], 9) }

/-- Is the event a progress marker of the transfer loop, `PRINT_INFO_STR(".")`? -/
def Event.is_marker : Event → Bool
  | Event.PRINT_INFO_STR str => str == "."
  | _ => false

/-- The number of progress markers in a trace. -/
def marker_count (evs : List Event) : Nat := evs.countP Event.is_marker

/-- A configuration of one chunk with a progress interval of two. -/
def Config.odd : Config :=
  { Config.small with WRITE_TIMES := 1, WRITE_ONE_PERCENT := 2 }

/-- The bytes of `i` whole lines, one `strncpy` of the line text after the
other. -/
def filled (cfg : Config) : Nat → List Nat
  | 0 => []
  | i + 1 => filled cfg i ++ strncpy cfg.WRITE_LINE_TEXT cfg.WRITE_LINE_SIZE

/-- A configuration whose line width does not divide the buffer size: lines
of two bytes in a buffer of five. -/
def Config.ragged : Config :=
  { Config.small with WRITE_LINE_TEXT := [65, 66], WRITE_LINE_SIZE := 2, WRITE_BUFFER_SIZE := 5 }

/-- Modelled from the spec: the effect of one call on the length of the file
in the store model of the write contract.  A successful truncate to `size`
cuts the file to at most `size` bytes, so a truncate to zero sets the length
to 0; a successful write of `size` bytes appends `size` bytes; a failed call
and every other event leave the length as it is. -/
def store_step (len : Nat) : Event → Nat
  | Event.fx_file_extended_truncate size s => if FX_SUCCESS = s then min len size else len
  | Event.fx_file_write _ size s => if FX_SUCCESS = s then len + size else len
  | _ => len

/-- The length of the file after the calls of a trace, from length `len`. -/
def file_length (len : Nat) (evs : List Event) : Nat := evs.foldl store_step len

/-- The number of `fx_file_write` calls of a trace that returned
`FX_SUCCESS`. -/
def written_chunks : List Event → Nat
  | [] => 0
  | Event.fx_file_write _ _ s :: evs => (if FX_SUCCESS = s then 1 else 0) + written_chunks evs
  | _ :: evs => written_chunks evs

/-- Modelled from the spec: a world is a store model, with file length
`len`, when the calls `file_write` makes act on the length as `store_step`
says: truncate and write as above, and verify, open, wait, close, clock
reads, date-time-set, flush and directory query not at all. -/
structure StoreModel {σ : Type} (W : World σ) (len : σ → Nat) : Prop where
  media_verify : ∀ s, len (W.media_verify s).2 = len s
  fx_file_open : ∀ name mode s, len (W.fx_file_open name mode s).2 = len s
  fx_file_extended_truncate : ∀ size s,
    len (W.fx_file_extended_truncate size s).2
      = if FX_SUCCESS = (W.fx_file_extended_truncate size s).1 then min (len s) size else len s
  fx_file_write : ∀ buf size s,
    len (W.fx_file_write buf size s).2
      = if FX_SUCCESS = (W.fx_file_write buf size s).1 then len s + size else len s
  tx_event_flags_get : ∀ s, len (W.tx_event_flags_get s).2 = len s
  fx_file_close : ∀ s, len (W.fx_file_close s).2 = len s
  fx_system_time_get : ∀ t s, len (W.fx_system_time_get t s).2 = len s
  fx_system_date_get : ∀ t s, len (W.fx_system_date_get t s).2 = len s
  fx_file_date_time_set : ∀ name t s, len (W.fx_file_date_time_set name t s).2 = len s
  fx_media_flush : ∀ s, len (W.fx_media_flush s).2 = len s
  fx_directory_information_get : ∀ e s, len (W.fx_directory_information_get e s).2 = len s

/-- Statement `m` keeps the file length in step with its trace: the length
after `m` is the length before, advanced by the events `m` added. -/
def Tracks {σ α : Type} (len : σ → Nat) (m : Op σ α) : Prop :=
  ∀ r : Run σ, ∃ evs, (m r).2.trace = r.trace ++ evs ∧
    len (m r).2.world = file_length (len r.world) evs

/-- A scripted call that leaves the file alone. -/
def on_disk {α : Type} (f : Calls → α × Calls) : Calls × Nat → α × (Calls × Nat) :=
  fun s => ((f s.1).1, ((f s.1).2, s.2))

/-- The test double that plays a script over a file with a length: a
successful truncate cuts the file, a successful write appends, a successful
delete empties it. -/
def Script.disk (S : Script) : World (Calls × Nat) where
  media_verify := on_disk S.world.media_verify
  fx_file_create := fun name => on_disk (S.world.fx_file_create name)
  fx_file_open := fun name mode => on_disk (S.world.fx_file_open name mode)
  fx_file_extended_truncate := fun size s =>
    ((S.world.fx_file_extended_truncate size s.1).1,
      ((S.world.fx_file_extended_truncate size s.1).2,
        if FX_SUCCESS = (S.world.fx_file_extended_truncate size s.1).1 then min s.2 size
        else s.2))
  fx_file_write := fun buf size s =>
    ((S.world.fx_file_write buf size s.1).1,
      ((S.world.fx_file_write buf size s.1).2,
        if FX_SUCCESS = (S.world.fx_file_write buf size s.1).1 then s.2 + size else s.2))
  fx_file_extended_seek := fun offset => on_disk (S.world.fx_file_extended_seek offset)
  fx_file_read := fun buf request => on_disk (S.world.fx_file_read buf request)
  fx_file_close := on_disk S.world.fx_file_close
  fx_file_delete := fun name s =>
    ((S.world.fx_file_delete name s.1).1,
      ((S.world.fx_file_delete name s.1).2,
        if FX_SUCCESS = (S.world.fx_file_delete name s.1).1 then 0 else s.2))
  fx_system_time_get := fun t => on_disk (S.world.fx_system_time_get t)
  fx_system_date_get := fun t => on_disk (S.world.fx_system_date_get t)
  fx_file_date_time_set := fun name t => on_disk (S.world.fx_file_date_time_set name t)
  fx_media_flush := on_disk S.world.fx_media_flush
  fx_directory_information_get := fun e => on_disk (S.world.fx_directory_information_get e)
  tx_event_flags_get := on_disk S.world.tx_event_flags_get

/-- The start of a run over a file of `len` bytes. -/
def Run.on_file (cfg : Config) (len : Nat) : Run (Calls × Nat) :=
  { world := (Calls.zero, len), g_write_data := List.replicate cfg.WRITE_BUFFER_SIZE 0,
    trace := [] }

/-! ## Stepping through statements -/

section steps
variable {σ α β : Type}

@[simp] theorem bind_eq (m : Op σ α) (f : α → Op σ β) : (m >>= f) = Op.bind m f := rfl

@[simp] theorem pure_eq (a : α) : (pure a : Op σ α) = Op.pure a := rfl

theorem runs_ret (v : UINT) (r : Run σ) (Q : Flow α → List Event → Prop)
    (h : Q (Flow.ret v) []) : Runs (Op.ret v) r Q :=
  ⟨[], by simp [Op.ret], h⟩

theorem runs_pure (a : α) (r : Run σ) (Q : Flow α → List Event → Prop)
    (h : Q (Flow.next a) []) : Runs (Op.pure a) r Q :=
  ⟨[], by simp [Op.pure], h⟩

theorem runs_bind_ret (v : UINT) (k : α → Op σ β) (r : Run σ)
    (Q : Flow β → List Event → Prop) (h : Q (Flow.ret v) []) :
    Runs (Op.bind (Op.ret v) k) r Q :=
  ⟨[], by simp [Op.ret, Op.bind], h⟩

theorem runs_bind_pure (a : α) (k : α → Op σ β) (r : Run σ)
    (Q : Flow β → List Event → Prop) (h : Runs (k a) r Q) :
    Runs (Op.bind (Op.pure a) k) r Q := h

theorem runs_bind_bind {γ : Type} (m : Op σ α) (f : α → Op σ β) (k : β → Op σ γ) (r : Run σ)
    (Q : Flow γ → List Event → Prop)
    (h : Runs (Op.bind m (fun a => Op.bind (f a) k)) r Q) :
    Runs (Op.bind (Op.bind m f) k) r Q := by
  have e : Op.bind (Op.bind m f) k r = Op.bind m (fun a => Op.bind (f a) k) r := by
    simp only [Op.bind]
    rcases m r with ⟨fl, r1⟩
    cases fl <;> rfl
  unfold Runs at h ⊢
  rw [e]
  exact h

theorem runs_bind_call (f : σ → UINT × σ) (ev : UINT → Event) (k : UINT → Op σ β) (r : Run σ)
    (Q : Flow β → List Event → Prop)
    (h : ∀ (a : UINT) (w : σ),
      Runs (k a) { world := w, g_write_data := r.g_write_data, trace := r.trace ++ [ev a] }
        (fun fl evs => Q fl (ev a :: evs))) :
    Runs (Op.bind (call f ev) k) r Q := by
  obtain ⟨evs, ht, hq⟩ := h (f r.world).1 (f r.world).2
  exact ⟨ev (f r.world).1 :: evs, by simpa [Op.bind, call] using ht, hq⟩

theorem runs_bind_call_pair (f : σ → (UINT × α) × σ) (ev : UINT × α → Event)
    (k : UINT × α → Op σ β) (r : Run σ) (Q : Flow β → List Event → Prop)
    (h : ∀ (s : UINT) (x : α) (w : σ),
      Runs (k (s, x)) { world := w, g_write_data := r.g_write_data, trace := r.trace ++ [ev (s, x)] }
        (fun fl evs => Q fl (ev (s, x) :: evs))) :
    Runs (Op.bind (call f ev) k) r Q := by
  obtain ⟨evs, ht, hq⟩ := h (f r.world).1.1 (f r.world).1.2 (f r.world).2
  exact ⟨ev (f r.world).1 :: evs, by simpa [Op.bind, call] using ht, hq⟩

theorem runs_bind_emit (e : Event) (k : Unit → Op σ β) (r : Run σ)
    (Q : Flow β → List Event → Prop)
    (h : Runs (k ()) { world := r.world, g_write_data := r.g_write_data, trace := r.trace ++ [e] }
        (fun fl evs => Q fl (e :: evs))) :
    Runs (Op.bind (emit e) k) r Q := by
  obtain ⟨evs, ht, hq⟩ := h
  exact ⟨e :: evs, by simpa [Op.bind, emit] using ht, hq⟩

theorem runs_bind_get_write_data (k : List Nat → Op σ β) (r : Run σ)
    (Q : Flow β → List Event → Prop) (h : Runs (k r.g_write_data) r Q) :
    Runs (Op.bind get_write_data k) r Q := h

theorem runs_bind_ite (c : Prop) [Decidable c] (a b : Op σ α) (k : α → Op σ β) (r : Run σ)
    (Q : Flow β → List Event → Prop)
    (ha : c → Runs (Op.bind a k) r Q) (hb : ¬c → Runs (Op.bind b k) r Q) :
    Runs (Op.bind (if c then a else b) k) r Q := by
  by_cases hc : c
  · simpa [hc] using ha hc
  · simpa [hc] using hb hc

theorem runs_bind_when (c : Prop) [Decidable c] (a : Op σ Unit) (k : Unit → Op σ β) (r : Run σ)
    (Q : Flow β → List Event → Prop)
    (ha : c → Runs (Op.bind a k) r Q) (hb : ¬c → Runs (k ()) r Q) :
    Runs (Op.bind (Op.when c a) k) r Q := by
  unfold Op.when
  by_cases hc : c
  · simpa [hc] using ha hc
  · simpa [hc, Op.bind, Op.pure] using hb hc

theorem runs_bind_when_ne (x y : UINT) (a : Op σ Unit) (k : Unit → Op σ β) (r : Run σ)
    (Q : Flow β → List Event → Prop)
    (ha : x ≠ y → Runs (Op.bind a k) r Q) (hb : x = y → Runs (k ()) r Q) :
    Runs (Op.bind (Op.when (x ≠ y) a) k) r Q :=
  runs_bind_when (x ≠ y) a k r Q ha (fun h => hb (not_not.mp h))

theorem runs_bind_when_and (c d : Prop) [Decidable c] [Decidable d] (a : Op σ Unit)
    (k : Unit → Op σ β) (r : Run σ) (Q : Flow β → List Event → Prop)
    (ha : c → d → Runs (Op.bind a k) r Q) (hb : ¬(c ∧ d) → Runs (k ()) r Q) :
    Runs (Op.bind (Op.when (c ∧ d) a) k) r Q :=
  runs_bind_when (c ∧ d) a k r Q (fun h => ha h.1 h.2) hb

theorem runs_bind_err (err : UINT) (str : String) (k : Unit → Op σ β) (r : Run σ)
    (Q : Flow β → List Event → Prop)
    (ha : FX_SUCCESS ≠ err → Q (Flow.ret err) [Event.PRINT_ERR_STR str])
    (hb : FX_SUCCESS = err → Runs (k ()) r Q) :
    Runs (Op.bind (RETURN_ERR_STR err str) k) r Q := by
  unfold RETURN_ERR_STR
  by_cases hc : FX_SUCCESS = err
  · simpa [hc, Op.bind, Op.pure] using hb hc
  · exact ⟨[Event.PRINT_ERR_STR str], by simp [hc, Op.bind, emit, Op.ret],
      by simpa [hc, Op.bind, emit, Op.ret] using ha hc⟩

theorem runs_err (err : UINT) (str : String) (r : Run σ)
    (Q : Flow Unit → List Event → Prop)
    (ha : FX_SUCCESS ≠ err → Q (Flow.ret err) [Event.PRINT_ERR_STR str])
    (hb : FX_SUCCESS = err → Q (Flow.next ()) []) :
    Runs (RETURN_ERR_STR err str) r Q := by
  unfold RETURN_ERR_STR
  by_cases hc : FX_SUCCESS = err
  · exact ⟨[], by simp [hc, Op.pure], by simpa [hc, Op.pure] using hb hc⟩
  · exact ⟨[Event.PRINT_ERR_STR str], by simp [hc, Op.bind, emit, Op.ret],
      by simpa [hc, Op.bind, emit, Op.ret] using ha hc⟩

/-- A C function whose every path ends in `return` yields an outcome. -/
theorem outcome_of_runs (op : Op σ UINT) (r : Run σ) (P : UINT → List Event → Prop)
    (h : Runs op r (fun fl evs => ∃ st, fl = Flow.ret st ∧ P st evs)) :
    ∃ st evs, outcome op r = some (st, evs) ∧ P st evs := by
  obtain ⟨evs, ht, st, hfl, hp⟩ := h
  refine ⟨st, evs, ?_, hp⟩
  unfold outcome exec
  rcases hm : op r with ⟨fl, r1⟩
  rw [hm] at ht hfl
  simp only at ht hfl
  subst hfl
  simp [ht]

end steps

/-! ## The paths of `file_read` -/

/-- Every call of `file_read` returns, along one of the paths of `ReadRun`. -/
theorem file_read_run {σ : Type} (cfg : Config) (W : World σ) (r : Run σ) :
    ∃ st evs, outcome (file_read cfg W) r = some (st, evs) ∧ ReadRun cfg st evs := by
  apply outcome_of_runs
  simp only [file_read, PRINT_INFO_STR, PRINT_ENTRY_INFO, send_data_to_rtt, bind_eq, pure_eq]
  repeat' first
    | (with_reducible apply runs_bind_call; intro _ _)
    | (with_reducible apply runs_bind_call_pair; intro _ _ _; try dsimp only)
    | with_reducible apply runs_bind_emit
    | with_reducible apply runs_bind_ret
    | with_reducible apply runs_bind_pure
    | with_reducible apply runs_bind_bind
    | ((with_reducible apply runs_bind_ite) <;> intro _)
    | ((with_reducible apply runs_bind_when_ne) <;> intro _)
    | ((with_reducible apply runs_bind_when_and) <;> intros)
    | ((with_reducible apply runs_bind_when) <;> intro _)
    | ((with_reducible apply runs_bind_err) <;> intro _ <;>
        try first
          | contradiction
          | exact absurd ‹FX_SUCCESS = _› ‹TX_SUCCESS ≠ _›)
    | with_reducible apply runs_ret
  all_goals
    refine ⟨_, rfl, ?_⟩
    subst_vars
    constructor <;> assumption

/-! ## The paths of `file_create` and `file_delete` -/

/-- Every call of `file_create` returns, along one of the paths of
`CreateRun`. -/
theorem file_create_run {σ : Type} (cfg : Config) (W : World σ) (r : Run σ) :
    ∃ st evs, outcome (file_create cfg W) r = some (st, evs) ∧ CreateRun cfg st evs := by
  apply outcome_of_runs
  simp only [file_create, PRINT_INFO_STR, PRINT_ENTRY_INFO, bind_eq, pure_eq]
  repeat' first
    | (with_reducible apply runs_bind_call; intro _ _)
    | (with_reducible apply runs_bind_call_pair; intro _ _ _; try dsimp only)
    | with_reducible apply runs_bind_emit
    | with_reducible apply runs_bind_ret
    | with_reducible apply runs_bind_pure
    | with_reducible apply runs_bind_bind
    | ((with_reducible apply runs_bind_when_ne) <;> intro _)
    | ((with_reducible apply runs_bind_when) <;> intro _)
    | ((with_reducible apply runs_bind_err) <;> intro _ <;> try contradiction)
    | with_reducible apply runs_ret
  all_goals
    refine ⟨_, rfl, ?_⟩
    subst_vars
    constructor <;> assumption

/-- Every call of `file_delete` returns, along one of the paths of
`DeleteRun`. -/
theorem file_delete_run {σ : Type} (cfg : Config) (W : World σ) (r : Run σ) :
    ∃ st evs, outcome (file_delete cfg W) r = some (st, evs) ∧ DeleteRun cfg st evs := by
  apply outcome_of_runs
  simp only [file_delete, PRINT_INFO_STR, bind_eq, pure_eq]
  repeat' first
    | (with_reducible apply runs_bind_call; intro _ _)
    | with_reducible apply runs_bind_emit
    | with_reducible apply runs_bind_ret
    | with_reducible apply runs_bind_pure
    | with_reducible apply runs_bind_bind
    | ((with_reducible apply runs_bind_when_ne) <;> intro _)
    | ((with_reducible apply runs_bind_when) <;> intro _)
    | ((with_reducible apply runs_bind_err) <;> intro _ <;> try contradiction)
    | with_reducible apply runs_ret
  all_goals
    refine ⟨_, rfl, ?_⟩
    subst_vars
    constructor <;> assumption

/-! ## The paths of `file_write` -/

theorem chunks_succ (cfg : Config) (buf : List Nat) (i k : Nat) :
    chunks cfg buf i (k + 1) = chunk cfg buf i ++ chunks cfg buf (i + 1) k := rfl

/-- One more successful pass in front of a run of the loop. -/
theorem LoopRun.step (cfg : Config) (buf : List Nat) (i : Nat) (hi : i < cfg.WRITE_TIMES)
    (fl : Flow Unit) (evs : List Event) (h : LoopRun cfg buf (i + 1) fl evs) :
    LoopRun cfg buf i fl (chunk cfg buf i ++ evs) := by
  cases h with
  | done =>
    have e : cfg.WRITE_TIMES - i = (cfg.WRITE_TIMES - (i + 1)) + 1 := by omega
    have h := @LoopRun.done cfg buf i
    rw [e, chunks_succ] at h
    exact h
  | write_failed_close_failed k s c hk hs hc =>
    have h := @LoopRun.write_failed_close_failed cfg buf i (k + 1) s c
      (by omega) hs hc
    rw [chunks_succ, List.append_assoc] at h
    exact h
  | write_failed k s hk hs =>
    have h := @LoopRun.write_failed cfg buf i (k + 1) s (by omega) hs
    rw [chunks_succ, List.append_assoc] at h
    exact h
  | wait_failed_close_failed k t c hk ht hc =>
    have h := @LoopRun.wait_failed_close_failed cfg buf i (k + 1) t c
      (by omega) ht hc
    rw [chunks_succ, List.append_assoc] at h
    exact h
  | wait_failed k t hk ht =>
    have h := @LoopRun.wait_failed cfg buf i (k + 1) t (by omega) ht
    rw [chunks_succ, List.append_assoc] at h
    exact h

section loops
variable {σ α β : Type}

theorem Runs.mono (m : Op σ α) (r : Run σ) (P Q : Flow α → List Event → Prop)
    (h : Runs m r P) (hpq : ∀ fl evs, P fl evs → Q fl evs) : Runs m r Q := by
  obtain ⟨evs, ht, hp⟩ := h
  exact ⟨evs, ht, hpq _ _ hp⟩

/-- With the counter in range the transfer loop ends, along one of the paths
of `LoopRun`. -/
theorem write_loop_runs (cfg : Config) (W : World σ) (h32 : cfg.WRITE_TIMES < 2 ^ 32) :
    ∀ (fuel i : Nat) (r : Run σ), i ≤ cfg.WRITE_TIMES → cfg.WRITE_TIMES - i < fuel →
      Runs (write_loop cfg W fuel i) r (LoopRun cfg r.g_write_data i) := by
  intro fuel
  induction fuel with
  | zero => intro i r _ h; omega
  | succ fuel ih =>
    intro i r hi hfuel
    unfold write_loop
    by_cases hlt : i < cfg.WRITE_TIMES
    · have hmod : (i + 1) % 2 ^ 32 = i + 1 := Nat.mod_eq_of_lt (by omega)
      rw [if_pos hlt, hmod]
      simp only [PRINT_INFO_STR, bind_eq, pure_eq]
      repeat' first
        | (with_reducible apply runs_bind_call; intro _ _)
        | with_reducible apply runs_bind_get_write_data
        | with_reducible apply runs_bind_emit
        | with_reducible apply runs_bind_ret
        | with_reducible apply runs_bind_pure
        | with_reducible apply runs_bind_bind
        | ((with_reducible apply runs_bind_when_ne) <;> intro _)
        | ((with_reducible apply runs_bind_when) <;> intro _)
        | ((with_reducible apply runs_bind_err) <;> intro _ <;>
            try first
              | contradiction
              | exact absurd ‹FX_SUCCESS = _› ‹TX_SUCCESS ≠ _›)
      all_goals subst_vars
      · exact LoopRun.write_failed_close_failed 0 _ _ (by omega) ‹_› ‹_›
      · exact LoopRun.write_failed 0 _ (by omega) ‹_›
      · exact LoopRun.wait_failed_close_failed 0 _ _ (by omega) ‹_› ‹_›
      · exact LoopRun.wait_failed 0 _ (by omega) ‹_›
      · rename_i hm
        refine Runs.mono _ _ _ _ (ih (i + 1) _ (by omega) (by omega)) ?_
        intro fl evs h
        have h2 := LoopRun.step cfg _ i hlt fl evs h
        simpa [chunk, hm] using h2
      · rename_i hm
        refine Runs.mono _ _ _ _ (ih (i + 1) _ (by omega) (by omega)) ?_
        intro fl evs h
        have h2 := LoopRun.step cfg _ i hlt fl evs h
        simpa [chunk, hm] using h2
    · have e : cfg.WRITE_TIMES - i = 0 := by omega
      rw [if_neg hlt]
      apply runs_pure
      have h := @LoopRun.done cfg r.g_write_data i
      rw [e] at h
      exact h

/-- With the 16-bit counter in range the fill loop of `create_fixed_buffer`
ends. -/
theorem create_fixed_buffer_loop_ends (cfg : Config)
    (h16 : cfg.WRITE_BUFFER_SIZE / cfg.WRITE_LINE_SIZE < 2 ^ 16) :
    ∀ (fuel i p_data : Nat) (buf : List Nat),
      i ≤ cfg.WRITE_BUFFER_SIZE / cfg.WRITE_LINE_SIZE →
      cfg.WRITE_BUFFER_SIZE / cfg.WRITE_LINE_SIZE - i < fuel →
      ∃ out, create_fixed_buffer_loop cfg fuel i p_data buf = some out := by
  intro fuel
  induction fuel with
  | zero => intro i _ _ _ h; omega
  | succ fuel ih =>
    intro i p_data buf hi hfuel
    unfold create_fixed_buffer_loop
    by_cases hlt : i < cfg.WRITE_BUFFER_SIZE / cfg.WRITE_LINE_SIZE
    · have hmod : (i + 1) % 2 ^ 16 = i + 1 := Nat.mod_eq_of_lt (by omega)
      rw [if_pos hlt, hmod]
      exact ih (i + 1) _ _ (by omega) (by omega)
    · rw [if_neg hlt]
      exact ⟨buf, rfl⟩

theorem runs_bind_create_fixed_buffer (cfg : Config)
    (h16 : cfg.WRITE_BUFFER_SIZE / cfg.WRITE_LINE_SIZE < 2 ^ 16)
    (k : Unit → Op σ β) (r : Run σ) (Q : Flow β → List Event → Prop)
    (h : Runs (k ()) { world := r.world, g_write_data := fixed_buffer cfg, trace := r.trace } Q) :
    Runs (Op.bind (create_fixed_buffer cfg) k) r Q := by
  obtain ⟨out, hout⟩ := create_fixed_buffer_loop_ends cfg h16 (2 ^ 16 + 1) 0 0
    (memset NULL_CHAR cfg.WRITE_BUFFER_SIZE) (Nat.zero_le _) (by omega)
  have e : fixed_buffer cfg = out := by
    unfold fixed_buffer
    rw [hout]
    rfl
  rw [e] at h
  unfold Runs Op.bind create_fixed_buffer
  rw [hout]
  exact h

theorem runs_bind_of (m : Op σ α) (k : α → Op σ β) (r : Run σ)
    (P : Flow α → List Event → Prop) (Q : Flow β → List Event → Prop)
    (hm : Runs m r P)
    (hnext : ∀ (a : α) (evs : List Event) (r1 : Run σ), P (Flow.next a) evs →
      Runs (k a) r1 (fun fl evs1 => Q fl (evs ++ evs1)))
    (hret : ∀ (v : UINT) (evs : List Event), P (Flow.ret v) evs → Q (Flow.ret v) evs)
    (hhang : ∀ evs : List Event, ¬P Flow.hang evs) :
    Runs (Op.bind m k) r Q := by
  obtain ⟨evs, ht, hp⟩ := hm
  unfold Runs Op.bind
  rcases hmr : m r with ⟨fl, r1⟩
  rw [hmr] at ht hp
  cases fl with
  | next a =>
    obtain ⟨evs1, ht1, hq1⟩ := hnext a evs r1 hp
    refine ⟨evs ++ evs1, ?_, hq1⟩
    simp only at ht ⊢
    rw [ht1, ht, List.append_assoc]
  | ret v => exact ⟨evs, ht, hret v evs hp⟩
  | hang => exact absurd hp (hhang evs)

/-- The transfer loop of `file_write` under a continuation: either all
`WRITE_TIMES` chunks pass and the continuation runs, or the loop returns
from chunk `k` with the handle closed. -/
theorem runs_bind_write_loop (cfg : Config) (W : World σ) (h32 : cfg.WRITE_TIMES < 2 ^ 32)
    (k : Unit → Op σ β) (r : Run σ) (Q : Flow β → List Event → Prop)
    (hnext : ∀ r1 : Run σ,
      Runs (k ()) r1 (fun fl evs => Q fl (chunks cfg r.g_write_data 0 cfg.WRITE_TIMES ++ evs)))
    (h1 : ∀ (n : Nat) (s c : UINT), n < cfg.WRITE_TIMES → FX_SUCCESS ≠ s → FX_SUCCESS ≠ c →
      Q (Flow.ret c) (chunks cfg r.g_write_data 0 n ++
        [Event.fx_file_write r.g_write_data cfg.WRITE_BUFFER_SIZE s,
          Event.fx_file_close c,
          Event.PRINT_ERR_STR "fx_file_close failed\r\n"]))
    (h2 : ∀ (n : Nat) (s : UINT), n < cfg.WRITE_TIMES → FX_SUCCESS ≠ s →
      Q (Flow.ret s) (chunks cfg r.g_write_data 0 n ++
        [Event.fx_file_write r.g_write_data cfg.WRITE_BUFFER_SIZE s,
          Event.fx_file_close FX_SUCCESS,
          Event.PRINT_ERR_STR "fx_file_write failed\r\n"]))
    (h3 : ∀ (n : Nat) (t c : UINT), n < cfg.WRITE_TIMES → TX_SUCCESS ≠ t → FX_SUCCESS ≠ c →
      Q (Flow.ret c) (chunks cfg r.g_write_data 0 n ++
        [Event.fx_file_write r.g_write_data cfg.WRITE_BUFFER_SIZE FX_SUCCESS,
          Event.tx_event_flags_get t,
          Event.fx_file_close c,
          Event.PRINT_ERR_STR "fx_file_close failed\r\n"]))
    (h4 : ∀ (n : Nat) (t : UINT), n < cfg.WRITE_TIMES → TX_SUCCESS ≠ t →
      Q (Flow.ret t) (chunks cfg r.g_write_data 0 n ++
        [Event.fx_file_write r.g_write_data cfg.WRITE_BUFFER_SIZE FX_SUCCESS,
          Event.tx_event_flags_get t,
          Event.fx_file_close FX_SUCCESS,
          Event.PRINT_ERR_STR
            "tx_event_flags_get for RM_BLOCK_MEDIA_EVENT_WAIT_END event failed\r\n"])) :
    Runs (Op.bind (write_loop cfg W (2 ^ 32 + 1) 0) k) r Q := by
  refine runs_bind_of _ k r (LoopRun cfg r.g_write_data 0) Q
    (write_loop_runs cfg W h32 (2 ^ 32 + 1) 0 r (Nat.zero_le _) (by omega)) ?_ ?_ ?_
  · intro a evs r1 h
    cases h
    exact hnext r1
  · intro v evs h
    cases h
    · exact h1 _ _ _ (by omega) ‹_› ‹_›
    · exact h2 _ _ (by omega) ‹_›
    · exact h3 _ _ _ (by omega) ‹_› ‹_›
    · exact h4 _ _ (by omega) ‹_›
  · intro evs h
    cases h

end loops

/-- With both loop counters in range every call of `file_write` returns,
along one of the paths of `WriteRun`. -/
theorem file_write_run {σ : Type} (cfg : Config) (W : World σ) (r : Run σ)
    (h16 : cfg.WRITE_BUFFER_SIZE / cfg.WRITE_LINE_SIZE < 2 ^ 16)
    (h32 : cfg.WRITE_TIMES < 2 ^ 32) :
    ∃ st evs, outcome (file_write cfg W) r = some (st, evs) ∧ WriteRun cfg st evs := by
  apply outcome_of_runs
  simp only [file_write, PRINT_INFO_STR, PRINT_ENTRY_INFO, bind_eq, pure_eq]
  repeat' first
    | (with_reducible apply runs_bind_call; intro _ _)
    | (with_reducible apply runs_bind_call_pair; intro _ _ _; try dsimp only)
    | with_reducible apply runs_bind_emit
    | with_reducible apply runs_bind_ret
    | with_reducible apply runs_bind_pure
    | with_reducible apply runs_bind_bind
    | (with_reducible apply runs_bind_create_fixed_buffer cfg h16)
    | ((with_reducible apply runs_bind_write_loop cfg W h32) <;> intros)
    | ((with_reducible apply runs_bind_when_ne) <;> intro _)
    | ((with_reducible apply runs_bind_when) <;> intro _)
    | ((with_reducible apply runs_bind_err) <;> intro _ <;> try contradiction)
    | with_reducible apply runs_ret
  all_goals
    refine ⟨_, rfl, ?_⟩
    subst_vars
    constructor <;> assumption

/-! ## Counting and classifying events -/

theorem close_calls_nil : close_calls [] = 0 := rfl

theorem close_calls_cons (e : Event) (evs : List Event) :
    close_calls (e :: evs) = close_calls evs + if e.is_close = true then 1 else 0 := by
  unfold close_calls
  rw [List.countP_cons]

theorem close_calls_append (xs ys : List Event) :
    close_calls (xs ++ ys) = close_calls xs + close_calls ys := by
  unfold close_calls
  exact List.countP_append _ xs ys

theorem close_calls_chunks (cfg : Config) (buf : List Nat) (i k : Nat) :
    close_calls (chunks cfg buf i k) = 0 := by
  induction k generalizing i with
  | zero => rfl
  | succ k ih =>
    rw [chunks_succ, close_calls_append, ih]
    unfold chunk
    split <;> rfl

/-! ## The medium gate, the handle and idempotent create (C1 to C4) -/

theorem file_create_not_ready {σ : Type} (cfg : Config) (W : World σ) (r : Run σ)
    (h : (W.media_verify r.world).1 ≠ FX_SUCCESS) :
    outcome (file_create cfg W) r
      = some (FX_SUCCESS, [Event.media_verify (W.media_verify r.world).1]) := by
  have h1 : FX_SUCCESS ≠ (W.media_verify r.world).1 := fun e => h e.symm
  simp [outcome, exec, file_create, Op.bind, call, Op.when, Op.ret, h1]

theorem file_write_not_ready {σ : Type} (cfg : Config) (W : World σ) (r : Run σ)
    (h : (W.media_verify r.world).1 ≠ FX_SUCCESS) :
    outcome (file_write cfg W) r
      = some (FX_SUCCESS, [Event.media_verify (W.media_verify r.world).1]) := by
  have h1 : FX_SUCCESS ≠ (W.media_verify r.world).1 := fun e => h e.symm
  simp [outcome, exec, file_write, Op.bind, call, Op.when, Op.ret, h1]

theorem file_read_not_ready {σ : Type} (cfg : Config) (W : World σ) (r : Run σ)
    (h : (W.media_verify r.world).1 ≠ FX_SUCCESS) :
    outcome (file_read cfg W) r
      = some (FX_SUCCESS, [Event.media_verify (W.media_verify r.world).1]) := by
  have h1 : FX_SUCCESS ≠ (W.media_verify r.world).1 := fun e => h e.symm
  simp [outcome, exec, file_read, Op.bind, call, Op.when, Op.ret, h1]

theorem file_delete_not_ready {σ : Type} (cfg : Config) (W : World σ) (r : Run σ)
    (h : (W.media_verify r.world).1 ≠ FX_SUCCESS) :
    outcome (file_delete cfg W) r
      = some (FX_SUCCESS, [Event.media_verify (W.media_verify r.world).1]) := by
  have h1 : FX_SUCCESS ≠ (W.media_verify r.world).1 := fun e => h e.symm
  simp [outcome, exec, file_delete, Op.bind, call, Op.when, Op.ret, h1]

/-- Claim C1: when `media_verify` returns any status other than `FX_SUCCESS`,
each of `file_create`, `file_write`, `file_read` and `file_delete` returns
`FX_SUCCESS`, and the only event of the call is the `media_verify` call
itself: no store call, no wait on the completion event, no output. -/
theorem not_ready_is_noop {σ : Type} (cfg : Config) (W : World σ) (r : Run σ)
    (h : (W.media_verify r.world).1 ≠ FX_SUCCESS) :
    outcome (file_create cfg W) r
        = some (FX_SUCCESS, [Event.media_verify (W.media_verify r.world).1])
      ∧ outcome (file_write cfg W) r
        = some (FX_SUCCESS, [Event.media_verify (W.media_verify r.world).1])
      ∧ outcome (file_read cfg W) r
        = some (FX_SUCCESS, [Event.media_verify (W.media_verify r.world).1])
      ∧ outcome (file_delete cfg W) r
        = some (FX_SUCCESS, [Event.media_verify (W.media_verify r.world).1]) :=
  ⟨file_create_not_ready cfg W r h, file_write_not_ready cfg W r h,
    file_read_not_ready cfg W r h, file_delete_not_ready cfg W r h⟩

/-- Claim C1, on the test double whose medium is not ready. -/
theorem not_ready_is_noop_witness :
    ((Script.world Script.not_ready).media_verify (Run.start Config.small).world).1 ≠ FX_SUCCESS
      ∧ outcome (file_create Config.small Script.not_ready.world) (Run.start Config.small)
        = some (FX_SUCCESS, [Event.media_verify 1])
      ∧ outcome (file_write Config.small Script.not_ready.world) (Run.start Config.small)
        = some (FX_SUCCESS, [Event.media_verify 1])
      ∧ outcome (file_read Config.small Script.not_ready.world) (Run.start Config.small)
        = some (FX_SUCCESS, [Event.media_verify 1])
      ∧ outcome (file_delete Config.small Script.not_ready.world) (Run.start Config.small)
        = some (FX_SUCCESS, [Event.media_verify 1]) :=
  ⟨by decide,
    not_ready_is_noop Config.small Script.not_ready.world (Run.start Config.small) (by decide)⟩

/-- Claim C2: with both loop counters in range `file_write` returns, and in
every run in which `media_verify` and `fx_file_open` succeeded the events of
the call hold exactly one `fx_file_close`, whatever the other collaborators
returned: full success, truncate failure, a failed write or wait at any
chunk, clock failure, date-time-set failure, close, flush or query
failure. -/
theorem file_write_closes_once {σ : Type} (cfg : Config) (W : World σ) (r : Run σ)
    (h16 : cfg.WRITE_BUFFER_SIZE / cfg.WRITE_LINE_SIZE < 2 ^ 16)
    (h32 : cfg.WRITE_TIMES < 2 ^ 32) :
    ∃ st evs, outcome (file_write cfg W) r = some (st, evs) ∧
      (Event.media_verify FX_SUCCESS ∈ evs →
        Event.fx_file_open cfg.FILE_NAME_ONE FX_OPEN_FOR_WRITE FX_SUCCESS ∈ evs →
        close_calls evs = 1) := by
  obtain ⟨st, evs, hout, hrun⟩ := file_write_run cfg W r h16 h32
  refine ⟨st, evs, hout, ?_⟩
  cases hrun
  case not_ready => intro _ ho; simp at ho
  case not_found => intro _ ho; simp [FX_SUCCESS, FX_NOT_FOUND] at ho
  case open_failed h1 h2 => intro _ ho; simp at ho; exact absurd ho h2
  all_goals
    intro _ _
    simp [close_calls_cons, close_calls_append, close_calls_chunks, close_calls_nil,
      Event.is_close]

/-- Claim C2, on the test double in which every call succeeds: the run opens
the file and closes it once. -/
theorem file_write_closes_once_witness :
    ∃ st evs, outcome (file_write Config.small Script.ok.world) (Run.start Config.small)
        = some (st, evs) ∧
      Event.media_verify FX_SUCCESS ∈ evs ∧
      Event.fx_file_open Config.small.FILE_NAME_ONE FX_OPEN_FOR_WRITE FX_SUCCESS ∈ evs ∧
      close_calls evs = 1 := by
  obtain ⟨st, evs, hout, h⟩ :=
    file_write_closes_once Config.small Script.ok.world (Run.start Config.small)
      (by decide) (by decide)
  have hev : (outcome (file_write Config.small Script.ok.world) (Run.start Config.small)).map
      (fun p => decide (Event.media_verify FX_SUCCESS ∈ p.2 ∧
        Event.fx_file_open Config.small.FILE_NAME_ONE FX_OPEN_FOR_WRITE FX_SUCCESS ∈ p.2))
      = some true := by decide
  rw [hout] at hev
  simp only [Option.map_some', Option.some.injEq, decide_eq_true_eq] at hev
  exact ⟨st, evs, hout, hev.1, hev.2, h hev.1 hev.2⟩

/-- Claim C3: `file_read` always returns, and in every run in which
`media_verify` and `fx_file_open` succeeded the events of the call hold
exactly one `fx_file_close`, whatever the other collaborators returned: seek
failure, read failure, a failed or timed-out wait, and the path on which the
file is closed before the directory query (the query failing or not). -/
theorem file_read_closes_once {σ : Type} (cfg : Config) (W : World σ) (r : Run σ) :
    ∃ st evs, outcome (file_read cfg W) r = some (st, evs) ∧
      (Event.media_verify FX_SUCCESS ∈ evs →
        Event.fx_file_open cfg.FILE_NAME_ONE FX_OPEN_FOR_READ FX_SUCCESS ∈ evs →
        close_calls evs = 1) := by
  obtain ⟨st, evs, hout, hrun⟩ := file_read_run cfg W r
  refine ⟨st, evs, hout, ?_⟩
  cases hrun
  case not_ready => intro _ ho; simp at ho
  case not_found => intro _ ho; simp [FX_SUCCESS, FX_NOT_FOUND] at ho
  case open_failed h1 h2 => intro _ ho; simp at ho; exact absurd ho h2
  all_goals
    intro _ _
    simp [close_calls_cons, close_calls_nil, Event.is_close]

/-- Claim C3, on the test double in which every call succeeds. -/
theorem file_read_closes_once_witness :
    ∃ st evs, outcome (file_read Config.small Script.ok.world) (Run.start Config.small)
        = some (st, evs) ∧
      Event.media_verify FX_SUCCESS ∈ evs ∧
      Event.fx_file_open Config.small.FILE_NAME_ONE FX_OPEN_FOR_READ FX_SUCCESS ∈ evs ∧
      close_calls evs = 1 := by
  obtain ⟨st, evs, hout, h⟩ :=
    file_read_closes_once Config.small Script.ok.world (Run.start Config.small)
  have hev : (outcome (file_read Config.small Script.ok.world) (Run.start Config.small)).map
      (fun p => decide (Event.media_verify FX_SUCCESS ∈ p.2 ∧
        Event.fx_file_open Config.small.FILE_NAME_ONE FX_OPEN_FOR_READ FX_SUCCESS ∈ p.2))
      = some true := by decide
  rw [hout] at hev
  simp only [Option.map_some', Option.some.injEq, decide_eq_true_eq] at hev
  exact ⟨st, evs, hout, hev.1, hev.2, h hev.1 hev.2⟩

/-- Claim C4: with the medium ready, when `fx_file_create` reports
`FX_ALREADY_CREATED`, `file_create` returns `FX_SUCCESS` right after the
"File already exists" message: no flush and no directory query is issued.
This holds in every state `r`, so also in the state a first `file_create`
leaves: the second of two calls in sequence returns `FX_SUCCESS` whenever
the store then reports the file as already created (or the medium as not
ready). -/
theorem file_create_idempotent {σ : Type} (cfg : Config) (W : World σ) (r : Run σ) :
    ((W.media_verify r.world).1 = FX_SUCCESS →
      (W.fx_file_create cfg.FILE_NAME_ONE (W.media_verify r.world).2).1 = FX_ALREADY_CREATED →
      outcome (file_create cfg W) r
        = some (FX_SUCCESS,
            [Event.media_verify FX_SUCCESS,
              Event.fx_file_create cfg.FILE_NAME_ONE FX_ALREADY_CREATED,
              Event.PRINT_INFO_STR "File already exists\r\n"]))
      ∧ ∀ (st1 : UINT) (r1 : Run σ), exec (file_create cfg W) r = some (st1, r1) →
        ((W.media_verify r1.world).1 = FX_SUCCESS →
          (W.fx_file_create cfg.FILE_NAME_ONE (W.media_verify r1.world).2).1
            = FX_ALREADY_CREATED) →
        ∃ evs, outcome (file_create cfg W) r1 = some (FX_SUCCESS, evs) ∧
          ∀ e ∈ evs, (∀ f, e ≠ Event.fx_media_flush f) ∧
            ∀ d, e ≠ Event.fx_directory_information_get cfg.FILE_NAME_ONE d := by
  have key : ∀ r0 : Run σ, (W.media_verify r0.world).1 = FX_SUCCESS →
      (W.fx_file_create cfg.FILE_NAME_ONE (W.media_verify r0.world).2).1 = FX_ALREADY_CREATED →
      outcome (file_create cfg W) r0
        = some (FX_SUCCESS,
            [Event.media_verify FX_SUCCESS,
              Event.fx_file_create cfg.FILE_NAME_ONE FX_ALREADY_CREATED,
              Event.PRINT_INFO_STR "File already exists\r\n"]) := by
    intro r0 hv hc
    simp [outcome, exec, file_create, Op.bind, call, Op.when, Op.ret, Op.pure, emit,
      PRINT_INFO_STR, hv, hc, FX_SUCCESS, FX_ALREADY_CREATED]
  refine ⟨key r, ?_⟩
  intro st1 r1 _ h2
  by_cases hv : (W.media_verify r1.world).1 = FX_SUCCESS
  · exact ⟨_, key r1 hv (h2 hv), by simp⟩
  · exact ⟨_, file_create_not_ready cfg W r1 hv, by simp⟩

/-- Claim C4, on the store that remembers the file: the first `file_create`
creates it, and the second, run in the state the first one left, ends at
"File already exists" with `FX_SUCCESS`. -/
theorem file_create_idempotent_witness :
    ∃ (st1 : UINT) (r1 : Run Bool),
      exec (file_create Config.small World.store)
          { world := false, g_write_data := [], trace := [] } = some (st1, r1) ∧
        st1 = FX_SUCCESS ∧ r1.world = true ∧
        outcome (file_create Config.small World.store) r1
          = some (FX_SUCCESS,
              [Event.media_verify FX_SUCCESS,
                Event.fx_file_create Config.small.FILE_NAME_ONE FX_ALREADY_CREATED,
                Event.PRINT_INFO_STR "File already exists\r\n"]) :=
  ⟨_, _, rfl, rfl, rfl, (file_create_idempotent Config.small World.store _).1 rfl rfl⟩

/-! ## Unwinding after a failed step (C5, C6) -/

theorem mem_chunk (cfg : Config) (buf : List Nat) (i : Nat) (e : Event)
    (h : e ∈ chunk cfg buf i) :
    e = Event.fx_file_write buf cfg.WRITE_BUFFER_SIZE FX_SUCCESS
      ∨ e = Event.tx_event_flags_get TX_SUCCESS ∨ e = Event.PRINT_INFO_STR "." := by
  unfold chunk at h
  split at h <;> simp at h <;> tauto

theorem mem_chunks (cfg : Config) (buf : List Nat) (i k : Nat) (e : Event)
    (h : e ∈ chunks cfg buf i k) :
    e = Event.fx_file_write buf cfg.WRITE_BUFFER_SIZE FX_SUCCESS
      ∨ e = Event.tx_event_flags_get TX_SUCCESS ∨ e = Event.PRINT_INFO_STR "." := by
  induction k generalizing i with
  | zero => simp [chunks] at h
  | succ k ih =>
    rw [chunks_succ, List.mem_append] at h
    rcases h with h | h
    · exact mem_chunk cfg buf i e h
    · exact ih (i + 1) h

theorem failed_step_chunks (cfg : Config) (buf : List Nat) (i k : Nat) (e : Event)
    (h : e ∈ chunks cfg buf i k) : failed_step e = none := by
  rcases mem_chunks cfg buf i k e h with rfl | rfl | rfl <;> simp [failed_step]

theorem is_late_chunks (cfg : Config) (buf : List Nat) (i k : Nat) (e : Event)
    (h : e ∈ chunks cfg buf i k) : e.is_late = false := by
  rcases mem_chunks cfg buf i k e h with rfl | rfl | rfl <;> rfl

theorem suffix_cons_of (e : Event) (xs ys : List Event) (h : xs <:+ ys) : xs <:+ e :: ys :=
  h.trans (List.suffix_cons e ys)

theorem suffix_append_of (xs ys zs : List Event) (h : xs <:+ zs) : xs <:+ ys ++ zs :=
  h.trans (List.suffix_append ys zs)

/-- Every failed step of a `file_read` run is unwound. -/
theorem read_unwinds (cfg : Config) (st : UINT) (evs : List Event) (hrun : ReadRun cfg st evs)
    (e : Event) (s : UINT) (he : e ∈ evs) (hs : failed_step e = some s) :
    Unwound st evs e s := by
  cases hrun
  all_goals
    simp only [List.mem_cons, List.mem_singleton, List.not_mem_nil, or_false] at he
    try casesm* _ ∨ _
  all_goals subst_vars
  all_goals first
    | (simp [failed_step, *] at hs; done)
    | skip
  all_goals
    simp [failed_step, *] at hs
    subst hs
    refine ⟨?_, ?_, ?sfx, ?hc1, ?hc2, ?hst, ?hclose, ?hlate⟩
    case sfx =>
      repeat' first
        | exact List.suffix_refl _
        | apply suffix_cons_of
    case hc1 =>
      first
        | (intro _; rfl)
        | (intro h; exact absurd rfl h)
    case hc2 =>
      first
        | (intro _; rfl)
        | (intro h; exact absurd h ‹_›)
    case hst =>
      assumption
    case hclose =>
      simp [close_calls_cons, close_calls_nil, Event.is_close]
    case hlate =>
      intro x hx
      simp only [List.mem_cons, List.mem_singleton, List.not_mem_nil, or_false] at hx
      casesm* _ ∨ _
      all_goals
        subst_vars
        rfl

/-- Every failed step of a `file_write` run is unwound. -/
theorem write_unwinds (cfg : Config) (st : UINT) (evs : List Event)
    (hrun : WriteRun cfg st evs) (e : Event) (s : UINT) (he : e ∈ evs)
    (hs : failed_step e = some s) :
    Unwound st evs e s := by
  cases hrun
  all_goals
    simp only [List.mem_cons, List.mem_append, List.mem_singleton, List.not_mem_nil,
      or_false] at he
    try casesm* _ ∨ _
  all_goals first
    | (have h0 := failed_step_chunks _ _ _ _ _ ‹_ ∈ chunks _ _ _ _›
       rw [h0] at hs
       cases hs)
    | subst_vars
  all_goals first
    | (simp [failed_step, *] at hs; done)
    | skip
  all_goals
    simp [failed_step, *] at hs
    subst hs
    refine ⟨?_, ?_, ?sfx, ?hc1, ?hc2, ?hst, ?hclose, ?hlate⟩
    case sfx =>
      repeat' first
        | exact List.suffix_refl _
        | apply suffix_cons_of
        | apply suffix_append_of
    case hc1 =>
      first
        | (intro _; rfl)
        | (intro h; exact absurd rfl h)
    case hc2 =>
      first
        | (intro _; rfl)
        | (intro h; exact absurd h ‹_›)
    case hst =>
      assumption
    case hclose =>
      simp [close_calls_cons, close_calls_append, close_calls_chunks, close_calls_nil,
        Event.is_close]
    case hlate =>
      intro x hx
      simp only [List.mem_cons, List.mem_append, List.mem_singleton, List.not_mem_nil,
        or_false] at hx
      casesm* _ ∨ _
      all_goals first
        | exact is_late_chunks _ _ _ _ _ ‹_ ∈ chunks _ _ _ _›
        | (subst_vars; rfl)

/-- Claim C5: in `file_write` (loop counters in range) and in `file_read`,
whenever a step after the open failed with status `s` (truncate, write,
wait, time get, date get, date-time-set; seek, read, wait), the run ends
with that step, the unwinding `fx_file_close` and one error message; if the
close returned a non-success status `c` the operation returns `c`, and if the
close succeeded it returns `s`. -/
theorem close_status_takes_priority {σ : Type} (cfg : Config) (W : World σ) (r : Run σ)
    (h16 : cfg.WRITE_BUFFER_SIZE / cfg.WRITE_LINE_SIZE < 2 ^ 16)
    (h32 : cfg.WRITE_TIMES < 2 ^ 32) :
    (∃ st evs, outcome (file_write cfg W) r = some (st, evs) ∧
      ∀ e ∈ evs, ∀ s, failed_step e = some s →
        ∃ c msg, [e, Event.fx_file_close c, Event.PRINT_ERR_STR msg] <:+ evs ∧
          (c ≠ FX_SUCCESS → st = c) ∧ (c = FX_SUCCESS → st = s))
      ∧ ∃ st evs, outcome (file_read cfg W) r = some (st, evs) ∧
        ∀ e ∈ evs, ∀ s, failed_step e = some s →
          ∃ c msg, [e, Event.fx_file_close c, Event.PRINT_ERR_STR msg] <:+ evs ∧
            (c ≠ FX_SUCCESS → st = c) ∧ (c = FX_SUCCESS → st = s) := by
  constructor
  · obtain ⟨st, evs, hout, hrun⟩ := file_write_run cfg W r h16 h32
    refine ⟨st, evs, hout, ?_⟩
    intro e he s hs
    obtain ⟨c, msg, hsfx, h1, h2, _, _, _⟩ := write_unwinds cfg st evs hrun e s he hs
    exact ⟨c, msg, hsfx, fun h => h1 (fun e => h e.symm), fun h => h2 h.symm⟩
  · obtain ⟨st, evs, hout, hrun⟩ := file_read_run cfg W r
    refine ⟨st, evs, hout, ?_⟩
    intro e he s hs
    obtain ⟨c, msg, hsfx, h1, h2, _, _, _⟩ := read_unwinds cfg st evs hrun e s he hs
    exact ⟨c, msg, hsfx, fun h => h1 (fun e => h e.symm), fun h => h2 h.symm⟩

/-- Claim C5, on the test double whose truncate fails with 5 and whose close
fails with 6: `file_write` returns the close status 6. -/
theorem close_status_takes_priority_witness :
    outcome (file_write Config.small Script.unwind_fails.world) (Run.start Config.small)
        = some (6,
            [Event.media_verify FX_SUCCESS,
              Event.fx_file_open "file.txt" FX_OPEN_FOR_WRITE FX_SUCCESS,
              Event.fx_file_extended_truncate TRUNCATE_VALUE 5,
              Event.fx_file_close 6,
              Event.PRINT_ERR_STR "fx_file_close failed\r\n"])
      ∧ failed_step (Event.fx_file_extended_truncate TRUNCATE_VALUE 5) = some 5
      ∧ ∃ c msg,
        [Event.fx_file_extended_truncate TRUNCATE_VALUE 5, Event.fx_file_close c,
            Event.PRINT_ERR_STR msg] <:+
          [Event.media_verify FX_SUCCESS,
            Event.fx_file_open "file.txt" FX_OPEN_FOR_WRITE FX_SUCCESS,
            Event.fx_file_extended_truncate TRUNCATE_VALUE 5,
            Event.fx_file_close 6,
            Event.PRINT_ERR_STR "fx_file_close failed\r\n"] ∧
          (c ≠ FX_SUCCESS → (6 : UINT) = c) ∧ (c = FX_SUCCESS → (6 : UINT) = 5) := by
  have hc : outcome (file_write Config.small Script.unwind_fails.world) (Run.start Config.small)
      = some (6,
          [Event.media_verify FX_SUCCESS,
            Event.fx_file_open "file.txt" FX_OPEN_FOR_WRITE FX_SUCCESS,
            Event.fx_file_extended_truncate TRUNCATE_VALUE 5,
            Event.fx_file_close 6,
            Event.PRINT_ERR_STR "fx_file_close failed\r\n"]) := by decide
  obtain ⟨st, evs, hout, h⟩ :=
    (close_status_takes_priority Config.small Script.unwind_fails.world (Run.start Config.small)
      (by decide) (by decide)).1
  rw [hc] at hout
  simp only [Option.some.injEq, Prod.mk.injEq] at hout
  obtain ⟨rfl, rfl⟩ := hout
  exact ⟨hc, by decide, h _ (by decide) 5 (by decide)⟩

/-- Claim C6 as stated fails: on the test double whose truncate fails with 5
and whose close fails with 6, the open succeeds, the truncate step returns
the non-success status 5, and `file_write` returns 6, not 5. -/
theorem terminal_failure_returns_step_status_counterexample :
    ∃ evs, outcome (file_write Config.small Script.unwind_fails.world) (Run.start Config.small)
        = some (6, evs) ∧
      Event.fx_file_open "file.txt" FX_OPEN_FOR_WRITE FX_SUCCESS ∈ evs ∧
      Event.fx_file_extended_truncate TRUNCATE_VALUE 5 ∈ evs ∧
      failed_step (Event.fx_file_extended_truncate TRUNCATE_VALUE 5) = some 5 ∧
      (6 : UINT) ≠ 5 :=
  ⟨[Event.media_verify FX_SUCCESS,
      Event.fx_file_open "file.txt" FX_OPEN_FOR_WRITE FX_SUCCESS,
      Event.fx_file_extended_truncate TRUNCATE_VALUE 5,
      Event.fx_file_close 6,
      Event.PRINT_ERR_STR "fx_file_close failed\r\n"],
    by decide, by decide, by decide, by decide, by decide⟩

/-- Claim C6, amended: in `file_write` (loop counters in range) and in
`file_read`, whenever a truncate, write, read (other than end-of-file),
seek, wait, clock read or date-time-set step returned a non-success status
`s`, the run closes the handle exactly once, performs no later step (it ends
with the failed step, the close and one error message, and holds no flush,
no directory query, no entry report and no content emission), and returns a
non-success status: `s` when the close succeeded, and the close status when
the close itself failed. -/
theorem terminal_failure_propagates {σ : Type} (cfg : Config) (W : World σ) (r : Run σ)
    (h16 : cfg.WRITE_BUFFER_SIZE / cfg.WRITE_LINE_SIZE < 2 ^ 16)
    (h32 : cfg.WRITE_TIMES < 2 ^ 32) :
    (∃ st evs, outcome (file_write cfg W) r = some (st, evs) ∧
      ∀ e ∈ evs, ∀ s, failed_step e = some s →
        (∃ c msg, [e, Event.fx_file_close c, Event.PRINT_ERR_STR msg] <:+ evs ∧
          (c = FX_SUCCESS → st = s) ∧ (c ≠ FX_SUCCESS → st = c)) ∧
        st ≠ FX_SUCCESS ∧ close_calls evs = 1 ∧ ∀ x ∈ evs, x.is_late = false)
      ∧ ∃ st evs, outcome (file_read cfg W) r = some (st, evs) ∧
        ∀ e ∈ evs, ∀ s, failed_step e = some s →
          (∃ c msg, [e, Event.fx_file_close c, Event.PRINT_ERR_STR msg] <:+ evs ∧
            (c = FX_SUCCESS → st = s) ∧ (c ≠ FX_SUCCESS → st = c)) ∧
          st ≠ FX_SUCCESS ∧ close_calls evs = 1 ∧ ∀ x ∈ evs, x.is_late = false := by
  constructor
  · obtain ⟨st, evs, hout, hrun⟩ := file_write_run cfg W r h16 h32
    refine ⟨st, evs, hout, ?_⟩
    intro e he s hs
    obtain ⟨c, msg, hsfx, h1, h2, h3, h4, h5⟩ := write_unwinds cfg st evs hrun e s he hs
    exact ⟨⟨c, msg, hsfx, fun h => h2 h.symm, fun h => h1 (fun e => h e.symm)⟩,
      fun h => h3 h.symm, h4, h5⟩
  · obtain ⟨st, evs, hout, hrun⟩ := file_read_run cfg W r
    refine ⟨st, evs, hout, ?_⟩
    intro e he s hs
    obtain ⟨c, msg, hsfx, h1, h2, h3, h4, h5⟩ := read_unwinds cfg st evs hrun e s he hs
    exact ⟨⟨c, msg, hsfx, fun h => h2 h.symm, fun h => h1 (fun e => h e.symm)⟩,
      fun h => h3 h.symm, h4, h5⟩

/-- Claim C6 amended, on two test doubles.  When the second completion wait
times out with status 7 and the close succeeds, `file_write` returns 7 after
the close, with no flush, query or report.  When the truncate fails with
status 5 and the close fails with status 6, `file_write` returns the close
status 6. -/
theorem terminal_failure_propagates_witness :
    outcome (file_write Config.small Script.second_wait_fails.world) (Run.start Config.small)
        = some (7,
            [Event.media_verify FX_SUCCESS,
              Event.fx_file_open "file.txt" FX_OPEN_FOR_WRITE FX_SUCCESS,
              Event.fx_file_extended_truncate TRUNCATE_VALUE FX_SUCCESS,
              Event.fx_file_write [65, 66, 65, 66] 4 FX_SUCCESS,
              Event.tx_event_flags_get TX_SUCCESS,
              Event.PRINT_INFO_STR ".",
              Event.fx_file_write [65, 66, 65, 66] 4 FX_SUCCESS,
              Event.tx_event_flags_get 7,
              Event.fx_file_close FX_SUCCESS,
              Event.PRINT_ERR_STR
                "tx_event_flags_get for RM_BLOCK_MEDIA_EVENT_WAIT_END event failed\r\n"])
      ∧ failed_step (Event.tx_event_flags_get 7) = some 7
      ∧ (7 : UINT) ≠ FX_SUCCESS
      ∧ outcome (file_write Config.small Script.unwind_fails.world) (Run.start Config.small)
        = some (6,
            [Event.media_verify FX_SUCCESS,
              Event.fx_file_open "file.txt" FX_OPEN_FOR_WRITE FX_SUCCESS,
              Event.fx_file_extended_truncate TRUNCATE_VALUE 5,
              Event.fx_file_close 6,
              Event.PRINT_ERR_STR "fx_file_close failed\r\n"])
      ∧ failed_step (Event.fx_file_extended_truncate TRUNCATE_VALUE 5) = some 5
      ∧ ∃ c msg,
        [Event.fx_file_extended_truncate TRUNCATE_VALUE 5, Event.fx_file_close c,
            Event.PRINT_ERR_STR msg] <:+
          [Event.media_verify FX_SUCCESS,
            Event.fx_file_open "file.txt" FX_OPEN_FOR_WRITE FX_SUCCESS,
            Event.fx_file_extended_truncate TRUNCATE_VALUE 5,
            Event.fx_file_close 6,
            Event.PRINT_ERR_STR "fx_file_close failed\r\n"] ∧
          (c = FX_SUCCESS → (6 : UINT) = 5) ∧ (c ≠ FX_SUCCESS → (6 : UINT) = c) := by
  have hc : outcome (file_write Config.small Script.second_wait_fails.world)
      (Run.start Config.small)
      = some (7,
          [Event.media_verify FX_SUCCESS,
            Event.fx_file_open "file.txt" FX_OPEN_FOR_WRITE FX_SUCCESS,
            Event.fx_file_extended_truncate TRUNCATE_VALUE FX_SUCCESS,
            Event.fx_file_write [65, 66, 65, 66] 4 FX_SUCCESS,
            Event.tx_event_flags_get TX_SUCCESS,
            Event.PRINT_INFO_STR ".",
            Event.fx_file_write [65, 66, 65, 66] 4 FX_SUCCESS,
            Event.tx_event_flags_get 7,
            Event.fx_file_close FX_SUCCESS,
            Event.PRINT_ERR_STR
              "tx_event_flags_get for RM_BLOCK_MEDIA_EVENT_WAIT_END event failed\r\n"]) := by
    decide
  have hc2 : outcome (file_write Config.small Script.unwind_fails.world) (Run.start Config.small)
      = some (6,
          [Event.media_verify FX_SUCCESS,
            Event.fx_file_open "file.txt" FX_OPEN_FOR_WRITE FX_SUCCESS,
            Event.fx_file_extended_truncate TRUNCATE_VALUE 5,
            Event.fx_file_close 6,
            Event.PRINT_ERR_STR "fx_file_close failed\r\n"]) := by decide
  obtain ⟨st, evs, hout, h⟩ :=
    (terminal_failure_propagates Config.small Script.second_wait_fails.world
      (Run.start Config.small) (by decide) (by decide)).1
  rw [hc] at hout
  simp only [Option.some.injEq, Prod.mk.injEq] at hout
  obtain ⟨rfl, rfl⟩ := hout
  obtain ⟨st2, evs2, hout2, h2⟩ :=
    (terminal_failure_propagates Config.small Script.unwind_fails.world
      (Run.start Config.small) (by decide) (by decide)).1
  rw [hc2] at hout2
  simp only [Option.some.injEq, Prod.mk.injEq] at hout2
  obtain ⟨rfl, rfl⟩ := hout2
  exact ⟨hc, by decide, (h (Event.tx_event_flags_get 7) (by decide) 7 (by decide)).2.1,
    hc2, by decide,
    (h2 (Event.fx_file_extended_truncate TRUNCATE_VALUE 5) (by decide) 5 (by decide)).1⟩

/-! ## Waits and writes of a run (C7) -/

theorem wait_results_append (xs ys : List Event) :
    wait_results (xs ++ ys) = wait_results xs ++ wait_results ys := by
  induction xs with
  | nil => rfl
  | cons e xs ih => cases e <;> simp [wait_results, ih]

theorem write_results_append (xs ys : List Event) :
    write_results (xs ++ ys) = write_results xs ++ write_results ys := by
  induction xs with
  | nil => rfl
  | cons e xs ih => cases e <;> simp [write_results, ih]

theorem wait_results_chunks (cfg : Config) (buf : List Nat) (i k : Nat) :
    wait_results (chunks cfg buf i k) = List.replicate k TX_SUCCESS := by
  induction k generalizing i with
  | zero => rfl
  | succ k ih =>
    rw [chunks_succ, wait_results_append, ih, List.replicate_succ]
    unfold chunk
    split <;> rfl

theorem write_results_chunks (cfg : Config) (buf : List Nat) (i k : Nat) :
    write_results (chunks cfg buf i k) = List.replicate k FX_SUCCESS := by
  induction k generalizing i with
  | zero => rfl
  | succ k ih =>
    rw [chunks_succ, write_results_append, ih, List.replicate_succ]
    unfold chunk
    split <;> rfl

theorem is_finalize_chunks (cfg : Config) (buf : List Nat) (i k : Nat) (e : Event)
    (h : e ∈ chunks cfg buf i k) : e.is_finalize = false := by
  rcases mem_chunks cfg buf i k e h with rfl | rfl | rfl <;> rfl

theorem getElem?_replicate_eq (n j : Nat) (a t : UINT)
    (h : (List.replicate n a)[j]? = some t) : t = a := by
  have hm : t ∈ List.replicate n a := List.getElem?_mem h
  exact List.eq_of_mem_replicate hm

theorem getElem?_replicate_append_singleton (n j : Nat) (a b t : UINT)
    (h : (List.replicate n a ++ [b])[j]? = some t) (hta : t ≠ a) : j = n ∧ t = b := by
  by_cases hj : j < n
  · rw [List.getElem?_append_left (by simpa using hj)] at h
    exact absurd (getElem?_replicate_eq n j a t h) hta
  · rw [List.getElem?_append_right (by simpa using hj)] at h
    simp only [List.length_replicate] at h
    have h0 : j - n = 0 := by
      by_contra hne
      obtain ⟨m, hm⟩ := Nat.exists_eq_succ_of_ne_zero hne
      rw [hm] at h
      simp at h
    rw [h0] at h
    simp only [List.getElem?_cons_zero, Option.some.injEq] at h
    exact ⟨by omega, h.symm⟩

/-- The completion waits of a `file_write` run: either all succeeded, or the
run returned from the first failed one, at chunk `n`, after `n + 1`
successful writes, with one close and no finalising call. -/
theorem write_run_waits (cfg : Config) (st : UINT) (evs : List Event)
    (hrun : WriteRun cfg st evs) :
    (∃ n, wait_results evs = List.replicate n TX_SUCCESS) ∨
      ∃ n t, n < cfg.WRITE_TIMES ∧ TX_SUCCESS ≠ t ∧
        wait_results evs = List.replicate n TX_SUCCESS ++ [t] ∧
        write_results evs = List.replicate (n + 1) FX_SUCCESS ∧
        close_calls evs = 1 ∧
        (∀ x ∈ evs, x.is_finalize = false) ∧
        Event.fx_file_open cfg.FILE_NAME_ONE FX_OPEN_FOR_WRITE FX_SUCCESS ∈ evs ∧
        Event.fx_file_extended_truncate TRUNCATE_VALUE FX_SUCCESS ∈ evs ∧
        (Event.fx_file_close FX_SUCCESS ∈ evs → st = t) := by
  cases hrun
  case not_ready =>
    exact Or.inl ⟨0, by simp [wait_results]⟩
  case not_found =>
    exact Or.inl ⟨0, by simp [wait_results]⟩
  case open_failed =>
    exact Or.inl ⟨0, by simp [wait_results]⟩
  case truncate_failed_close_failed =>
    exact Or.inl ⟨0, by simp [wait_results]⟩
  case truncate_failed =>
    exact Or.inl ⟨0, by simp [wait_results]⟩
  case write_failed_close_failed k _ _ _ _ =>
    exact Or.inl ⟨k, by simp [wait_results, wait_results_append, wait_results_chunks]⟩
  case write_failed k _ _ =>
    exact Or.inl ⟨k, by simp [wait_results, wait_results_append, wait_results_chunks]⟩
  case time_failed_close_failed =>
    exact Or.inl ⟨cfg.WRITE_TIMES,
      by simp [wait_results, wait_results_append, wait_results_chunks]⟩
  case time_failed =>
    exact Or.inl ⟨cfg.WRITE_TIMES,
      by simp [wait_results, wait_results_append, wait_results_chunks]⟩
  case date_failed_close_failed =>
    exact Or.inl ⟨cfg.WRITE_TIMES,
      by simp [wait_results, wait_results_append, wait_results_chunks]⟩
  case date_failed =>
    exact Or.inl ⟨cfg.WRITE_TIMES,
      by simp [wait_results, wait_results_append, wait_results_chunks]⟩
  case close_failed =>
    exact Or.inl ⟨cfg.WRITE_TIMES,
      by simp [wait_results, wait_results_append, wait_results_chunks]⟩
  case stamp_failed_close_failed =>
    exact Or.inl ⟨cfg.WRITE_TIMES,
      by simp [wait_results, wait_results_append, wait_results_chunks]⟩
  case stamp_failed =>
    exact Or.inl ⟨cfg.WRITE_TIMES,
      by simp [wait_results, wait_results_append, wait_results_chunks]⟩
  case flush_failed =>
    exact Or.inl ⟨cfg.WRITE_TIMES,
      by simp [wait_results, wait_results_append, wait_results_chunks]⟩
  case query_failed =>
    exact Or.inl ⟨cfg.WRITE_TIMES,
      by simp [wait_results, wait_results_append, wait_results_chunks]⟩
  case written =>
    exact Or.inl ⟨cfg.WRITE_TIMES,
      by simp [wait_results, wait_results_append, wait_results_chunks]⟩
  case wait_failed_close_failed k t hk ht hc =>
    refine Or.inr ⟨k, t, hk, ht, ?_, ?_, ?_, ?_, ?_, ?_, ?_⟩
    · simp [wait_results, wait_results_append, wait_results_chunks]
    · simp [write_results, write_results_append, write_results_chunks, List.replicate_succ']
    · simp [close_calls_cons, close_calls_append, close_calls_chunks, close_calls_nil,
        Event.is_close]
    · intro x hx
      simp only [List.mem_cons, List.mem_append, List.mem_singleton, List.not_mem_nil,
        or_false] at hx
      casesm* _ ∨ _
      all_goals first
        | exact is_finalize_chunks _ _ _ _ _ ‹_ ∈ chunks _ _ _ _›
        | (subst_vars; rfl)
    · simp
    · simp
    · intro hx
      simp only [List.mem_cons, List.mem_append, List.mem_singleton, List.not_mem_nil,
        or_false] at hx
      casesm* _ ∨ _
      all_goals first
        | (have h0 := mem_chunks _ _ _ _ _ ‹_ ∈ chunks _ _ _ _›
           simp at h0)
        | (exfalso; simp at *; done)
        | (rename_i h; injection h with h; exact absurd h hc)
  case wait_failed k hk ht =>
    refine Or.inr ⟨k, st, hk, ht, ?_, ?_, ?_, ?_, ?_, ?_, fun _ => rfl⟩
    · simp [wait_results, wait_results_append, wait_results_chunks]
    · simp [write_results, write_results_append, write_results_chunks, List.replicate_succ']
    · simp [close_calls_cons, close_calls_append, close_calls_chunks, close_calls_nil,
        Event.is_close]
    · intro x hx
      simp only [List.mem_cons, List.mem_append, List.mem_singleton, List.not_mem_nil,
        or_false] at hx
      casesm* _ ∨ _
      all_goals first
        | exact is_finalize_chunks _ _ _ _ _ ‹_ ∈ chunks _ _ _ _›
        | (subst_vars; rfl)
    · simp
    · simp

/-- Claim C7: let `1 ≤ k` and let `t` be a non-success status.  In a run of
`file_write` (loop counters in range) whose `k`-th wait on the completion
event returned `t`: `k ≤ WRITE_TIMES`, the open and the truncate succeeded,
exactly `k` `fx_file_write` calls were issued and all succeeded, exactly `k`
waits were issued of which the first `k - 1` succeeded, the file is closed
once, no clock, date-time-set, flush or directory call is issued, and, the
close succeeding, `file_write` returns `t`. -/
theorem wait_timeout_at_chunk {σ : Type} (cfg : Config) (W : World σ) (r : Run σ)
    (h16 : cfg.WRITE_BUFFER_SIZE / cfg.WRITE_LINE_SIZE < 2 ^ 16)
    (h32 : cfg.WRITE_TIMES < 2 ^ 32) (k : Nat) (t : UINT) (hk : 1 ≤ k)
    (ht : t ≠ TX_SUCCESS) :
    ∃ st evs, outcome (file_write cfg W) r = some (st, evs) ∧
      ((wait_results evs)[k - 1]? = some t →
        k ≤ cfg.WRITE_TIMES ∧
        Event.fx_file_open cfg.FILE_NAME_ONE FX_OPEN_FOR_WRITE FX_SUCCESS ∈ evs ∧
        Event.fx_file_extended_truncate TRUNCATE_VALUE FX_SUCCESS ∈ evs ∧
        write_results evs = List.replicate k FX_SUCCESS ∧
        wait_results evs = List.replicate (k - 1) TX_SUCCESS ++ [t] ∧
        close_calls evs = 1 ∧
        (∀ x ∈ evs, x.is_finalize = false) ∧
        (Event.fx_file_close FX_SUCCESS ∈ evs → st = t)) := by
  obtain ⟨st, evs, hout, hrun⟩ := file_write_run cfg W r h16 h32
  refine ⟨st, evs, hout, ?_⟩
  intro hkth
  rcases write_run_waits cfg st evs hrun with ⟨n, hn⟩ | ⟨n, t1, hlt, _, hw, hwr, hcl, hfin, ho, htr, hst⟩
  · rw [hn] at hkth
    exact absurd (getElem?_replicate_eq n (k - 1) TX_SUCCESS t hkth) ht
  · rw [hw] at hkth
    obtain ⟨hj, rfl⟩ := getElem?_replicate_append_singleton n (k - 1) TX_SUCCESS t1 t hkth ht
    have hkn : k = n + 1 := by omega
    subst hkn
    exact ⟨by omega, ho, htr, hwr, by simpa using hw, hcl, hfin, hst⟩

/-- Claim C7, on the test double whose second wait times out with status 7
and whose close succeeds: two writes, two waits, and `file_write` returns
7. -/
theorem wait_timeout_at_chunk_witness :
    ∃ st evs,
      outcome (file_write Config.small Script.second_wait_fails.world) (Run.start Config.small)
        = some (st, evs) ∧
      (wait_results evs)[2 - 1]? = some 7 ∧
      write_results evs = [FX_SUCCESS, FX_SUCCESS] ∧
      wait_results evs = [TX_SUCCESS, 7] ∧
      close_calls evs = 1 ∧
      Event.fx_file_close FX_SUCCESS ∈ evs ∧
      st = 7 := by
  obtain ⟨st, evs, hout, h⟩ :=
    wait_timeout_at_chunk Config.small Script.second_wait_fails.world (Run.start Config.small)
      (by decide) (by decide) 2 7 (by decide) (by decide)
  have hev : (outcome (file_write Config.small Script.second_wait_fails.world)
      (Run.start Config.small)).map
      (fun p => decide ((wait_results p.2)[2 - 1]? = some 7 ∧
        Event.fx_file_close FX_SUCCESS ∈ p.2))
      = some true := by decide
  rw [hout] at hev
  simp only [Option.map_some', Option.some.injEq, decide_eq_true_eq] at hev
  obtain ⟨_, _, _, hwr, hw, hcl, _, hst⟩ := h hev.1
  exact ⟨st, evs, hout, hev.1, hwr, hw, hcl, hev.2, hst hev.2⟩

/-! ## The content `file_read` emits (C8 to C10) -/

theorem read_buffer_eq (cfg : Config) :
    read_buffer cfg = List.replicate (cfg.READ_BUFFER_SIZE + 1) 0 := by
  simp [read_buffer, RESET_VALUE, ONE_BYTE, List.replicate_succ]

/-- Claim C8 as stated fails: on the test double with a read cap of four
bytes whose `fx_file_read` reports four bytes, `file_read` succeeds and the
only length it passes to the output sink is 5, not the cap 4. -/
theorem read_preview_length_counterexample :
    ∃ evs, outcome (file_read Config.small Script.read_full.world) (Run.start Config.small)
        = some (FX_SUCCESS, evs) ∧
      Event.fx_file_read (read_buffer Config.small) 4 FX_SUCCESS [1, 2, 3, 4, 0] 4 ∈ evs ∧
      Config.small.READ_BUFFER_SIZE ≤ 4 ∧
      Event.send_data_to_rtt 5 [1, 2, 3, 4, 0] ∈ evs ∧
      ∀ n data, Event.send_data_to_rtt n data ∈ evs → n ≠ Config.small.READ_BUFFER_SIZE := by
  refine ⟨[Event.media_verify FX_SUCCESS,
      Event.fx_file_open "file.txt" FX_OPEN_FOR_READ FX_SUCCESS,
      Event.fx_file_extended_seek SEEK_VALUE FX_SUCCESS,
      Event.fx_file_read (read_buffer Config.small) 4 FX_SUCCESS [1, 2, 3, 4, 0] 4,
      Event.tx_event_flags_get TX_SUCCESS,
      Event.fx_file_close FX_SUCCESS,
      Event.fx_directory_information_get "file.txt" FX_SUCCESS,
      Event.PRINT_ENTRY_INFO
        { name := "file.txt", attr := 0, size := 0, time := time_new_t.reset },
      Event.PRINT_INFO_STR "\r\nContent of the first 1 kB of the file\r\n\r\n",
      Event.send_data_to_rtt 5 [1, 2, 3, 4, 0],
      Event.PRINT_INFO_STR "\r\nEnd\r\n"], by decide, by decide, by decide, by decide, ?_⟩
  intro n data h
  simp at h
  rw [h.1]
  decide

/-- Claim C8, amended: when `file_read` succeeds and the byte count `len`
that `fx_file_read` reported is at least the cap `READ_BUFFER_SIZE`, the run
ends with the label "Content of the first 1 kB of the file", one emission of
the read buffer with length exactly `READ_BUFFER_SIZE + 1` (the capped
number of bytes plus one terminator byte), and the end mark. -/
theorem read_preview_length {σ : Type} (cfg : Config) (W : World σ) (r : Run σ)
    (hR : cfg.READ_BUFFER_SIZE + 1 < 2 ^ 32) :
    ∃ st evs, outcome (file_read cfg W) r = some (st, evs) ∧
      ∀ buf rs data len, Event.fx_file_read buf cfg.READ_BUFFER_SIZE rs data len ∈ evs →
        st = FX_SUCCESS → cfg.READ_BUFFER_SIZE ≤ len →
        [Event.PRINT_INFO_STR "\r\nContent of the first 1 kB of the file\r\n\r\n",
          Event.send_data_to_rtt (cfg.READ_BUFFER_SIZE + 1) data,
          Event.PRINT_INFO_STR "\r\nEnd\r\n"] <:+ evs := by
  obtain ⟨st, evs, hout, hrun⟩ := file_read_run cfg W r
  refine ⟨st, evs, hout, ?_⟩
  intro buf rs data len hmem hst hlen
  have hmod : (cfg.READ_BUFFER_SIZE + ONE_BYTE) % 2 ^ 32 = cfg.READ_BUFFER_SIZE + 1 :=
    Nat.mod_eq_of_lt hR
  cases hrun <;> simp at hmem
  all_goals obtain ⟨rfl, rfl, rfl, rfl⟩ := hmem
  all_goals first
    | exact absurd hst.symm (by assumption)
    | exact absurd hst.symm ‹TX_SUCCESS ≠ _›
    | omega
    | skip
  rw [hmod]
  repeat' first
    | exact List.suffix_refl _
    | apply suffix_cons_of

/-- Claim C8 amended, on the test double whose `fx_file_read` reports the
full cap of four bytes: the emission has length 5. -/
theorem read_preview_length_witness :
    Config.small.READ_BUFFER_SIZE + 1 < 2 ^ 32 ∧
      ∃ st evs, outcome (file_read Config.small Script.read_full.world) (Run.start Config.small)
          = some (st, evs) ∧
        Event.fx_file_read (read_buffer Config.small) Config.small.READ_BUFFER_SIZE FX_SUCCESS
          [1, 2, 3, 4, 0] 4 ∈ evs ∧
        st = FX_SUCCESS ∧
        [Event.PRINT_INFO_STR "\r\nContent of the first 1 kB of the file\r\n\r\n",
          Event.send_data_to_rtt (Config.small.READ_BUFFER_SIZE + 1) [1, 2, 3, 4, 0],
          Event.PRINT_INFO_STR "\r\nEnd\r\n"] <:+ evs := by
  obtain ⟨st, evs, hout, h⟩ :=
    read_preview_length Config.small Script.read_full.world (Run.start Config.small) (by decide)
  have hev : (outcome (file_read Config.small Script.read_full.world)
      (Run.start Config.small)).map
      (fun p => decide (Event.fx_file_read (read_buffer Config.small)
          Config.small.READ_BUFFER_SIZE FX_SUCCESS [1, 2, 3, 4, 0] 4 ∈ p.2 ∧ p.1 = FX_SUCCESS))
      = some true := by decide
  rw [hout] at hev
  simp only [Option.map_some', Option.some.injEq, decide_eq_true_eq] at hev
  exact ⟨by decide, st, evs, hout, hev.1, hev.2, h _ _ _ _ hev.1 hev.2 (by decide)⟩

/-- Claim C9: when `file_read` succeeds and the byte count `len` that
`fx_file_read` reported is strictly below the cap `READ_BUFFER_SIZE`, the
run ends with the label "Content of the file" (not the preview label), one
emission of the read buffer with length exactly `len + 1`, and the end mark;
and the byte at offset `len` of the emitted buffer is NUL, given that
`fx_file_read` left the buffer as it was from offset `len` on. -/
theorem read_whole_content {σ : Type} (cfg : Config) (W : World σ) (r : Run σ)
    (hR : cfg.READ_BUFFER_SIZE < 2 ^ 32) :
    ∃ st evs, outcome (file_read cfg W) r = some (st, evs) ∧
      ∀ buf rs data len, Event.fx_file_read buf cfg.READ_BUFFER_SIZE rs data len ∈ evs →
        st = FX_SUCCESS → len < cfg.READ_BUFFER_SIZE →
        [Event.PRINT_INFO_STR "\r\nContent of the file\r\n\r\n",
          Event.send_data_to_rtt (len + 1) data,
          Event.PRINT_INFO_STR "\r\nEnd\r\n"] <:+ evs ∧
        ((∀ j, len ≤ j → data[j]? = buf[j]?) → data[len]? = some NULL_CHAR) := by
  obtain ⟨st, evs, hout, hrun⟩ := file_read_run cfg W r
  refine ⟨st, evs, hout, ?_⟩
  intro buf rs data len hmem hst hlen
  have hmod : (len + ONE_BYTE) % 2 ^ 32 = len + 1 :=
    Nat.mod_eq_of_lt (by unfold ONE_BYTE; omega)
  have hnul : (read_buffer cfg)[len]? = some NULL_CHAR := by
    rw [read_buffer_eq, List.getElem?_replicate_of_lt (by omega)]
    rfl
  cases hrun <;> simp at hmem
  all_goals obtain ⟨rfl, rfl, rfl, rfl⟩ := hmem
  all_goals first
    | exact absurd hst.symm (by assumption)
    | exact absurd hst.symm ‹TX_SUCCESS ≠ _›
    | omega
    | skip
  rw [hmod]
  refine ⟨?_, fun hkeep => by rw [hkeep len (Nat.le_refl len)]; exact hnul⟩
  repeat' first
    | exact List.suffix_refl _
    | apply suffix_cons_of

/-- Claim C9, on the test double whose `fx_file_read` stores two bytes into
the five-byte buffer and reports two: three bytes are emitted, the third is
NUL. -/
theorem read_whole_content_witness :
    Config.small.READ_BUFFER_SIZE < 2 ^ 32 ∧
      ∃ st evs, outcome (file_read Config.small Script.read_short.world) (Run.start Config.small)
          = some (st, evs) ∧
        Event.fx_file_read (read_buffer Config.small) Config.small.READ_BUFFER_SIZE
          FX_END_OF_FILE [1, 2, 0, 0, 0] 2 ∈ evs ∧
        st = FX_SUCCESS ∧
        [Event.PRINT_INFO_STR "\r\nContent of the file\r\n\r\n",
          Event.send_data_to_rtt (2 + 1) [1, 2, 0, 0, 0],
          Event.PRINT_INFO_STR "\r\nEnd\r\n"] <:+ evs ∧
        ([1, 2, 0, 0, 0] : List Nat)[2]? = some NULL_CHAR := by
  obtain ⟨st, evs, hout, h⟩ :=
    read_whole_content Config.small Script.read_short.world (Run.start Config.small) (by decide)
  have hev : (outcome (file_read Config.small Script.read_short.world)
      (Run.start Config.small)).map
      (fun p => decide (Event.fx_file_read (read_buffer Config.small)
          Config.small.READ_BUFFER_SIZE FX_END_OF_FILE [1, 2, 0, 0, 0] 2 ∈ p.2
        ∧ p.1 = FX_SUCCESS))
      = some true := by decide
  rw [hout] at hev
  simp only [Option.map_some', Option.some.injEq, decide_eq_true_eq] at hev
  have h2 := h _ _ _ _ hev.1 hev.2 (by decide)
  refine ⟨by decide, st, evs, hout, hev.1, hev.2, h2.1, h2.2 ?_⟩
  intro j hj
  match j, hj with
  | 2, _ => rfl
  | 3, _ => rfl
  | 4, _ => rfl
  | j + 5, _ => rfl

/-- After a read that returned `FX_END_OF_FILE` or `FX_SUCCESS`, a `file_read`
run goes on step by step: the wait follows the read; the close follows a
successful wait; the directory query follows a successful close; the entry
report, the content label, the emission of the read buffer and the end mark
follow a successful query, and the run returns `FX_SUCCESS`. -/
theorem read_run_proceeds (cfg : Config) (st : UINT) (evs : List Event)
    (hrun : ReadRun cfg st evs) (buf : List Nat) (rs : UINT) (data : List Nat) (len : Nat)
    (hmem : Event.fx_file_read buf cfg.READ_BUFFER_SIZE rs data len ∈ evs)
    (hok : rs = FX_END_OF_FILE ∨ rs = FX_SUCCESS) :
    ∃ t, [Event.fx_file_read buf cfg.READ_BUFFER_SIZE rs data len,
        Event.tx_event_flags_get t] <:+: evs ∧
      (t = TX_SUCCESS →
        ∃ c, [Event.fx_file_read buf cfg.READ_BUFFER_SIZE rs data len,
            Event.tx_event_flags_get t, Event.fx_file_close c] <:+: evs ∧
          (c = FX_SUCCESS →
            ∃ d, [Event.fx_file_read buf cfg.READ_BUFFER_SIZE rs data len,
                Event.tx_event_flags_get t, Event.fx_file_close c,
                Event.fx_directory_information_get cfg.FILE_NAME_ONE d] <:+: evs ∧
              (d = FX_SUCCESS →
                st = FX_SUCCESS ∧
                ∃ entry label n,
                  [Event.fx_file_read buf cfg.READ_BUFFER_SIZE rs data len,
                    Event.tx_event_flags_get t, Event.fx_file_close c,
                    Event.fx_directory_information_get cfg.FILE_NAME_ONE d,
                    Event.PRINT_ENTRY_INFO entry, Event.PRINT_INFO_STR label,
                    Event.send_data_to_rtt n data,
                    Event.PRINT_INFO_STR "\r\nEnd\r\n"] <:+ evs))) := by
  cases hrun <;> simp at hmem
  all_goals obtain ⟨rfl, rfl, rfl, rfl⟩ := hmem
  case read_failed_close_failed =>
    rcases hok with h | h
    · exact absurd h.symm (by assumption)
    · exact absurd h.symm (by assumption)
  case read_failed =>
    rcases hok with h | h
    · exact absurd h.symm (by assumption)
    · exact absurd h.symm (by assumption)
  case close_failed =>
    refine ⟨_, ⟨[_, _, _], _, rfl⟩, fun _ => ⟨_, ⟨[_, _, _], _, rfl⟩, fun h => ?_⟩⟩
    exact absurd h.symm (by assumption)
  case wait_failed_close_failed =>
    refine ⟨_, ⟨[_, _, _], _, rfl⟩, fun h => ?_⟩
    exact absurd h.symm (by assumption)
  case wait_failed =>
    refine ⟨_, ⟨[_, _, _], _, rfl⟩, fun h => ?_⟩
    exact absurd h.symm (by assumption)
  case query_failed =>
    refine ⟨_, ⟨[_, _, _], _, rfl⟩, fun _ => ⟨_, ⟨[_, _, _], _, rfl⟩, fun _ =>
      ⟨_, ⟨[_, _, _], _, rfl⟩, fun h => ?_⟩⟩⟩
    exact absurd h.symm (by assumption)
  case whole =>
    refine ⟨_, ⟨[_, _, _], _, rfl⟩, fun _ => ⟨_, ⟨[_, _, _], _, rfl⟩, fun _ =>
      ⟨_, ⟨[_, _, _], _, rfl⟩, fun _ => ⟨rfl, _, _, _, [_, _, _], rfl⟩⟩⟩⟩
  case preview =>
    refine ⟨_, ⟨[_, _, _], _, rfl⟩, fun _ => ⟨_, ⟨[_, _, _], _, rfl⟩, fun _ =>
      ⟨_, ⟨[_, _, _], _, rfl⟩, fun _ => ⟨rfl, _, _, _, [_, _, _], rfl⟩⟩⟩⟩

/-- Claim C10: in `file_read`, a read status of `FX_END_OF_FILE` is handled
like `FX_SUCCESS`: the run does not take the read-failure branch but goes on
step by step.  The call right after the read is the wait on the completion
event; if the wait succeeded, the call right after it is `fx_file_close`; if
the close succeeded, the call right after it is the directory query; and if
the query succeeded, the run ends with the entry report, the content label,
the emission of the read buffer and the end mark, and returns `FX_SUCCESS`.
Every other read status makes the run end with the read, one close and an
error message, and return a non-success status. -/
theorem end_of_file_is_success {σ : Type} (cfg : Config) (W : World σ) (r : Run σ) :
    ∃ st evs, outcome (file_read cfg W) r = some (st, evs) ∧
      ∀ buf rs data len, Event.fx_file_read buf cfg.READ_BUFFER_SIZE rs data len ∈ evs →
        ((rs = FX_END_OF_FILE ∨ rs = FX_SUCCESS) →
          (∃ t, [Event.fx_file_read buf cfg.READ_BUFFER_SIZE rs data len,
                Event.tx_event_flags_get t] <:+: evs ∧
            (t = TX_SUCCESS →
              ∃ c, [Event.fx_file_read buf cfg.READ_BUFFER_SIZE rs data len,
                  Event.tx_event_flags_get t, Event.fx_file_close c] <:+: evs ∧
                (c = FX_SUCCESS →
                  ∃ d, [Event.fx_file_read buf cfg.READ_BUFFER_SIZE rs data len,
                      Event.tx_event_flags_get t, Event.fx_file_close c,
                      Event.fx_directory_information_get cfg.FILE_NAME_ONE d] <:+: evs ∧
                    (d = FX_SUCCESS →
                      st = FX_SUCCESS ∧
                      ∃ entry label n,
                        [Event.fx_file_read buf cfg.READ_BUFFER_SIZE rs data len,
                          Event.tx_event_flags_get t, Event.fx_file_close c,
                          Event.fx_directory_information_get cfg.FILE_NAME_ONE d,
                          Event.PRINT_ENTRY_INFO entry, Event.PRINT_INFO_STR label,
                          Event.send_data_to_rtt n data,
                          Event.PRINT_INFO_STR "\r\nEnd\r\n"] <:+ evs)))) ∧
          (Event.tx_event_flags_get TX_SUCCESS ∈ evs →
            Event.fx_file_close FX_SUCCESS ∈ evs →
            Event.fx_directory_information_get cfg.FILE_NAME_ONE FX_SUCCESS ∈ evs →
            st = FX_SUCCESS ∧ ∃ n, Event.send_data_to_rtt n data ∈ evs)) ∧
        (rs ≠ FX_END_OF_FILE → rs ≠ FX_SUCCESS →
          st ≠ FX_SUCCESS ∧
          ∃ c msg, [Event.fx_file_read buf cfg.READ_BUFFER_SIZE rs data len,
            Event.fx_file_close c, Event.PRINT_ERR_STR msg] <:+ evs) := by
  obtain ⟨st, evs, hout, hrun⟩ := file_read_run cfg W r
  refine ⟨st, evs, hout, ?_⟩
  intro buf rs data len hmem
  refine ⟨fun hok => ⟨read_run_proceeds cfg st evs hrun buf rs data len hmem hok, ?_⟩, ?_⟩
  · cases hrun <;> simp at hmem
    all_goals obtain ⟨rfl, rfl, rfl, rfl⟩ := hmem
    all_goals
      intro hw hc hd
      first
        | (simp at hw; done)
        | (simp at hw; exact absurd hw (by assumption))
        | (simp at hc; exact absurd hc (by assumption))
        | (simp at hd; exact absurd hd (by assumption))
        | (refine ⟨rfl, ?_⟩; simp)
  · cases hrun <;> simp at hmem
    all_goals obtain ⟨rfl, rfl, rfl, rfl⟩ := hmem
    all_goals
      intro hne1 hne2
      first
        | exact absurd (And.intro (Ne.symm hne1) (Ne.symm hne2)) (by assumption)
        | (refine ⟨fun h => absurd h.symm (by assumption), ?_⟩
           refine ⟨?_, ?_, ?_⟩
           rotate_left 2
           repeat' first
             | exact List.suffix_refl _
             | apply suffix_cons_of)

/-- Claim C10, on the test double whose `fx_file_read` returns
`FX_END_OF_FILE` after two bytes: the wait, the close and the directory
query follow one another, the content is emitted and `file_read` returns
`FX_SUCCESS`. -/
theorem end_of_file_is_success_witness :
    ∃ st evs, outcome (file_read Config.small Script.read_short.world) (Run.start Config.small)
        = some (st, evs) ∧
      Event.fx_file_read (read_buffer Config.small) Config.small.READ_BUFFER_SIZE
        FX_END_OF_FILE [1, 2, 0, 0, 0] 2 ∈ evs ∧
      st = FX_SUCCESS ∧
      ∃ entry label n,
        [Event.fx_file_read (read_buffer Config.small) Config.small.READ_BUFFER_SIZE
            FX_END_OF_FILE [1, 2, 0, 0, 0] 2,
          Event.tx_event_flags_get TX_SUCCESS, Event.fx_file_close FX_SUCCESS,
          Event.fx_directory_information_get Config.small.FILE_NAME_ONE FX_SUCCESS,
          Event.PRINT_ENTRY_INFO entry, Event.PRINT_INFO_STR label,
          Event.send_data_to_rtt n [1, 2, 0, 0, 0],
          Event.PRINT_INFO_STR "\r\nEnd\r\n"] <:+ evs := by
  obtain ⟨st, evs, hout, h⟩ :=
    end_of_file_is_success Config.small Script.read_short.world (Run.start Config.small)
  have hc : outcome (file_read Config.small Script.read_short.world) (Run.start Config.small)
      = some (FX_SUCCESS,
          [Event.media_verify FX_SUCCESS,
            Event.fx_file_open "file.txt" FX_OPEN_FOR_READ FX_SUCCESS,
            Event.fx_file_extended_seek SEEK_VALUE FX_SUCCESS,
            Event.fx_file_read (read_buffer Config.small) 4 FX_END_OF_FILE [1, 2, 0, 0, 0] 2,
            Event.tx_event_flags_get TX_SUCCESS,
            Event.fx_file_close FX_SUCCESS,
            Event.fx_directory_information_get "file.txt" FX_SUCCESS,
            Event.PRINT_ENTRY_INFO
              { name := "file.txt", attr := 0, size := 0, time := time_new_t.reset },
            Event.PRINT_INFO_STR "\r\nContent of the file\r\n\r\n",
            Event.send_data_to_rtt 3 [1, 2, 0, 0, 0],
            Event.PRINT_INFO_STR "\r\nEnd\r\n"]) := by decide
  have hr : (outcome (file_read Config.small Script.read_short.world)
      (Run.start Config.small)).map
      (fun p => decide (Event.fx_file_read (read_buffer Config.small)
          Config.small.READ_BUFFER_SIZE FX_END_OF_FILE [1, 2, 0, 0, 0] 2 ∈ p.2))
      = some true := by decide
  rw [hout] at hr
  simp only [Option.map_some', Option.some.injEq, decide_eq_true_eq] at hr
  have hout2 := hout
  rw [hc] at hout2
  simp only [Option.some.injEq, Prod.mk.injEq] at hout2
  obtain ⟨rfl, rfl⟩ := hout2
  obtain ⟨t, ht, hstage⟩ := ((h _ _ _ _ hr).1 (Or.inl rfl)).1
  have e1 : t = TX_SUCCESS := by
    have hm := ht.subset (List.mem_cons_of_mem _ (List.mem_singleton.2 rfl))
    simpa using hm
  obtain ⟨c, hcl, hstage⟩ := hstage e1
  have e2 : c = FX_SUCCESS := by
    have hm := hcl.subset
      (List.mem_cons_of_mem _ (List.mem_cons_of_mem _ (List.mem_singleton.2 rfl)))
    simpa using hm
  obtain ⟨d, hq, hstage⟩ := hstage e2
  have e3 : d = FX_SUCCESS := by
    have hm := hq.subset
      (List.mem_cons_of_mem _ (List.mem_cons_of_mem _ (List.mem_cons_of_mem _
        (List.mem_singleton.2 rfl))))
    simp at hm
    exact hm.2
  subst e1 e2 e3
  exact ⟨_, _, hout, hr, (hstage rfl).1, (hstage rfl).2⟩

/-! ## A missing file and a failed open, delete or create (C11 to C13) -/

/-- Claim C11: with the medium ready, when `fx_file_open` returns
`FX_NOT_FOUND`, `file_write` and `file_read` return `FX_SUCCESS` and the call
holds the verify, the open and the "File does not exist" message only: no
truncate, write, seek, read, wait, close, flush or directory query; when the
open returns a status `o` other than `FX_SUCCESS` and `FX_NOT_FOUND`, they
return `o`, and the call holds the verify, the open and one error message
only, so no close. -/
theorem open_not_found_is_noop {σ : Type} (cfg : Config) (W : World σ) (r : Run σ)
    (hv : (W.media_verify r.world).1 = FX_SUCCESS) :
    ((W.fx_file_open cfg.FILE_NAME_ONE FX_OPEN_FOR_WRITE (W.media_verify r.world).2).1
          = FX_NOT_FOUND →
        outcome (file_write cfg W) r
          = some (FX_SUCCESS,
              [Event.media_verify FX_SUCCESS,
                Event.fx_file_open cfg.FILE_NAME_ONE FX_OPEN_FOR_WRITE FX_NOT_FOUND,
                Event.PRINT_INFO_STR "File does not exist\r\n"]))
      ∧ ((W.fx_file_open cfg.FILE_NAME_ONE FX_OPEN_FOR_READ (W.media_verify r.world).2).1
          = FX_NOT_FOUND →
        outcome (file_read cfg W) r
          = some (FX_SUCCESS,
              [Event.media_verify FX_SUCCESS,
                Event.fx_file_open cfg.FILE_NAME_ONE FX_OPEN_FOR_READ FX_NOT_FOUND,
                Event.PRINT_INFO_STR "File does not exist\r\n"]))
      ∧ (∀ o, (W.fx_file_open cfg.FILE_NAME_ONE FX_OPEN_FOR_WRITE (W.media_verify r.world).2).1
          = o → o ≠ FX_SUCCESS → o ≠ FX_NOT_FOUND →
        outcome (file_write cfg W) r
          = some (o,
              [Event.media_verify FX_SUCCESS,
                Event.fx_file_open cfg.FILE_NAME_ONE FX_OPEN_FOR_WRITE o,
                Event.PRINT_ERR_STR "fx_file_open failed\r\n"]))
      ∧ ∀ o, (W.fx_file_open cfg.FILE_NAME_ONE FX_OPEN_FOR_READ (W.media_verify r.world).2).1
          = o → o ≠ FX_SUCCESS → o ≠ FX_NOT_FOUND →
        outcome (file_read cfg W) r
          = some (o,
              [Event.media_verify FX_SUCCESS,
                Event.fx_file_open cfg.FILE_NAME_ONE FX_OPEN_FOR_READ o,
                Event.PRINT_ERR_STR "fx_file_open failed\r\n"]) := by
  refine ⟨?_, ?_, ?_, ?_⟩
  · intro ho
    simp [outcome, exec, file_write, Op.bind, call, Op.when, Op.ret, Op.pure, emit,
      PRINT_INFO_STR, hv, ho, FX_SUCCESS, FX_NOT_FOUND]
  · intro ho
    simp [outcome, exec, file_read, Op.bind, call, Op.when, Op.ret, Op.pure, emit,
      PRINT_INFO_STR, hv, ho, FX_SUCCESS, FX_NOT_FOUND]
  · intro o ho h1 h2
    have h3 : ¬FX_NOT_FOUND = o := fun e => h2 e.symm
    have h4 : ¬FX_SUCCESS = o := fun e => h1 e.symm
    simp [outcome, exec, file_write, Op.bind, call, Op.when, Op.ret, Op.pure, emit,
      RETURN_ERR_STR, hv, ho, h3, h4]
  · intro o ho h1 h2
    have h3 : ¬FX_NOT_FOUND = o := fun e => h2 e.symm
    have h4 : ¬FX_SUCCESS = o := fun e => h1 e.symm
    simp [outcome, exec, file_read, Op.bind, call, Op.when, Op.ret, Op.pure, emit,
      RETURN_ERR_STR, hv, ho, h3, h4]

/-- Claim C11, on the test doubles whose open reports `FX_NOT_FOUND` and
whose open fails with status 8. -/
theorem open_not_found_is_noop_witness :
    (Script.open_not_found.world.media_verify (Run.start Config.small).world).1 = FX_SUCCESS
      ∧ outcome (file_write Config.small Script.open_not_found.world) (Run.start Config.small)
          = some (FX_SUCCESS,
              [Event.media_verify FX_SUCCESS,
                Event.fx_file_open "file.txt" FX_OPEN_FOR_WRITE FX_NOT_FOUND,
                Event.PRINT_INFO_STR "File does not exist\r\n"])
      ∧ outcome (file_read Config.small Script.open_not_found.world) (Run.start Config.small)
          = some (FX_SUCCESS,
              [Event.media_verify FX_SUCCESS,
                Event.fx_file_open "file.txt" FX_OPEN_FOR_READ FX_NOT_FOUND,
                Event.PRINT_INFO_STR "File does not exist\r\n"])
      ∧ outcome (file_write Config.small Script.open_fails.world) (Run.start Config.small)
          = some (8,
              [Event.media_verify FX_SUCCESS,
                Event.fx_file_open "file.txt" FX_OPEN_FOR_WRITE 8,
                Event.PRINT_ERR_STR "fx_file_open failed\r\n"])
      ∧ outcome (file_read Config.small Script.open_fails.world) (Run.start Config.small)
          = some (8,
              [Event.media_verify FX_SUCCESS,
                Event.fx_file_open "file.txt" FX_OPEN_FOR_READ 8,
                Event.PRINT_ERR_STR "fx_file_open failed\r\n"]) :=
  ⟨by decide,
    (open_not_found_is_noop Config.small Script.open_not_found.world (Run.start Config.small)
      (by decide)).1 (by decide),
    (open_not_found_is_noop Config.small Script.open_not_found.world (Run.start Config.small)
      (by decide)).2.1 (by decide),
    (open_not_found_is_noop Config.small Script.open_fails.world (Run.start Config.small)
      (by decide)).2.2.1 8 (by decide) (by decide) (by decide),
    (open_not_found_is_noop Config.small Script.open_fails.world (Run.start Config.small)
      (by decide)).2.2.2 8 (by decide) (by decide) (by decide)⟩

/-- Claim C12: with the medium ready, `file_delete` returns `FX_SUCCESS`
after the "File does not exist" message, without a flush, when
`fx_file_delete` returns `FX_NOT_FOUND`; it returns the delete status `d`
after one error message, without a flush, for any other non-success `d`; and
when the delete succeeds it calls `fx_media_flush` once and returns the flush
status.  On every path, the medium ready or not, the call holds no
`fx_file_open`, no `fx_file_close` and no `fx_directory_information_get`. -/
theorem file_delete_paths {σ : Type} (cfg : Config) (W : World σ) (r : Run σ) :
    ((W.media_verify r.world).1 = FX_SUCCESS →
      ((W.fx_file_delete cfg.FILE_NAME_ONE (W.media_verify r.world).2).1 = FX_NOT_FOUND →
        outcome (file_delete cfg W) r
          = some (FX_SUCCESS,
              [Event.media_verify FX_SUCCESS,
                Event.fx_file_delete cfg.FILE_NAME_ONE FX_NOT_FOUND,
                Event.PRINT_INFO_STR "File does not exist\r\n"]))
      ∧ (∀ d, (W.fx_file_delete cfg.FILE_NAME_ONE (W.media_verify r.world).2).1 = d →
          d ≠ FX_SUCCESS → d ≠ FX_NOT_FOUND →
        outcome (file_delete cfg W) r
          = some (d,
              [Event.media_verify FX_SUCCESS,
                Event.fx_file_delete cfg.FILE_NAME_ONE d,
                Event.PRINT_ERR_STR "fx_file_delete failed\r\n"]))
      ∧ ((W.fx_file_delete cfg.FILE_NAME_ONE (W.media_verify r.world).2).1 = FX_SUCCESS →
          ∀ f, (W.fx_media_flush
              (W.fx_file_delete cfg.FILE_NAME_ONE (W.media_verify r.world).2).2).1 = f →
        outcome (file_delete cfg W) r
          = some (f,
              [Event.media_verify FX_SUCCESS,
                Event.fx_file_delete cfg.FILE_NAME_ONE FX_SUCCESS,
                Event.fx_media_flush f,
                if f = FX_SUCCESS then Event.PRINT_INFO_STR "File has been deleted\r\n"
                else Event.PRINT_ERR_STR "fx_media_flush failed\r\n"])))
      ∧ ∃ st evs, outcome (file_delete cfg W) r = some (st, evs) ∧
        ∀ e ∈ evs, (∀ name mode o, e ≠ Event.fx_file_open name mode o) ∧
          (∀ c, e ≠ Event.fx_file_close c) ∧
          ∀ name d, e ≠ Event.fx_directory_information_get name d := by
  refine ⟨fun hv => ⟨?_, ?_, ?_⟩, ?_⟩
  · intro hd
    simp [outcome, exec, file_delete, Op.bind, call, Op.when, Op.ret, Op.pure, emit,
      PRINT_INFO_STR, hv, hd, FX_SUCCESS, FX_NOT_FOUND]
  · intro d hd h1 h2
    have h3 : ¬FX_NOT_FOUND = d := fun e => h2 e.symm
    have h4 : ¬FX_SUCCESS = d := fun e => h1 e.symm
    simp [outcome, exec, file_delete, Op.bind, call, Op.when, Op.ret, Op.pure, emit,
      RETURN_ERR_STR, hv, hd, h3, h4]
  · intro hd f hf
    by_cases h : f = FX_SUCCESS
    · subst h
      simp [outcome, exec, file_delete, Op.bind, call, Op.when, Op.ret, Op.pure, emit,
        RETURN_ERR_STR, PRINT_INFO_STR, hv, hd, hf, FX_SUCCESS, FX_NOT_FOUND]
    · have h4 : ¬FX_SUCCESS = f := fun e => h e.symm
      have h5 : ¬FX_NOT_FOUND = FX_SUCCESS := by decide
      simp [outcome, exec, file_delete, Op.bind, call, Op.when, Op.ret, Op.pure, emit,
        RETURN_ERR_STR, PRINT_INFO_STR, hv, hd, hf, h, h4, h5]
  · obtain ⟨st, evs, hout, hrun⟩ := file_delete_run cfg W r
    refine ⟨st, evs, hout, ?_⟩
    cases hrun <;> simp

/-- Claim C12, on the test doubles whose delete reports `FX_NOT_FOUND`, whose
delete fails with status 8, and in which every call succeeds. -/
theorem file_delete_paths_witness :
    (Script.delete_fails.world.media_verify (Run.start Config.small).world).1 = FX_SUCCESS
      ∧ outcome (file_delete Config.small Script.delete_not_found.world) (Run.start Config.small)
          = some (FX_SUCCESS,
              [Event.media_verify FX_SUCCESS,
                Event.fx_file_delete "file.txt" FX_NOT_FOUND,
                Event.PRINT_INFO_STR "File does not exist\r\n"])
      ∧ outcome (file_delete Config.small Script.delete_fails.world) (Run.start Config.small)
          = some (8,
              [Event.media_verify FX_SUCCESS,
                Event.fx_file_delete "file.txt" 8,
                Event.PRINT_ERR_STR "fx_file_delete failed\r\n"])
      ∧ outcome (file_delete Config.small Script.ok.world) (Run.start Config.small)
          = some (FX_SUCCESS,
              [Event.media_verify FX_SUCCESS,
                Event.fx_file_delete "file.txt" FX_SUCCESS,
                Event.fx_media_flush FX_SUCCESS,
                Event.PRINT_INFO_STR "File has been deleted\r\n"]) :=
  ⟨by decide,
    ((file_delete_paths Config.small Script.delete_not_found.world (Run.start Config.small)).1
      (by decide)).1 (by decide),
    ((file_delete_paths Config.small Script.delete_fails.world (Run.start Config.small)).1
      (by decide)).2.1 8 (by decide) (by decide) (by decide),
    ((file_delete_paths Config.small Script.ok.world (Run.start Config.small)).1
      (by decide)).2.2 (by decide) FX_SUCCESS (by decide)⟩

/-- Claim C13: with the medium ready, when `fx_file_create` returns a status
`c` other than `FX_SUCCESS` and `FX_ALREADY_CREATED`, `file_create` returns
`c`, and the call holds the verify, the create and one error message only: no
flush and no directory query.  On every path, the medium ready or not, the
call holds no `fx_file_open` and no `fx_file_close`. -/
theorem file_create_failure {σ : Type} (cfg : Config) (W : World σ) (r : Run σ) :
    ((W.media_verify r.world).1 = FX_SUCCESS →
      ∀ c, (W.fx_file_create cfg.FILE_NAME_ONE (W.media_verify r.world).2).1 = c →
        c ≠ FX_SUCCESS → c ≠ FX_ALREADY_CREATED →
        outcome (file_create cfg W) r
          = some (c,
              [Event.media_verify FX_SUCCESS,
                Event.fx_file_create cfg.FILE_NAME_ONE c,
                Event.PRINT_ERR_STR "fx_file_create failed\r\n"]))
      ∧ ∃ st evs, outcome (file_create cfg W) r = some (st, evs) ∧
        ∀ e ∈ evs, (∀ name mode o, e ≠ Event.fx_file_open name mode o) ∧
          ∀ c, e ≠ Event.fx_file_close c := by
  refine ⟨?_, ?_⟩
  · intro hv c hc h1 h2
    have h3 : ¬FX_ALREADY_CREATED = c := fun e => h2 e.symm
    have h4 : ¬FX_SUCCESS = c := fun e => h1 e.symm
    simp [outcome, exec, file_create, Op.bind, call, Op.when, Op.ret, Op.pure, emit,
      RETURN_ERR_STR, hv, hc, h3, h4]
  · obtain ⟨st, evs, hout, hrun⟩ := file_create_run cfg W r
    refine ⟨st, evs, hout, ?_⟩
    cases hrun <;> simp

/-- Claim C13, on the test double whose create fails with status 8. -/
theorem file_create_failure_witness :
    (Script.create_fails.world.media_verify (Run.start Config.small).world).1 = FX_SUCCESS
      ∧ outcome (file_create Config.small Script.create_fails.world) (Run.start Config.small)
          = some (8,
              [Event.media_verify FX_SUCCESS,
                Event.fx_file_create "file.txt" 8,
                Event.PRINT_ERR_STR "fx_file_create failed\r\n"]) :=
  ⟨by decide,
    (file_create_failure Config.small Script.create_fails.world (Run.start Config.small)).1
      (by decide) 8 (by decide) (by decide) (by decide)⟩

/-! ## A failed directory query (C14) -/

/-- What a run does about a directory query that returned `d`, not
`FX_SUCCESS`. -/
theorem create_run_query (cfg : Config) (st : UINT) (evs : List Event)
    (hrun : CreateRun cfg st evs) (d : UINT)
    (he : Event.fx_directory_information_get cfg.FILE_NAME_ONE d ∈ evs) (hd : d ≠ FX_SUCCESS) :
    st = d ∧
      [Event.fx_directory_information_get cfg.FILE_NAME_ONE d,
        Event.PRINT_ERR_STR "fx_directory_information_get failed\r\n"] <:+ evs ∧
      ∀ x ∈ evs, (∀ entry, x ≠ Event.PRINT_ENTRY_INFO entry) ∧
        ∀ n data, x ≠ Event.send_data_to_rtt n data := by
  cases hrun
  case query_failed =>
    simp at he
    subst he
    refine ⟨rfl, ?_, by simp⟩
    repeat' first
      | exact List.suffix_refl _
      | apply suffix_cons_of
  case created =>
    simp at he
    exact absurd he hd
  all_goals simp at he

theorem read_run_query (cfg : Config) (st : UINT) (evs : List Event)
    (hrun : ReadRun cfg st evs) (d : UINT)
    (he : Event.fx_directory_information_get cfg.FILE_NAME_ONE d ∈ evs) (hd : d ≠ FX_SUCCESS) :
    st = d ∧
      [Event.fx_directory_information_get cfg.FILE_NAME_ONE d,
        Event.PRINT_ERR_STR "fx_directory_information_get failed\r\n"] <:+ evs ∧
      ∀ x ∈ evs, (∀ entry, x ≠ Event.PRINT_ENTRY_INFO entry) ∧
        ∀ n data, x ≠ Event.send_data_to_rtt n data := by
  cases hrun
  case query_failed =>
    simp at he
    subst he
    refine ⟨rfl, ?_, by simp⟩
    repeat' first
      | exact List.suffix_refl _
      | apply suffix_cons_of
  case whole =>
    simp at he
    exact absurd he hd
  case preview =>
    simp at he
    exact absurd he hd
  all_goals simp at he

theorem query_not_mem_chunks (cfg : Config) (buf : List Nat) (i k : Nat) (name : String)
    (d : UINT) : Event.fx_directory_information_get name d ∉ chunks cfg buf i k := by
  intro h
  rcases mem_chunks cfg buf i k _ h with h | h | h <;> cases h

theorem write_run_query (cfg : Config) (st : UINT) (evs : List Event)
    (hrun : WriteRun cfg st evs) (d : UINT)
    (he : Event.fx_directory_information_get cfg.FILE_NAME_ONE d ∈ evs) (hd : d ≠ FX_SUCCESS) :
    st = d ∧
      [Event.fx_directory_information_get cfg.FILE_NAME_ONE d,
        Event.PRINT_ERR_STR "fx_directory_information_get failed\r\n"] <:+ evs ∧
      ∀ x ∈ evs, (∀ entry, x ≠ Event.PRINT_ENTRY_INFO entry) ∧
        ∀ n data, x ≠ Event.send_data_to_rtt n data := by
  cases hrun
  case query_failed =>
    simp [query_not_mem_chunks] at he
    subst he
    refine ⟨rfl, ?_, ?_⟩
    · repeat' first
        | exact List.suffix_refl _
        | apply suffix_cons_of
        | apply suffix_append_of
    · intro x hx
      simp only [List.mem_cons, List.mem_append, List.mem_singleton, List.not_mem_nil,
        or_false] at hx
      casesm* _ ∨ _
      all_goals first
        | (rcases mem_chunks _ _ _ _ _ ‹_ ∈ chunks _ _ _ _› with h | h | h <;> subst h <;> simp)
        | (subst_vars; simp)
  case written =>
    simp [query_not_mem_chunks] at he
    exact absurd he hd
  all_goals simp [query_not_mem_chunks] at he

/-- Claim C14: in `file_create`, `file_write` (loop counters in range) and
`file_read`, whenever `fx_directory_information_get` was called and returned
a status `d` other than `FX_SUCCESS` (`FX_NOT_FOUND` is one such `d`), the
operation returns `d`, so never `FX_SUCCESS`; the call ends with the query
and the error message "fx_directory_information_get failed", and it holds no
entry report and no content emission. -/
theorem query_failure_propagates {σ : Type} (cfg : Config) (W : World σ) (r : Run σ)
    (h16 : cfg.WRITE_BUFFER_SIZE / cfg.WRITE_LINE_SIZE < 2 ^ 16)
    (h32 : cfg.WRITE_TIMES < 2 ^ 32) :
    (∃ st evs, outcome (file_create cfg W) r = some (st, evs) ∧
      ∀ d, Event.fx_directory_information_get cfg.FILE_NAME_ONE d ∈ evs → d ≠ FX_SUCCESS →
        st = d ∧ st ≠ FX_SUCCESS ∧
        [Event.fx_directory_information_get cfg.FILE_NAME_ONE d,
          Event.PRINT_ERR_STR "fx_directory_information_get failed\r\n"] <:+ evs ∧
        ∀ x ∈ evs, (∀ entry, x ≠ Event.PRINT_ENTRY_INFO entry) ∧
          ∀ n data, x ≠ Event.send_data_to_rtt n data)
      ∧ (∃ st evs, outcome (file_write cfg W) r = some (st, evs) ∧
        ∀ d, Event.fx_directory_information_get cfg.FILE_NAME_ONE d ∈ evs → d ≠ FX_SUCCESS →
          st = d ∧ st ≠ FX_SUCCESS ∧
          [Event.fx_directory_information_get cfg.FILE_NAME_ONE d,
            Event.PRINT_ERR_STR "fx_directory_information_get failed\r\n"] <:+ evs ∧
          ∀ x ∈ evs, (∀ entry, x ≠ Event.PRINT_ENTRY_INFO entry) ∧
            ∀ n data, x ≠ Event.send_data_to_rtt n data)
      ∧ ∃ st evs, outcome (file_read cfg W) r = some (st, evs) ∧
        ∀ d, Event.fx_directory_information_get cfg.FILE_NAME_ONE d ∈ evs → d ≠ FX_SUCCESS →
          st = d ∧ st ≠ FX_SUCCESS ∧
          [Event.fx_directory_information_get cfg.FILE_NAME_ONE d,
            Event.PRINT_ERR_STR "fx_directory_information_get failed\r\n"] <:+ evs ∧
          ∀ x ∈ evs, (∀ entry, x ≠ Event.PRINT_ENTRY_INFO entry) ∧
            ∀ n data, x ≠ Event.send_data_to_rtt n data := by
  refine ⟨?_, ?_, ?_⟩
  · obtain ⟨st, evs, hout, hrun⟩ := file_create_run cfg W r
    refine ⟨st, evs, hout, fun d he hd => ?_⟩
    obtain ⟨h1, h2, h3⟩ := create_run_query cfg st evs hrun d he hd
    exact ⟨h1, h1 ▸ hd, h2, h3⟩
  · obtain ⟨st, evs, hout, hrun⟩ := file_write_run cfg W r h16 h32
    refine ⟨st, evs, hout, fun d he hd => ?_⟩
    obtain ⟨h1, h2, h3⟩ := write_run_query cfg st evs hrun d he hd
    exact ⟨h1, h1 ▸ hd, h2, h3⟩
  · obtain ⟨st, evs, hout, hrun⟩ := file_read_run cfg W r
    refine ⟨st, evs, hout, fun d he hd => ?_⟩
    obtain ⟨h1, h2, h3⟩ := read_run_query cfg st evs hrun d he hd
    exact ⟨h1, h1 ▸ hd, h2, h3⟩

/-- Claim C14, on the test double whose directory query reports
`FX_NOT_FOUND`: each of the three operations returns `FX_NOT_FOUND`. -/
theorem query_failure_propagates_witness :
    Config.small.WRITE_BUFFER_SIZE / Config.small.WRITE_LINE_SIZE < 2 ^ 16
      ∧ Config.small.WRITE_TIMES < 2 ^ 32
      ∧ (∃ evs, outcome (file_create Config.small Script.query_not_found.world)
            (Run.start Config.small) = some (FX_NOT_FOUND, evs) ∧
          Event.fx_directory_information_get "file.txt" FX_NOT_FOUND ∈ evs)
      ∧ (∃ evs, outcome (file_write Config.small Script.query_not_found.world)
            (Run.start Config.small) = some (FX_NOT_FOUND, evs) ∧
          Event.fx_directory_information_get "file.txt" FX_NOT_FOUND ∈ evs)
      ∧ ∃ evs, outcome (file_read Config.small Script.query_not_found.world)
            (Run.start Config.small) = some (FX_NOT_FOUND, evs) ∧
          Event.fx_directory_information_get "file.txt" FX_NOT_FOUND ∈ evs := by
  obtain ⟨⟨s1, e1, ho1, h1⟩, ⟨s2, e2, ho2, h2⟩, ⟨s3, e3, ho3, h3⟩⟩ :=
    query_failure_propagates Config.small Script.query_not_found.world (Run.start Config.small)
      (by decide) (by decide)
  have hev1 : (outcome (file_create Config.small Script.query_not_found.world)
      (Run.start Config.small)).map
      (fun p => decide (Event.fx_directory_information_get "file.txt" FX_NOT_FOUND ∈ p.2))
      = some true := by decide
  have hev2 : (outcome (file_write Config.small Script.query_not_found.world)
      (Run.start Config.small)).map
      (fun p => decide (Event.fx_directory_information_get "file.txt" FX_NOT_FOUND ∈ p.2))
      = some true := by decide
  have hev3 : (outcome (file_read Config.small Script.query_not_found.world)
      (Run.start Config.small)).map
      (fun p => decide (Event.fx_directory_information_get "file.txt" FX_NOT_FOUND ∈ p.2))
      = some true := by decide
  rw [ho1] at hev1
  rw [ho2] at hev2
  rw [ho3] at hev3
  simp only [Option.map_some', Option.some.injEq, decide_eq_true_eq] at hev1 hev2 hev3
  have q1 := (h1 FX_NOT_FOUND hev1 (by decide)).1
  have q2 := (h2 FX_NOT_FOUND hev2 (by decide)).1
  have q3 := (h3 FX_NOT_FOUND hev3 (by decide)).1
  subst q1 q2 q3
  exact ⟨by decide, by decide, ⟨e1, ho1, hev1⟩, ⟨e2, ho2, hev2⟩, ⟨e3, ho3, hev3⟩⟩

/-! ## The length handed to the output sink (C19) -/

/-- Claim C19: `file_read` always returns, and whenever the call holds an
emission `send_data_to_rtt n data` (with `READ_BUFFER_SIZE + 1` in the range
of `uint32_t`), the operation returned `FX_SUCCESS`, the open had succeeded,
`data` is what an `fx_file_read` of the run left in the local buffer of
`READ_BUFFER_SIZE + 1` bytes with reported count `len`, and `n` is `len + 1`
when `len < READ_BUFFER_SIZE` and `READ_BUFFER_SIZE + 1` otherwise, so never
more than `READ_BUFFER_SIZE + 1`; this for every `len`, also one at or above
`READ_BUFFER_SIZE`. -/
theorem emitted_length_bounded {σ : Type} (cfg : Config) (W : World σ) (r : Run σ)
    (hR : cfg.READ_BUFFER_SIZE + ONE_BYTE < 2 ^ 32) :
    ∃ st evs, outcome (file_read cfg W) r = some (st, evs) ∧
      ∀ n data, Event.send_data_to_rtt n data ∈ evs →
        st = FX_SUCCESS ∧
        Event.fx_file_open cfg.FILE_NAME_ONE FX_OPEN_FOR_READ FX_SUCCESS ∈ evs ∧
        (read_buffer cfg).length = cfg.READ_BUFFER_SIZE + 1 ∧
        n ≤ cfg.READ_BUFFER_SIZE + 1 ∧
        ∃ rs len, Event.fx_file_read (read_buffer cfg) cfg.READ_BUFFER_SIZE rs data len ∈ evs ∧
          n = if len < cfg.READ_BUFFER_SIZE then len + 1 else cfg.READ_BUFFER_SIZE + 1 := by
  obtain ⟨st, evs, hout, hrun⟩ := file_read_run cfg W r
  refine ⟨st, evs, hout, ?_⟩
  intro n data he
  have hlen : (read_buffer cfg).length = cfg.READ_BUFFER_SIZE + 1 := by
    simp [read_buffer, ONE_BYTE]
  simp only [ONE_BYTE] at hR
  cases hrun
  case whole rs data1 len entry hrs hl =>
    simp [ONE_BYTE] at he
    obtain ⟨rfl, rfl⟩ := he
    have h1 : (len + 1) % 4294967296 = len + 1 := Nat.mod_eq_of_lt (by omega)
    refine ⟨rfl, by simp, hlen, by omega, rs, len, by simp, ?_⟩
    rw [h1, if_pos hl]
  case preview rs data1 len entry hrs hl =>
    simp [ONE_BYTE] at he
    obtain ⟨rfl, rfl⟩ := he
    have h1 : (cfg.READ_BUFFER_SIZE + 1) % 4294967296 = cfg.READ_BUFFER_SIZE + 1 :=
      Nat.mod_eq_of_lt (by omega)
    refine ⟨rfl, by simp, hlen, by omega, rs, len, by simp, ?_⟩
    rw [h1, if_neg hl]
  all_goals simp at he

/-- Claim C19, on the test double whose read reports nine bytes for a request
of four: five bytes, `READ_BUFFER_SIZE + 1`, are handed to the sink. -/
theorem emitted_length_bounded_witness :
    Config.small.READ_BUFFER_SIZE + ONE_BYTE < 2 ^ 32
      ∧ ∃ st evs, outcome (file_read Config.small Script.read_over.world) (Run.start Config.small)
          = some (st, evs) ∧
        Event.send_data_to_rtt 5 [1, 2, 3, 4, 0] ∈ evs ∧
        Event.fx_file_read (read_buffer Config.small) 4 FX_SUCCESS [1, 2, 3, 4, 0] 9 ∈ evs ∧
        st = FX_SUCCESS ∧ (5 : Nat) ≤ Config.small.READ_BUFFER_SIZE + 1 := by
  obtain ⟨st, evs, hout, h⟩ :=
    emitted_length_bounded Config.small Script.read_over.world (Run.start Config.small)
      (by decide)
  have hev : (outcome (file_read Config.small Script.read_over.world)
      (Run.start Config.small)).map
      (fun p => decide (Event.send_data_to_rtt 5 [1, 2, 3, 4, 0] ∈ p.2 ∧
        Event.fx_file_read (read_buffer Config.small) 4 FX_SUCCESS [1, 2, 3, 4, 0] 9 ∈ p.2))
      = some true := by decide
  rw [hout] at hev
  simp only [Option.map_some', Option.some.injEq, decide_eq_true_eq] at hev
  obtain ⟨h1, _, _, h4, _⟩ := h 5 [1, 2, 3, 4, 0] hev.1
  exact ⟨by decide, st, evs, hout, hev.1, hev.2, h1, h4⟩

/-! ## Progress markers (C16) -/

theorem marker_count_nil : marker_count [] = 0 := rfl

theorem marker_count_cons (e : Event) (evs : List Event) :
    marker_count (e :: evs) = marker_count evs + if e.is_marker = true then 1 else 0 := by
  unfold marker_count
  rw [List.countP_cons]

theorem marker_count_append (xs ys : List Event) :
    marker_count (xs ++ ys) = marker_count xs + marker_count ys := by
  unfold marker_count
  exact List.countP_append _ xs ys

/-- Rounding up: one more multiple of `p` lies below `i + 1` than below `i`
exactly when `i` is a multiple of `p`. -/
theorem ceil_div_succ (p i : Nat) (hp : 1 ≤ p) :
    (i + 1 + p - 1) / p = (i + p - 1) / p + if RESET_VALUE = i % p then 1 else 0 := by
  have hpos : 0 < p := hp
  have hdm := Nat.div_add_mod i p
  have hlt := Nat.mod_lt i hpos
  generalize i / p = q at hdm
  generalize i % p = m at hdm hlt
  subst hdm
  unfold RESET_VALUE
  by_cases hm : 0 = m
  · subst hm
    rw [if_pos rfl]
    have e1 : p * q + 0 + 1 + p - 1 = p + p * q := by omega
    have e2 : p * q + 0 + p - 1 = (p - 1) + p * q := by omega
    rw [e1, e2, Nat.add_mul_div_left _ _ hpos, Nat.add_mul_div_left _ _ hpos,
      Nat.div_self hpos, Nat.div_eq_of_lt (by omega)]
    omega
  · rw [if_neg hm]
    have e1 : p * q + m + 1 + p - 1 = (m + p) + p * q := by omega
    have e2 : p * q + m + p - 1 = (m - 1 + p) + p * q := by omega
    rw [e1, e2, Nat.add_mul_div_left _ _ hpos, Nat.add_mul_div_left _ _ hpos,
      Nat.add_div_right _ hpos, Nat.add_div_right _ hpos, Nat.div_eq_of_lt hlt,
      Nat.div_eq_of_lt (by omega)]
    omega

theorem ceil_div_mono (p i k : Nat) : (i + p - 1) / p ≤ (i + k + p - 1) / p :=
  Nat.div_le_div_right (by omega)

/-- The markers of `k` successful passes from counter value `i` on: one per
multiple of the interval among `i, …, i + k - 1`. -/
theorem marker_count_chunks (cfg : Config) (buf : List Nat) (hp : 1 ≤ cfg.WRITE_ONE_PERCENT)
    (i k : Nat) :
    marker_count (chunks cfg buf i k)
      = (i + k + cfg.WRITE_ONE_PERCENT - 1) / cfg.WRITE_ONE_PERCENT
        - (i + cfg.WRITE_ONE_PERCENT - 1) / cfg.WRITE_ONE_PERCENT := by
  induction k generalizing i with
  | zero => simp [chunks, marker_count_nil]
  | succ k ih =>
    rw [chunks_succ, marker_count_append, ih]
    have h1 := ceil_div_succ cfg.WRITE_ONE_PERCENT i hp
    have h2 := ceil_div_mono cfg.WRITE_ONE_PERCENT (i + 1) k
    have e : i + 1 + k = i + (k + 1) := by omega
    rw [e] at h2 ⊢
    have hc : marker_count (chunk cfg buf i)
        = if RESET_VALUE = i % cfg.WRITE_ONE_PERCENT then 1 else 0 := by
      unfold chunk
      split <;> simp [marker_count_cons, marker_count_nil, Event.is_marker]
    rw [hc]
    omega

/-- Rounding up, written with the remainder. -/
theorem ceil_div_eq (p n : Nat) (hp : 1 ≤ p) :
    (n + p - 1) / p = n / p + if n % p = 0 then 0 else 1 := by
  have hpos : 0 < p := hp
  have hdm := Nat.div_add_mod n p
  have hlt := Nat.mod_lt n hpos
  generalize n / p = q at hdm
  generalize n % p = m at hdm hlt
  subst hdm
  by_cases hm : m = 0
  · subst hm
    rw [if_pos rfl]
    have e2 : p * q + 0 + p - 1 = (p - 1) + p * q := by omega
    rw [e2, Nat.add_mul_div_left _ _ hpos, Nat.div_eq_of_lt (by omega)]
    omega
  · rw [if_neg hm]
    have e2 : p * q + m + p - 1 = (m - 1 + p) + p * q := by omega
    rw [e2, Nat.add_mul_div_left _ _ hpos, Nat.add_div_right _ hpos,
      Nat.div_eq_of_lt (by omega)]
    omega

theorem replicate_append_singleton_ne (k n : Nat) (a t : UINT) (h : a ≠ t) :
    List.replicate k a ++ [t] ≠ List.replicate n a := by
  intro e
  have hm : t ∈ List.replicate n a := by
    rw [← e]
    simp
  exact h (List.eq_of_mem_replicate hm).symm

theorem replicate_ne_of_lt (k n : Nat) (a : UINT) (h : k < n) :
    List.replicate k a ≠ List.replicate n a := by
  intro e
  have := congrArg List.length e
  simp at this
  omega

/-- The markers of a `file_write` run in which `WRITE_TIMES` waits were
issued and all succeeded. -/
theorem write_run_markers (cfg : Config) (st : UINT) (evs : List Event)
    (hrun : WriteRun cfg st evs) (hp : 1 ≤ cfg.WRITE_ONE_PERCENT)
    (hw : wait_results evs = List.replicate cfg.WRITE_TIMES TX_SUCCESS) :
    marker_count evs
      = (cfg.WRITE_TIMES + cfg.WRITE_ONE_PERCENT - 1) / cfg.WRITE_ONE_PERCENT := by
  have h0 : (cfg.WRITE_ONE_PERCENT - 1) / cfg.WRITE_ONE_PERCENT = 0 :=
    Nat.div_eq_of_lt (by omega)
  cases hrun
  case write_failed_close_failed k s hk hs hc =>
    simp [wait_results, wait_results_append, wait_results_chunks] at hw
    omega
  case write_failed k hk hs =>
    simp [wait_results, wait_results_append, wait_results_chunks] at hw
    omega
  case wait_failed_close_failed k t hk ht hc =>
    simp only [wait_results, wait_results_append, wait_results_chunks] at hw
    exact absurd hw (replicate_append_singleton_ne k _ TX_SUCCESS t ht)
  case wait_failed k hk ht =>
    simp only [wait_results, wait_results_append, wait_results_chunks] at hw
    exact absurd hw (replicate_append_singleton_ne k _ TX_SUCCESS st ht)
  all_goals first
    | (simp [wait_results] at hw
       have hN : cfg.WRITE_TIMES = 0 := by omega
       simp [marker_count_cons, marker_count_nil, Event.is_marker, hN, h0])
    | (simp [marker_count_cons, marker_count_append, marker_count_nil, Event.is_marker,
         marker_count_chunks cfg _ hp, h0])

/-- Claim C16 as stated fails: with one chunk and a progress interval of two,
the write and the wait succeeding, the transfer loop prints one marker (at
counter value 0), while 1 divided by 2 is 0. -/
theorem progress_marker_count_counterexample :
    (outcome (file_write Config.odd Script.ok.world) (Run.start Config.odd)).map
        (fun p => (p.1, write_results p.2, wait_results p.2, marker_count p.2))
      = some (FX_SUCCESS, [FX_SUCCESS], [TX_SUCCESS], 1)
      ∧ Config.odd.WRITE_TIMES / Config.odd.WRITE_ONE_PERCENT = 0
      ∧ 1 ≤ Config.odd.WRITE_TIMES ∧ 1 ≤ Config.odd.WRITE_ONE_PERCENT := by
  decide

/-- Claim C16, amended: in a run of `file_write` (loop counters in range,
progress interval `WRITE_ONE_PERCENT` at least 1) in which `WRITE_TIMES`
completion waits were issued and all succeeded, so that every write succeeded
too, the number of "." markers is `WRITE_TIMES` divided by the interval,
rounded up: one marker per multiple of the interval below `WRITE_TIMES`.
That is `WRITE_TIMES / WRITE_ONE_PERCENT` when the interval divides
`WRITE_TIMES`, and one more otherwise. -/
theorem progress_marker_count {σ : Type} (cfg : Config) (W : World σ) (r : Run σ)
    (h16 : cfg.WRITE_BUFFER_SIZE / cfg.WRITE_LINE_SIZE < 2 ^ 16)
    (h32 : cfg.WRITE_TIMES < 2 ^ 32) (hp : 1 ≤ cfg.WRITE_ONE_PERCENT) :
    ∃ st evs, outcome (file_write cfg W) r = some (st, evs) ∧
      (wait_results evs = List.replicate cfg.WRITE_TIMES TX_SUCCESS →
        marker_count evs
            = (cfg.WRITE_TIMES + cfg.WRITE_ONE_PERCENT - 1) / cfg.WRITE_ONE_PERCENT
          ∧ marker_count evs
            = cfg.WRITE_TIMES / cfg.WRITE_ONE_PERCENT
              + if cfg.WRITE_TIMES % cfg.WRITE_ONE_PERCENT = 0 then 0 else 1) := by
  obtain ⟨st, evs, hout, hrun⟩ := file_write_run cfg W r h16 h32
  refine ⟨st, evs, hout, fun hw => ?_⟩
  have h := write_run_markers cfg st evs hrun hp hw
  exact ⟨h, h.trans (ceil_div_eq _ _ hp)⟩

/-- Claim C16 amended, on one chunk with a progress interval of two: one
marker, that is 1 / 2 + 1. -/
theorem progress_marker_count_witness :
    Config.odd.WRITE_BUFFER_SIZE / Config.odd.WRITE_LINE_SIZE < 2 ^ 16
      ∧ Config.odd.WRITE_TIMES < 2 ^ 32 ∧ 1 ≤ Config.odd.WRITE_ONE_PERCENT
      ∧ ∃ st evs, outcome (file_write Config.odd Script.ok.world) (Run.start Config.odd)
          = some (st, evs) ∧
        wait_results evs = List.replicate Config.odd.WRITE_TIMES TX_SUCCESS ∧
        marker_count evs = 1 / 2 + 1 := by
  obtain ⟨st, evs, hout, h⟩ :=
    progress_marker_count Config.odd Script.ok.world (Run.start Config.odd)
      (by decide) (by decide) (by decide)
  have hev : (outcome (file_write Config.odd Script.ok.world) (Run.start Config.odd)).map
      (fun p => decide (wait_results p.2 = List.replicate Config.odd.WRITE_TIMES TX_SUCCESS))
      = some true := by decide
  rw [hout] at hev
  simp only [Option.map_some', Option.some.injEq, decide_eq_true_eq] at hev
  exact ⟨by decide, by decide, by decide, st, evs, hout, hev, (h hev).2⟩

/-! ## The order of the calls of a successful write (C17) -/

/-- Claim C17 as stated fails: in the run of `file_write` in which every call
succeeds, `fx_file_close` is the call right after `fx_file_date_time_set`,
and `fx_media_flush` and `fx_directory_information_get` come after it: the
three calls are the events number 13, 14 and 15 of the run. -/
theorem flush_before_close_counterexample :
    outcome (file_write Config.small Script.ok.world) (Run.start Config.small)
      = some (FX_SUCCESS,
          [Event.media_verify FX_SUCCESS,
            Event.fx_file_open "file.txt" FX_OPEN_FOR_WRITE FX_SUCCESS,
            Event.fx_file_extended_truncate TRUNCATE_VALUE FX_SUCCESS,
            Event.fx_file_write [65, 66, 65, 66] 4 FX_SUCCESS,
            Event.tx_event_flags_get TX_SUCCESS,
            Event.PRINT_INFO_STR ".",
            Event.fx_file_write [65, 66, 65, 66] 4 FX_SUCCESS,
            Event.tx_event_flags_get TX_SUCCESS,
            Event.PRINT_INFO_STR ".",
            Event.PRINT_INFO_STR "\r\n\r\n",
            Event.fx_system_time_get FX_SUCCESS,
            Event.fx_system_date_get FX_SUCCESS,
            Event.fx_file_date_time_set "file.txt" time_new_t.reset FX_SUCCESS,
            Event.fx_file_close FX_SUCCESS,
            Event.fx_media_flush FX_SUCCESS,
            Event.fx_directory_information_get "file.txt" FX_SUCCESS,
            Event.PRINT_ENTRY_INFO
              { name := "file.txt", attr := 0, size := 0, time := time_new_t.reset },
            Event.PRINT_INFO_STR "\r\nWrite to a file successful\r\n"])
      ∧ (outcome (file_write Config.small Script.ok.world) (Run.start Config.small)).map
          (fun p => (p.2.indexOf (Event.fx_file_close FX_SUCCESS),
            p.2.indexOf (Event.fx_media_flush FX_SUCCESS),
            p.2.indexOf (Event.fx_directory_information_get "file.txt" FX_SUCCESS)))
        = some (13, 14, 15) := by
  decide

/-- Claim C17, amended: a run of `file_write` (loop counters in range) that
opened the file and returned `FX_SUCCESS` made its calls in the order verify,
open for write, truncate, `WRITE_TIMES` times write of the fixed buffer and
wait, clock time, clock date, date-time-set, close, flush, directory query:
the handle is released by `fx_file_close` before the volume flush and before
the directory query. -/
theorem write_success_order {σ : Type} (cfg : Config) (W : World σ) (r : Run σ)
    (h16 : cfg.WRITE_BUFFER_SIZE / cfg.WRITE_LINE_SIZE < 2 ^ 16)
    (h32 : cfg.WRITE_TIMES < 2 ^ 32) :
    ∃ st evs, outcome (file_write cfg W) r = some (st, evs) ∧
      (st = FX_SUCCESS →
        Event.fx_file_open cfg.FILE_NAME_ONE FX_OPEN_FOR_WRITE FX_SUCCESS ∈ evs →
        ∃ time entry, evs =
          Event.media_verify FX_SUCCESS
            :: Event.fx_file_open cfg.FILE_NAME_ONE FX_OPEN_FOR_WRITE FX_SUCCESS
            :: Event.fx_file_extended_truncate TRUNCATE_VALUE FX_SUCCESS
            :: (chunks cfg (fixed_buffer cfg) 0 cfg.WRITE_TIMES ++
              [Event.PRINT_INFO_STR "\r\n\r\n",
                Event.fx_system_time_get FX_SUCCESS,
                Event.fx_system_date_get FX_SUCCESS,
                Event.fx_file_date_time_set cfg.FILE_NAME_ONE time FX_SUCCESS,
                Event.fx_file_close FX_SUCCESS,
                Event.fx_media_flush FX_SUCCESS,
                Event.fx_directory_information_get cfg.FILE_NAME_ONE FX_SUCCESS,
                Event.PRINT_ENTRY_INFO entry,
                Event.PRINT_INFO_STR "\r\nWrite to a file successful\r\n"])) := by
  obtain ⟨st, evs, hout, hrun⟩ := file_write_run cfg W r h16 h32
  refine ⟨st, evs, hout, ?_⟩
  cases hrun
  case not_ready => intro _ ho; simp at ho
  case not_found => intro _ ho; simp [FX_SUCCESS, FX_NOT_FOUND] at ho
  case written time entry => intro _ _; exact ⟨time, entry, rfl⟩
  all_goals
    intro hst _
    exact absurd hst.symm (by assumption)

/-- Claim C17 amended, on the test double in which every call succeeds. -/
theorem write_success_order_witness :
    Config.small.WRITE_BUFFER_SIZE / Config.small.WRITE_LINE_SIZE < 2 ^ 16
      ∧ Config.small.WRITE_TIMES < 2 ^ 32
      ∧ ∃ st evs, outcome (file_write Config.small Script.ok.world) (Run.start Config.small)
          = some (st, evs) ∧
        st = FX_SUCCESS ∧
        Event.fx_file_open Config.small.FILE_NAME_ONE FX_OPEN_FOR_WRITE FX_SUCCESS ∈ evs ∧
        ∃ time entry, evs =
          Event.media_verify FX_SUCCESS
            :: Event.fx_file_open Config.small.FILE_NAME_ONE FX_OPEN_FOR_WRITE FX_SUCCESS
            :: Event.fx_file_extended_truncate TRUNCATE_VALUE FX_SUCCESS
            :: (chunks Config.small (fixed_buffer Config.small) 0 Config.small.WRITE_TIMES ++
              [Event.PRINT_INFO_STR "\r\n\r\n",
                Event.fx_system_time_get FX_SUCCESS,
                Event.fx_system_date_get FX_SUCCESS,
                Event.fx_file_date_time_set Config.small.FILE_NAME_ONE time FX_SUCCESS,
                Event.fx_file_close FX_SUCCESS,
                Event.fx_media_flush FX_SUCCESS,
                Event.fx_directory_information_get Config.small.FILE_NAME_ONE FX_SUCCESS,
                Event.PRINT_ENTRY_INFO entry,
                Event.PRINT_INFO_STR "\r\nWrite to a file successful\r\n"]) := by
  obtain ⟨st, evs, hout, h⟩ :=
    write_success_order Config.small Script.ok.world (Run.start Config.small)
      (by decide) (by decide)
  have hev : (outcome (file_write Config.small Script.ok.world) (Run.start Config.small)).map
      (fun p => decide (p.1 = FX_SUCCESS ∧
        Event.fx_file_open Config.small.FILE_NAME_ONE FX_OPEN_FOR_WRITE FX_SUCCESS ∈ p.2))
      = some true := by decide
  rw [hout] at hev
  simp only [Option.map_some', Option.some.injEq, decide_eq_true_eq] at hev
  exact ⟨by decide, by decide, st, evs, hout, hev.1, hev.2, h hev.1 hev.2⟩

/-! ## The fixed buffer (C18) -/

theorem strncpy_length (src : List Nat) (n : Nat) : (strncpy src n).length = n := by
  unfold strncpy
  simp only [List.length_append, List.length_take, List.length_replicate]
  omega

theorem filled_length (cfg : Config) (i : Nat) :
    (filled cfg i).length = i * cfg.WRITE_LINE_SIZE := by
  induction i with
  | zero => simp [filled]
  | succ i ih =>
    simp only [filled, List.length_append, ih, strncpy_length]
    rw [Nat.succ_mul]

theorem store_at_append (xs zs bytes : List Nat) :
    store_at (xs ++ zs) xs.length bytes = xs ++ bytes ++ zs.drop bytes.length := by
  unfold store_at
  rw [List.take_left, List.drop_append]

/-- One pass of the fill loop appends one line to the lines stored so far. -/
theorem store_at_filled (cfg : Config) (i m : Nat) :
    store_at (filled cfg i ++ List.replicate m NULL_CHAR) (i * cfg.WRITE_LINE_SIZE)
        (strncpy cfg.WRITE_LINE_TEXT cfg.WRITE_LINE_SIZE)
      = filled cfg (i + 1) ++ List.replicate (m - cfg.WRITE_LINE_SIZE) NULL_CHAR := by
  have h := store_at_append (filled cfg i) (List.replicate m NULL_CHAR)
    (strncpy cfg.WRITE_LINE_TEXT cfg.WRITE_LINE_SIZE)
  rw [filled_length, strncpy_length, List.drop_replicate] at h
  rw [h]
  rfl

/-- The fill loop, entered at counter value `i` with `i` lines stored, leaves
`WRITE_BUFFER_SIZE / WRITE_LINE_SIZE` lines and the rest of the buffer as
`memset` left it. -/
theorem create_fixed_buffer_loop_fills (cfg : Config)
    (h16 : cfg.WRITE_BUFFER_SIZE / cfg.WRITE_LINE_SIZE < 2 ^ 16) :
    ∀ (fuel i : Nat), i ≤ cfg.WRITE_BUFFER_SIZE / cfg.WRITE_LINE_SIZE →
      cfg.WRITE_BUFFER_SIZE / cfg.WRITE_LINE_SIZE - i < fuel →
      create_fixed_buffer_loop cfg fuel i (i * cfg.WRITE_LINE_SIZE)
          (filled cfg i
            ++ List.replicate (cfg.WRITE_BUFFER_SIZE - i * cfg.WRITE_LINE_SIZE) NULL_CHAR)
        = some (filled cfg (cfg.WRITE_BUFFER_SIZE / cfg.WRITE_LINE_SIZE)
            ++ List.replicate
              (cfg.WRITE_BUFFER_SIZE
                - cfg.WRITE_BUFFER_SIZE / cfg.WRITE_LINE_SIZE * cfg.WRITE_LINE_SIZE)
              NULL_CHAR) := by
  intro fuel
  induction fuel with
  | zero => intro i _ h; omega
  | succ fuel ih =>
    intro i hi hfuel
    unfold create_fixed_buffer_loop
    by_cases hlt : i < cfg.WRITE_BUFFER_SIZE / cfg.WRITE_LINE_SIZE
    · have hmod : (i + 1) % 2 ^ 16 = i + 1 := Nat.mod_eq_of_lt (by omega)
      have hp : i * cfg.WRITE_LINE_SIZE + cfg.WRITE_LINE_SIZE = (i + 1) * cfg.WRITE_LINE_SIZE :=
        (Nat.succ_mul i cfg.WRITE_LINE_SIZE).symm
      have hm : cfg.WRITE_BUFFER_SIZE - i * cfg.WRITE_LINE_SIZE - cfg.WRITE_LINE_SIZE
          = cfg.WRITE_BUFFER_SIZE - (i + 1) * cfg.WRITE_LINE_SIZE := by
        rw [← hp]
        omega
      rw [if_pos hlt, hmod, store_at_filled, hp, hm]
      exact ih (i + 1) (by omega) (by omega)
    · have hi2 : i = cfg.WRITE_BUFFER_SIZE / cfg.WRITE_LINE_SIZE := by omega
      rw [if_neg hlt, ← hi2]

/-- The contents of the buffer after `create_fixed_buffer`. -/
theorem fixed_buffer_eq (cfg : Config)
    (h16 : cfg.WRITE_BUFFER_SIZE / cfg.WRITE_LINE_SIZE < 2 ^ 16) :
    create_fixed_buffer_loop cfg (2 ^ 16 + 1) 0 0 (memset NULL_CHAR cfg.WRITE_BUFFER_SIZE)
        = some (fixed_buffer cfg)
      ∧ fixed_buffer cfg
        = filled cfg (cfg.WRITE_BUFFER_SIZE / cfg.WRITE_LINE_SIZE)
          ++ List.replicate
            (cfg.WRITE_BUFFER_SIZE
              - cfg.WRITE_BUFFER_SIZE / cfg.WRITE_LINE_SIZE * cfg.WRITE_LINE_SIZE)
            NULL_CHAR := by
  have h := create_fixed_buffer_loop_fills cfg h16 (2 ^ 16 + 1) 0 (Nat.zero_le _) (by omega)
  simp only [Nat.zero_mul, Nat.sub_zero, filled, List.nil_append] at h
  have e : memset NULL_CHAR cfg.WRITE_BUFFER_SIZE
      = List.replicate cfg.WRITE_BUFFER_SIZE NULL_CHAR := rfl
  unfold fixed_buffer
  rw [e, h]
  exact ⟨rfl, rfl⟩

/-- Byte `j` of `i` whole lines is byte `j mod WRITE_LINE_SIZE` of the line. -/
theorem filled_getElem? (cfg : Config) (i j : Nat) (hj : j < i * cfg.WRITE_LINE_SIZE) :
    (filled cfg i)[j]? = (strncpy cfg.WRITE_LINE_TEXT cfg.WRITE_LINE_SIZE)[j % cfg.WRITE_LINE_SIZE]? := by
  induction i with
  | zero => simp at hj
  | succ i ih =>
    rw [Nat.succ_mul] at hj
    simp only [filled]
    by_cases h : j < i * cfg.WRITE_LINE_SIZE
    · rw [List.getElem?_append_left (by rw [filled_length]; exact h)]
      exact ih h
    · rw [List.getElem?_append_right (by rw [filled_length]; omega), filled_length]
      have e : j = (j - i * cfg.WRITE_LINE_SIZE) + i * cfg.WRITE_LINE_SIZE := by omega
      have hm : j % cfg.WRITE_LINE_SIZE = j - i * cfg.WRITE_LINE_SIZE := by
        conv_lhs => rw [e]
        rw [Nat.add_mul_mod_self_right]
        exact Nat.mod_eq_of_lt (by omega)
      rw [hm]

theorem write_run_buffer (cfg : Config) (st : UINT) (evs : List Event)
    (hrun : WriteRun cfg st evs) (buf : List Nat) (n : Nat) (s : UINT)
    (he : Event.fx_file_write buf n s ∈ evs) :
    buf = fixed_buffer cfg ∧ n = cfg.WRITE_BUFFER_SIZE := by
  have key : ∀ e ∈ evs, ∀ buf n s, e = Event.fx_file_write buf n s →
      buf = fixed_buffer cfg ∧ n = cfg.WRITE_BUFFER_SIZE := by
    intro e he
    cases hrun
    all_goals
      simp only [List.mem_cons, List.mem_append, List.mem_singleton, List.not_mem_nil,
        or_false] at he
      try casesm* _ ∨ _
    all_goals first
      | (rcases mem_chunks _ _ _ _ _ ‹_ ∈ chunks _ _ _ _› with rfl | rfl | rfl <;>
          intro _ _ _ h <;> cases h <;> exact ⟨rfl, rfl⟩)
      | (subst_vars
         intro _ _ _ h
         cases h <;> exact ⟨rfl, rfl⟩)
  exact key _ he buf n s rfl

/-- Claim C18 as stated fails: with lines of two bytes in a buffer of five
(`0 < 2 ≤ 5`), `create_fixed_buffer` leaves the bytes 65 66 65 66 0: index 4
holds NUL, not byte `4 mod 2 = 0` of the line, which is 65. -/
theorem fixed_buffer_fills_whole_buffer_counterexample :
    0 < Config.ragged.WRITE_LINE_SIZE
      ∧ Config.ragged.WRITE_LINE_SIZE ≤ Config.ragged.WRITE_BUFFER_SIZE
      ∧ (create_fixed_buffer Config.ragged (Run.start Config.ragged)).2.g_write_data
        = [65, 66, 65, 66, 0]
      ∧ strncpy Config.ragged.WRITE_LINE_TEXT Config.ragged.WRITE_LINE_SIZE = [65, 66]
      ∧ ([65, 66, 65, 66, 0] : List Nat)[4]? = some 0
      ∧ ([65, 66] : List Nat)[4 % 2]? = some 65 := by
  decide

/-- Claim C18, amended: with `WRITE_BUFFER_SIZE / WRITE_LINE_SIZE` in the
range of the 16-bit counter, `create_fixed_buffer` returns and leaves in
`g_write_data` a buffer of `WRITE_BUFFER_SIZE` bytes in which every index `j`
below `(WRITE_BUFFER_SIZE / WRITE_LINE_SIZE) * WRITE_LINE_SIZE` holds byte
`j mod WRITE_LINE_SIZE` of the line (the text cut or NUL-padded to
`WRITE_LINE_SIZE` bytes by `strncpy`) and every index from there on holds
NUL, as `memset` left it; the whole buffer is filled with the line when
`WRITE_LINE_SIZE` divides `WRITE_BUFFER_SIZE`.  Every `fx_file_write` call of
`file_write` is passed exactly this buffer, with size `WRITE_BUFFER_SIZE`. -/
theorem fixed_buffer_pattern {σ : Type} (cfg : Config) (W : World σ) (r : Run σ)
    (h16 : cfg.WRITE_BUFFER_SIZE / cfg.WRITE_LINE_SIZE < 2 ^ 16)
    (h32 : cfg.WRITE_TIMES < 2 ^ 32) :
    ((create_fixed_buffer cfg r).1 = Flow.next ()
        ∧ (create_fixed_buffer cfg r).2.g_write_data = fixed_buffer cfg)
      ∧ (fixed_buffer cfg).length = cfg.WRITE_BUFFER_SIZE
      ∧ (strncpy cfg.WRITE_LINE_TEXT cfg.WRITE_LINE_SIZE).length = cfg.WRITE_LINE_SIZE
      ∧ (∀ j, j < cfg.WRITE_BUFFER_SIZE / cfg.WRITE_LINE_SIZE * cfg.WRITE_LINE_SIZE →
        (fixed_buffer cfg)[j]?
          = (strncpy cfg.WRITE_LINE_TEXT cfg.WRITE_LINE_SIZE)[j % cfg.WRITE_LINE_SIZE]?)
      ∧ (∀ j, cfg.WRITE_BUFFER_SIZE / cfg.WRITE_LINE_SIZE * cfg.WRITE_LINE_SIZE ≤ j →
        j < cfg.WRITE_BUFFER_SIZE → (fixed_buffer cfg)[j]? = some NULL_CHAR)
      ∧ (cfg.WRITE_LINE_SIZE ∣ cfg.WRITE_BUFFER_SIZE → ∀ j, j < cfg.WRITE_BUFFER_SIZE →
        (fixed_buffer cfg)[j]?
          = (strncpy cfg.WRITE_LINE_TEXT cfg.WRITE_LINE_SIZE)[j % cfg.WRITE_LINE_SIZE]?)
      ∧ ∃ st evs, outcome (file_write cfg W) r = some (st, evs) ∧
        ∀ buf n s, Event.fx_file_write buf n s ∈ evs →
          buf = fixed_buffer cfg ∧ n = cfg.WRITE_BUFFER_SIZE := by
  obtain ⟨hloop, hfb⟩ := fixed_buffer_eq cfg h16
  have hle : cfg.WRITE_BUFFER_SIZE / cfg.WRITE_LINE_SIZE * cfg.WRITE_LINE_SIZE
      ≤ cfg.WRITE_BUFFER_SIZE := Nat.div_mul_le_self _ _
  have hidx : ∀ j, j < cfg.WRITE_BUFFER_SIZE / cfg.WRITE_LINE_SIZE * cfg.WRITE_LINE_SIZE →
      (fixed_buffer cfg)[j]?
        = (strncpy cfg.WRITE_LINE_TEXT cfg.WRITE_LINE_SIZE)[j % cfg.WRITE_LINE_SIZE]? := by
    intro j hj
    rw [hfb, List.getElem?_append_left (by rw [filled_length]; exact hj)]
    exact filled_getElem? cfg _ j hj
  refine ⟨?_, ?_, strncpy_length _ _, hidx, ?_, ?_, ?_⟩
  · unfold create_fixed_buffer
    rw [hloop]
    exact ⟨rfl, rfl⟩
  · rw [hfb, List.length_append, filled_length, List.length_replicate]
    omega
  · intro j h1 h2
    rw [hfb, List.getElem?_append_right (by rw [filled_length]; exact h1), filled_length,
      List.getElem?_replicate_of_lt (by omega)]
  · intro hdvd j hj
    rw [← Nat.div_mul_cancel hdvd] at hj
    exact hidx j hj
  · obtain ⟨st, evs, hout, hrun⟩ := file_write_run cfg W r h16 h32
    exact ⟨st, evs, hout, fun buf n s he => write_run_buffer cfg st evs hrun buf n s he⟩

/-- Claim C18 amended, on lines of two bytes in a buffer of five: index 3
holds byte 1 of the line and index 4 holds NUL; and on lines of two bytes in
a buffer of four, where the width divides the size: index 3 holds byte 1 of
the line. -/
theorem fixed_buffer_pattern_witness :
    Config.ragged.WRITE_BUFFER_SIZE / Config.ragged.WRITE_LINE_SIZE < 2 ^ 16
      ∧ Config.ragged.WRITE_TIMES < 2 ^ 32
      ∧ (fixed_buffer Config.ragged)[3]?
        = (strncpy Config.ragged.WRITE_LINE_TEXT Config.ragged.WRITE_LINE_SIZE)[3 % 2]?
      ∧ (fixed_buffer Config.ragged)[4]? = some NULL_CHAR
      ∧ Config.small.WRITE_LINE_SIZE ∣ Config.small.WRITE_BUFFER_SIZE
      ∧ (fixed_buffer Config.small)[3]?
        = (strncpy Config.small.WRITE_LINE_TEXT Config.small.WRITE_LINE_SIZE)[3 % 2]? :=
  ⟨by decide, by decide,
    (fixed_buffer_pattern Config.ragged Script.ok.world (Run.start Config.ragged)
      (by decide) (by decide)).2.2.2.1 3 (by decide),
    (fixed_buffer_pattern Config.ragged Script.ok.world (Run.start Config.ragged)
      (by decide) (by decide)).2.2.2.2.1 4 (by decide) (by decide),
    by decide,
    (fixed_buffer_pattern Config.small Script.ok.world (Run.start Config.small)
      (by decide) (by decide)).2.2.2.2.2.1 (by decide) 3 (by decide)⟩

/-! ## The length of the written file (C15) -/

theorem file_length_nil (l : Nat) : file_length l [] = l := rfl

theorem file_length_cons (l : Nat) (e : Event) (evs : List Event) :
    file_length l (e :: evs) = file_length (store_step l e) evs := rfl

theorem file_length_append (l : Nat) (xs ys : List Event) :
    file_length l (xs ++ ys) = file_length (file_length l xs) ys := by
  unfold file_length
  exact List.foldl_append _ _ _ _

theorem file_length_chunks (cfg : Config) (buf : List Nat) (l i k : Nat) :
    file_length l (chunks cfg buf i k) = l + k * cfg.WRITE_BUFFER_SIZE := by
  induction k generalizing l i with
  | zero => simp [chunks, file_length_nil]
  | succ k ih =>
    rw [chunks_succ, file_length_append, ih]
    have hc : file_length l (chunk cfg buf i) = l + cfg.WRITE_BUFFER_SIZE := by
      unfold chunk
      split <;> simp [file_length_cons, file_length_nil, store_step]
    rw [hc, Nat.succ_mul]
    omega

theorem written_chunks_append (xs ys : List Event) :
    written_chunks (xs ++ ys) = written_chunks xs + written_chunks ys := by
  induction xs with
  | nil => simp [written_chunks]
  | cons e xs ih => cases e <;> simp [written_chunks, ih, Nat.add_assoc]

theorem written_chunks_chunks (cfg : Config) (buf : List Nat) (i k : Nat) :
    written_chunks (chunks cfg buf i k) = k := by
  induction k generalizing i with
  | zero => rfl
  | succ k ih =>
    rw [chunks_succ, written_chunks_append, ih]
    have hc : written_chunks (chunk cfg buf i) = 1 := by
      unfold chunk
      split <;> simp [written_chunks]
    rw [hc]
    omega

section tracks
variable {σ α β : Type} (len : σ → Nat)

theorem tracks_pure (a : α) : Tracks len (Op.pure a : Op σ α) :=
  fun r => ⟨[], by simp [Op.pure], rfl⟩

theorem tracks_ret (v : UINT) : Tracks len (Op.ret v : Op σ α) :=
  fun r => ⟨[], by simp [Op.ret], rfl⟩

theorem tracks_hang : Tracks len (Op.hang : Op σ α) :=
  fun r => ⟨[], by simp [Op.hang], rfl⟩

theorem tracks_emit (e : Event) (h : ∀ l, store_step l e = l) :
    Tracks len (emit e : Op σ Unit) :=
  fun r => ⟨[e], rfl, by simp [emit, file_length_cons, file_length_nil, h]⟩

theorem tracks_call (f : σ → α × σ) (ev : α → Event)
    (h : ∀ s, len (f s).2 = store_step (len s) (ev (f s).1)) :
    Tracks len (call f ev) :=
  fun r => ⟨[ev (f r.world).1], rfl, by simp [call, file_length_cons, file_length_nil, h]⟩

theorem tracks_get_write_data : Tracks len (get_write_data : Op σ (List Nat)) :=
  fun r => ⟨[], by simp [get_write_data], rfl⟩

theorem tracks_bind (m : Op σ α) (k : α → Op σ β) (hm : Tracks len m)
    (hk : ∀ a, Tracks len (k a)) : Tracks len (Op.bind m k) := by
  intro r
  obtain ⟨evs, ht, hl⟩ := hm r
  unfold Op.bind
  rcases hmr : m r with ⟨fl, r1⟩
  rw [hmr] at ht hl
  cases fl with
  | next a =>
    obtain ⟨evs1, ht1, hl1⟩ := hk a r1
    refine ⟨evs ++ evs1, ?_, ?_⟩
    · simp only at ht ⊢
      rw [ht1, ht, List.append_assoc]
    · simp only at hl ⊢
      rw [hl1, hl, file_length_append]
  | ret v => exact ⟨evs, ht, hl⟩
  | hang => exact ⟨evs, ht, hl⟩

theorem tracks_when (c : Prop) [Decidable c] (body : Op σ Unit) (h : Tracks len body) :
    Tracks len (Op.when c body) := by
  unfold Op.when
  split
  · exact h
  · exact tracks_pure len ()

theorem tracks_err (err : UINT) (str : String) :
    Tracks len (RETURN_ERR_STR err str : Op σ Unit) := by
  unfold RETURN_ERR_STR
  split
  · exact tracks_bind len _ _ (tracks_emit len _ (fun _ => rfl)) (fun _ => tracks_ret len err)
  · exact tracks_pure len ()

theorem tracks_create_fixed_buffer (cfg : Config) :
    Tracks len (create_fixed_buffer cfg : Op σ Unit) := by
  intro r
  unfold create_fixed_buffer
  split
  · exact ⟨[], by simp, rfl⟩
  · exact ⟨[], by simp, rfl⟩

end tracks

/-- The transfer loop keeps the file length in step with its trace. -/
theorem tracks_write_loop {σ : Type} (cfg : Config) (W : World σ) (len : σ → Nat)
    (hW : StoreModel W len) :
    ∀ (fuel i : Nat), Tracks len (write_loop cfg W fuel i) := by
  intro fuel
  induction fuel with
  | zero =>
    intro i
    unfold write_loop
    exact tracks_hang len
  | succ fuel ih =>
    intro i
    unfold write_loop
    split
    · simp only [PRINT_INFO_STR, bind_eq, pure_eq]
      repeat' first
        | exact ih _
        | exact tracks_get_write_data len
        | exact tracks_err len _ _
        | exact tracks_ret len _
        | exact tracks_pure len _
        | exact tracks_emit len _ (fun _ => rfl)
        | exact tracks_call len _ _ (fun s => (hW.fx_file_write _ _ s).trans rfl)
        | exact tracks_call len _ _ (fun s => hW.tx_event_flags_get s)
        | exact tracks_call len _ _ (fun s => hW.fx_file_close s)
        | apply tracks_when
        | (apply tracks_bind; rotate_left; intro _)
    · exact tracks_pure len ()

/-- The function `file_write` keeps the file length in step with its
trace. -/
theorem tracks_file_write {σ : Type} (cfg : Config) (W : World σ) (len : σ → Nat)
    (hW : StoreModel W len) : Tracks len (file_write cfg W) := by
  simp only [file_write, PRINT_INFO_STR, PRINT_ENTRY_INFO, bind_eq, pure_eq]
  repeat' first
    | exact tracks_write_loop cfg W len hW _ _
    | exact tracks_create_fixed_buffer len cfg
    | exact tracks_err len _ _
    | exact tracks_ret len _
    | exact tracks_pure len _
    | exact tracks_emit len _ (fun _ => rfl)
    | exact tracks_call len _ _ (fun s => hW.media_verify s)
    | exact tracks_call len _ _ (fun s => hW.fx_file_open _ _ s)
    | exact tracks_call len _ _ (fun s => (hW.fx_file_extended_truncate _ s).trans rfl)
    | exact tracks_call len _ _ (fun s => hW.fx_file_close s)
    | exact tracks_call len _ _ (fun s => hW.fx_system_time_get _ s)
    | exact tracks_call len _ _ (fun s => hW.fx_system_date_get _ s)
    | exact tracks_call len _ _ (fun s => hW.fx_file_date_time_set _ _ s)
    | exact tracks_call len _ _ (fun s => hW.fx_media_flush s)
    | exact tracks_call len _ _ (fun s => hW.fx_directory_information_get _ s)
    | apply tracks_when
    | (apply tracks_bind; rotate_left; intro _)

/-- The test double over a file is a store model. -/
theorem Script.disk_store_model (S : Script) : StoreModel S.disk (fun s => s.2) where
  media_verify := fun _ => rfl
  fx_file_open := fun _ _ _ => rfl
  fx_file_extended_truncate := fun _ _ => rfl
  fx_file_write := fun _ _ _ => rfl
  tx_event_flags_get := fun _ => rfl
  fx_file_close := fun _ => rfl
  fx_system_time_get := fun _ _ => rfl
  fx_system_date_get := fun _ _ => rfl
  fx_file_date_time_set := fun _ _ _ => rfl
  fx_media_flush := fun _ => rfl
  fx_directory_information_get := fun _ _ => rfl

/-- What `outcome` reports is the value `exec` returns and the events added
to the trace of the state `exec` leaves. -/
theorem exec_of_outcome {σ : Type} (op : Op σ UINT) (r : Run σ) (st : UINT) (evs : List Event)
    (h : outcome op r = some (st, evs)) :
    exec op r = some (st, (op r).2) ∧ evs = (op r).2.trace.drop r.trace.length := by
  unfold outcome at h
  unfold exec at h ⊢
  rcases hop : op r with ⟨fl, r1⟩
  rw [hop] at h
  cases fl <;> simp at h ⊢ <;> exact ⟨h.1, h.2.symm⟩

/-- The file length after a `file_write` run whose truncate succeeded, from
any length before. -/
theorem write_run_length (cfg : Config) (st : UINT) (evs : List Event)
    (hrun : WriteRun cfg st evs)
    (htr : Event.fx_file_extended_truncate TRUNCATE_VALUE FX_SUCCESS ∈ evs) (l : Nat) :
    file_length l evs = cfg.WRITE_BUFFER_SIZE * written_chunks evs
      ∧ (wait_results evs = List.replicate cfg.WRITE_TIMES TX_SUCCESS →
        written_chunks evs = cfg.WRITE_TIMES) := by
  have hmem : ∀ i k, Event.fx_file_extended_truncate TRUNCATE_VALUE FX_SUCCESS
      ∉ chunks cfg (fixed_buffer cfg) i k := by
    intro i k h
    rcases mem_chunks cfg _ i k _ h with h | h | h <;> cases h
  cases hrun
  case not_ready => simp at htr
  case not_found => simp at htr
  case open_failed => simp at htr
  case truncate_failed_close_failed s hs hc => simp at htr; exact absurd htr hs
  case truncate_failed hs => simp at htr; exact absurd htr hs
  case write_failed_close_failed k s hk hs hc =>
    refine ⟨?_, ?_⟩
    · simp [file_length_cons, file_length_append, file_length_chunks, file_length_nil,
        store_step, written_chunks, written_chunks_append, written_chunks_chunks,
        TRUNCATE_VALUE, hs, Nat.mul_comm]
    · intro hw
      simp [wait_results, wait_results_append, wait_results_chunks] at hw
      omega
  case write_failed k hk hs =>
    refine ⟨?_, ?_⟩
    · simp [file_length_cons, file_length_append, file_length_chunks, file_length_nil,
        store_step, written_chunks, written_chunks_append, written_chunks_chunks,
        TRUNCATE_VALUE, hs, Nat.mul_comm]
    · intro hw
      simp [wait_results, wait_results_append, wait_results_chunks] at hw
      omega
  case wait_failed_close_failed k t hk ht hc =>
    refine ⟨?_, ?_⟩
    · simp [file_length_cons, file_length_append, file_length_chunks, file_length_nil,
        store_step, written_chunks, written_chunks_append, written_chunks_chunks,
        TRUNCATE_VALUE, Nat.mul_comm, Nat.mul_add]
    · intro hw
      simp only [wait_results, wait_results_append, wait_results_chunks] at hw
      exact absurd hw (replicate_append_singleton_ne k _ TX_SUCCESS t ht)
  case wait_failed k hk ht =>
    refine ⟨?_, ?_⟩
    · simp [file_length_cons, file_length_append, file_length_chunks, file_length_nil,
        store_step, written_chunks, written_chunks_append, written_chunks_chunks,
        TRUNCATE_VALUE, Nat.mul_comm, Nat.mul_add]
    · intro hw
      simp only [wait_results, wait_results_append, wait_results_chunks] at hw
      exact absurd hw (replicate_append_singleton_ne k _ TX_SUCCESS st ht)
  all_goals
    refine ⟨?_, fun _ => ?_⟩
    · simp [file_length_cons, file_length_append, file_length_chunks, file_length_nil,
        store_step, written_chunks, written_chunks_append, written_chunks_chunks,
        TRUNCATE_VALUE, Nat.mul_comm]
    · simp [written_chunks, written_chunks_append, written_chunks_chunks]

/-- A `file_write` run that opened the file calls truncate right after the
open, and neither truncates nor opens again. -/
theorem write_run_truncate (cfg : Config) (st : UINT) (evs : List Event)
    (hrun : WriteRun cfg st evs)
    (ho : Event.fx_file_open cfg.FILE_NAME_ONE FX_OPEN_FOR_WRITE FX_SUCCESS ∈ evs) :
    ∃ s rest, evs =
        Event.media_verify FX_SUCCESS
          :: Event.fx_file_open cfg.FILE_NAME_ONE FX_OPEN_FOR_WRITE FX_SUCCESS
          :: Event.fx_file_extended_truncate TRUNCATE_VALUE s :: rest ∧
      ∀ x ∈ rest, (∀ size s1, x ≠ Event.fx_file_extended_truncate size s1) ∧
        ∀ name mode o, x ≠ Event.fx_file_open name mode o := by
  cases hrun
  case not_ready => simp at ho
  case not_found => simp [FX_SUCCESS, FX_NOT_FOUND] at ho
  case open_failed h1 h2 => simp at ho; exact absurd ho h2
  all_goals
    refine ⟨_, _, rfl, ?_⟩
    intro x hx
    simp only [List.mem_cons, List.mem_append, List.mem_singleton, List.not_mem_nil,
      or_false] at hx
    try casesm* _ ∨ _
    all_goals first
      | (rcases mem_chunks _ _ _ _ _ ‹_ ∈ chunks _ _ _ _› with h | h | h <;> subst h <;> simp)
      | (subst_vars; simp)

/-- A `file_write` run without a successful truncate leaves the file length
as it was. -/
theorem write_run_untouched (cfg : Config) (st : UINT) (evs : List Event)
    (hrun : WriteRun cfg st evs)
    (htr : Event.fx_file_extended_truncate TRUNCATE_VALUE FX_SUCCESS ∉ evs) (l : Nat) :
    file_length l evs = l := by
  cases hrun
  case not_ready => rfl
  case not_found => rfl
  case open_failed => rfl
  case truncate_failed_close_failed s hs hc =>
    simp [file_length_cons, file_length_nil, store_step, hs]
  case truncate_failed hs =>
    simp [file_length_cons, file_length_nil, store_step, hs]
  all_goals
    exfalso
    apply htr
    simp

/-- Claim C15 as stated fails: with the medium not ready, `file_write` over a
file of 7 bytes returns `FX_SUCCESS` after the verify alone: it issues no
truncate, no write succeeded, and the file still has 7 bytes, which is not
`WRITE_BUFFER_SIZE` times the number of successful writes. -/
theorem write_sets_length_counterexample :
    (exec (file_write Config.small Script.not_ready.disk) (Run.on_file Config.small 7)).map
        (fun p => (p.1, p.2.trace, p.2.world.2, written_chunks p.2.trace))
      = some (FX_SUCCESS, [Event.media_verify 1], 7, 0)
      ∧ (7 : Nat) ≠ Config.small.WRITE_BUFFER_SIZE * 0 := by
  decide

/-- Claim C15, amended: over a store model (`StoreModel`: a successful
truncate to zero sets the file length to 0, each successful write appends its
byte count, no other call of `file_write` changes the length), `file_write`
(loop counters in range) returns, and
* if the open succeeded, the truncate is the call right after the open, and
  no other truncate and no other open is issued, so the file is truncated once,
  before every write;
* every `fx_file_write` is a write of `WRITE_BUFFER_SIZE` bytes;
* if the truncate succeeded, the final file length is `WRITE_BUFFER_SIZE`
  times the number of successful write calls, whatever the length before, and
  it is `WRITE_TIMES * WRITE_BUFFER_SIZE` when `WRITE_TIMES` waits were issued
  and all succeeded;
* if no truncate succeeded (medium not ready, file missing, open or truncate
  failed), the file length is what it was. -/
theorem write_sets_length {σ : Type} (cfg : Config) (W : World σ) (len : σ → Nat)
    (hW : StoreModel W len) (r : Run σ)
    (h16 : cfg.WRITE_BUFFER_SIZE / cfg.WRITE_LINE_SIZE < 2 ^ 16)
    (h32 : cfg.WRITE_TIMES < 2 ^ 32) :
    ∃ st r1 evs, exec (file_write cfg W) r = some (st, r1) ∧ r1.trace = r.trace ++ evs ∧
      (Event.fx_file_open cfg.FILE_NAME_ONE FX_OPEN_FOR_WRITE FX_SUCCESS ∈ evs →
        ∃ s rest, evs =
            Event.media_verify FX_SUCCESS
              :: Event.fx_file_open cfg.FILE_NAME_ONE FX_OPEN_FOR_WRITE FX_SUCCESS
              :: Event.fx_file_extended_truncate TRUNCATE_VALUE s :: rest ∧
          ∀ x ∈ rest, (∀ size s1, x ≠ Event.fx_file_extended_truncate size s1) ∧
            ∀ name mode o, x ≠ Event.fx_file_open name mode o) ∧
      (∀ buf n s, Event.fx_file_write buf n s ∈ evs → n = cfg.WRITE_BUFFER_SIZE) ∧
      (Event.fx_file_extended_truncate TRUNCATE_VALUE FX_SUCCESS ∈ evs →
        len r1.world = cfg.WRITE_BUFFER_SIZE * written_chunks evs ∧
        (wait_results evs = List.replicate cfg.WRITE_TIMES TX_SUCCESS →
          len r1.world = cfg.WRITE_TIMES * cfg.WRITE_BUFFER_SIZE)) ∧
      (Event.fx_file_extended_truncate TRUNCATE_VALUE FX_SUCCESS ∉ evs →
        len r1.world = len r.world) := by
  obtain ⟨st, evs, hout, hrun⟩ := file_write_run cfg W r h16 h32
  obtain ⟨hexec, hevs⟩ := exec_of_outcome _ r st evs hout
  obtain ⟨evs1, ht, hl⟩ := tracks_file_write cfg W len hW r
  have e : evs = evs1 := by
    rw [hevs, ht]
    simp
  subst e
  refine ⟨st, _, evs, hexec, ht, write_run_truncate cfg st evs hrun, ?_, ?_, ?_⟩
  · intro buf n s he
    exact (write_run_buffer cfg st evs hrun buf n s he).2
  · intro htr
    obtain ⟨h1, h2⟩ := write_run_length cfg st evs hrun htr (len r.world)
    refine ⟨hl.trans h1, fun hw => ?_⟩
    rw [hl, h1, h2 hw, Nat.mul_comm]
  · intro htr
    exact hl.trans (write_run_untouched cfg st evs hrun htr (len r.world))

/-- Claim C15 amended, on the test double in which every call succeeds, over
a file of 7 bytes and one chunk of 4 bytes: the truncate follows the open,
and the file ends with 4 bytes. -/
theorem write_sets_length_witness :
    Config.odd.WRITE_BUFFER_SIZE / Config.odd.WRITE_LINE_SIZE < 2 ^ 16
      ∧ Config.odd.WRITE_TIMES < 2 ^ 32
      ∧ ∃ st r1 evs, exec (file_write Config.odd Script.ok.disk) (Run.on_file Config.odd 7)
          = some (st, r1) ∧
        r1.trace = (Run.on_file Config.odd 7).trace ++ evs ∧
        Event.fx_file_open Config.odd.FILE_NAME_ONE FX_OPEN_FOR_WRITE FX_SUCCESS ∈ evs ∧
        Event.fx_file_extended_truncate TRUNCATE_VALUE FX_SUCCESS ∈ evs ∧
        wait_results evs = List.replicate Config.odd.WRITE_TIMES TX_SUCCESS ∧
        (∃ s rest, evs =
          Event.media_verify FX_SUCCESS
            :: Event.fx_file_open Config.odd.FILE_NAME_ONE FX_OPEN_FOR_WRITE FX_SUCCESS
            :: Event.fx_file_extended_truncate TRUNCATE_VALUE s :: rest) ∧
        r1.world.2 = Config.odd.WRITE_BUFFER_SIZE * written_chunks evs ∧
        r1.world.2 = 1 * 4 := by
  obtain ⟨st, r1, evs, hexec, ht, hop, _, h, _⟩ :=
    write_sets_length Config.odd Script.ok.disk (fun s => s.2) Script.ok.disk_store_model
      (Run.on_file Config.odd 7) (by decide) (by decide)
  have hev : (exec (file_write Config.odd Script.ok.disk) (Run.on_file Config.odd 7)).map
      (fun p => decide
        (Event.fx_file_open Config.odd.FILE_NAME_ONE FX_OPEN_FOR_WRITE FX_SUCCESS ∈ p.2.trace ∧
          Event.fx_file_extended_truncate TRUNCATE_VALUE FX_SUCCESS ∈ p.2.trace ∧
          wait_results p.2.trace = List.replicate Config.odd.WRITE_TIMES TX_SUCCESS))
      = some true := by decide
  rw [hexec] at hev
  simp only [Option.map_some', Option.some.injEq, decide_eq_true_eq] at hev
  have e : r1.trace = evs := by
    rw [ht]
    rfl
  rw [e] at hev
  obtain ⟨s, rest, hrest, _⟩ := hop hev.1
  exact ⟨by decide, by decide, st, r1, evs, hexec, ht, hev.1, hev.2.1, hev.2.2,
    ⟨s, rest, hrest⟩, (h hev.2.1).1, (h hev.2.1).2 hev.2.2⟩

end Filex
